import Mathlib

/-! Weather comfort-index pages: a shallow embedding.

The pages under `frontend/pages` are React components.  Their state (`useState` cells,
`useRef` cells, pending timers, fetches in flight) is made explicit here, and every handler is a
function on that state.  An `await` splits a handler in two: the part run up to the suspension
and the part run when the awaited promise settles.

JavaScript values are modelled by `JSVal`.  A finite JavaScript number is an IEEE double and hence
a rational; the thresholds the pages compare against (80, 60, 50, 40, 20, 0) are exact doubles, so
the comparisons are the comparisons of `ℚ`.  The one arithmetic operation of the pages,
`100 - score`, rounds its exact result to the nearest double (`roundDouble`).
-/

namespace JS

/-- A JavaScript value as the pages meet it: `undefined`, or what `response.json()` yields
(the JSON values), or an object literal built by the page.  `num q` is the finite number of
value `q`; JSON text has no way to write NaN, so no parsed body holds it. -/
inductive JSVal where
  | undefined
  | null
  | bool (b : Bool)
  | num (q : ℚ)
  | str (s : String)
  | arr (items : List JSVal)
  | obj (fields : List (String × JSVal))

/-- Own property `key` in a property list; `undefined` when there is none. -/
def lookup (key : String) : List (String × JSVal) → JSVal
  | [] => JSVal.undefined
  | (k, v) :: rest => if k = key then v else lookup key rest

/-- Property read `v.key` for a receiver that is neither `null` nor `undefined`.  The keys the
pages read (`score`, `label`, `error`, `detail`, ...) are own properties of objects only. -/
def JSVal.get : JSVal → String → JSVal
  | JSVal.obj fields, key => lookup key fields
  | _, _ => JSVal.undefined

/-- Property read `v.key` as an expression: reading from `null` or `undefined` throws a
TypeError, whose message (in the wording of V8) is the exception carried here. -/
def JSVal.read : JSVal → String → Except String JSVal
  | JSVal.undefined, key =>
      Except.error ("Cannot read properties of undefined (reading '" ++ key ++ "')")
  | JSVal.null, key =>
      Except.error ("Cannot read properties of null (reading '" ++ key ++ "')")
  | v, key => Except.ok (v.get key)

/-- ToBoolean. -/
def JSVal.truthy : JSVal → Bool
  | JSVal.undefined => false
  | JSVal.null => false
  | JSVal.bool b => b
  | JSVal.num q => decide (q ≠ 0)
  | JSVal.str s => decide (s ≠ "")
  | JSVal.arr _ => true
  | JSVal.obj _ => true

/-- The expression `a || b`. -/
def JSVal.or (a b : JSVal) : JSVal :=
  if a.truthy then a else b

/-- ToNumber; `none` is NaN.  The conversion of strings, arrays and objects (StringToNumber,
ToPrimitive) is a built-in of the language and is taken as the parameter `conv`. -/
def JSVal.toNumber (conv : JSVal → Option ℚ) : JSVal → Option ℚ
  | JSVal.undefined => none
  | JSVal.null => some 0
  | JSVal.bool b => some (if b then 1 else 0)
  | JSVal.num q => some q
  | v => conv v

/-- The comparison `v >= n` against a number literal `n`: false when `v` converts to NaN. -/
def JSVal.ge (conv : JSVal → Option ℚ) (v : JSVal) (n : ℚ) : Bool :=
  match v.toNumber conv with
  | some q => decide (n ≤ q)
  | none => false

/-- The comparison `v < n` against a number literal `n`: false when `v` converts to NaN. -/
def JSVal.lt (conv : JSVal → Option ℚ) (v : JSVal) (n : ℚ) : Bool :=
  match v.toNumber conv with
  | some q => decide (q < n)
  | none => false

/-- The comparison `v === 'text'` against a string literal. -/
def JSVal.isStr (v : JSVal) (text : String) : Bool :=
  match v with
  | JSVal.str s => decide (s = text)
  | _ => false

/-- How one `fetch(url)` followed by `response.json()` ends: `fetch` rejects with an error of the
given message (connection refused, timeout, DNS), or resolves to a response with a status whose
body either parses to `data` or makes `response.json()` reject with the given message. -/
inductive Fetched where
  | rejected (message : String)
  | response (status : Nat) (json : Except String JSVal)

/-- The getter `response.ok`: the status is in the range 200 to 299. -/
def ok (status : Nat) : Bool :=
  decide (200 ≤ status) && decide (status ≤ 299)

end JS

open JS

/-! ## State shared by `index.js` and `index_1.js` -/

namespace Page

/-- The `useState` cells of `Home`, the reveal timers registered by `setTimeout` and not yet
fired (listed by delay in ms; the callback of each is `() => setShowResult(true)`), and the
URLs of the `fetch` calls of `getPrediction` that have not settled yet. -/
structure View where
  result : JSVal
  loading : Bool
  welcomeMessage : JSVal
  showResult : Bool
  timers : List Nat
  fetches : List String

/-- The state after the first render: `useState(null)`, `useState(false)`, `useState('')`,
`useState(false)`.  The welcome message cell holds whatever `setWelcomeMessage` is given. -/
def init : View :=
  ⟨JSVal.null, false, JSVal.str "", false, [], []⟩

def setResult (r : JSVal) (v : View) : View :=
  { v with result := r }

def setLoading (b : Bool) (v : View) : View :=
  { v with loading := b }

def setShowResult (b : Bool) (v : View) : View :=
  { v with showResult := b }

/-- The call `setTimeout(() => setShowResult(true), delay)`. -/
def setTimeout (delay : Nat) (v : View) : View :=
  { v with timers := v.timers ++ [delay] }

/-- The call `fetch(url)` up to the suspension of its `await`. -/
def fetch (url : String) (v : View) : View :=
  { v with fetches := v.fetches ++ [url] }

/-- What happens on the event loop: a button press runs `getPrediction(type)` up to its first
`await`; a pending fetch (by position) settles and the rest of that `getPrediction` runs; a
pending reveal timer (by position) fires. -/
inductive Event where
  | click (type : String)
  | settle (i : Nat) (f : Fetched)
  | timeout (i : Nat)

/-- One event, for a page whose `getPrediction` is `start` up to the `await` and `resume` after
it.  An event naming a fetch or timer that is not pending is not enabled.  The buttons stay
enabled while a request is loading, so a press is enabled in every state. -/
def step (start : String → View → View) (resume : Fetched → View → View) (v : View) :
    Event → Option View
  | Event.click type => some (start type v)
  | Event.settle i f =>
      if i < v.fetches.length then
        some (resume f { v with fetches := v.fetches.eraseIdx i })
      else none
  | Event.timeout i =>
      if i < v.timers.length then
        some (setShowResult true { v with timers := v.timers.eraseIdx i })
      else none

/-- A sequence of events, oldest first. -/
def run (start : String → View → View) (resume : Fetched → View → View) :
    View → List Event → Option View
  | v, [] => some v
  | v, e :: es => (step start resume v e).bind (fun w => run start resume w es)

end Page

/-! ## The gauge chart effect (`useEffect` over `[result, showResult]`) -/

namespace Gauge

/-- A `Chart` object constructed by `loadChart`: the `result` its configuration was computed
from, and whether `destroy()` has been called on it. -/
structure Chart where
  result : JSVal
  destroyed : Bool

/-- Every `Chart` constructed so far (oldest first), the ref cell `chartInstance.current` (the
position of the chart it holds, `none` for `null`), and the `loadChart` calls suspended on
`await import(...)`, each with the `result` its closure captured. -/
structure State where
  charts : List Chart
  chartInstance : Option Nat
  loads : List JSVal

/-- The state at mount: `useRef(null)`, nothing constructed. -/
def init : State :=
  ⟨[], none, []⟩

/-- The call `destroy()` on the chart at a position. -/
def destroyAt : Nat → List Chart → List Chart
  | _, [] => []
  | 0, c :: cs => { c with destroyed := true } :: cs
  | i + 1, c :: cs => c :: destroyAt i cs

/-- `if (chartInstance.current) { chartInstance.current.destroy(); }` -/
def destroyCurrent (s : State) : State :=
  match s.chartInstance with
  | some i => { s with charts := destroyAt i s.charts }
  | none => s

/-- `chartInstance.current = new Chart(ctx, ...)` in a `loadChart` whose closure captured
`result`. -/
def newChart (result : JSVal) (s : State) : State :=
  { s with charts := s.charts ++ [⟨result, false⟩], chartInstance := some s.charts.length }

/-- The part of `loadChart` after the two imports.  `canvas` tells whether `chartRef.current`
holds a canvas: if not, `chartRef.current.getContext` throws and the call ends (as it does when
an import rejects).  `throws result` tells whether a statement of the page between `getContext`
and the `destroy()` of the held chart throws for the captured `result`: then the call ends
there, with nothing destroyed and nothing constructed.  Otherwise the held chart is destroyed
and a new one is constructed. -/
def loadChartResume (throws : JSVal → Bool) (canvas : Bool) (result : JSVal) (s : State) :
    State :=
  if canvas && !throws result then newChart result (destroyCurrent s) else s

/-- What happens to the gauge: the effect body runs (with `chartRef.current` attached or not and
the current `result`), the cleanup of an effect runs, or the imports of a suspended `loadChart`
(by position) resolve. -/
inductive Event where
  | effect (canvas : Bool) (result : JSVal)
  | cleanup
  | loaded (i : Nat) (canvas : Bool)

/-- One event; `returns canvas result` is the guard at the top of the effect, true when the
effect returns without calling `loadChart`, and `throws` is the one of `loadChartResume`. -/
def step (returns : Bool → JSVal → Bool) (throws : JSVal → Bool) (s : State) :
    Event → Option State
  | Event.effect canvas result =>
      if returns canvas result then some s
      else some { s with loads := s.loads ++ [result] }
  | Event.cleanup => some (destroyCurrent s)
  | Event.loaded i canvas =>
      match s.loads[i]? with
      | some result =>
          some (loadChartResume throws canvas result { s with loads := s.loads.eraseIdx i })
      | none => none

/-- A sequence of events, oldest first. -/
def run (returns : Bool → JSVal → Bool) (throws : JSVal → Bool) :
    State → List Event → Option State
  | s, [] => some s
  | s, e :: es => (step returns throws s e).bind (fun t => run returns throws t es)

/-- The number of charts constructed and not destroyed. -/
def liveCount (s : State) : Nat :=
  (s.charts.filter (fun c => !c.destroyed)).length

end Gauge

/-! ## `index_1.js`: five-level gauge -/

namespace Index1

open Page

/-- `getPrediction(type)` up to `await fetch(...)`. -/
def getPredictionStart (base type : String) (v : View) : View :=
  fetch (base ++ "/predict/" ++ type) (setShowResult false (setResult JSVal.null (setLoading true v)))

/-- The `try` block of `getPrediction` once the fetch has settled: the state it leaves, or the
message of the error it throws.  Nothing is written before a throw. -/
def getPredictionTry (f : Fetched) (v : View) : Except String View :=
  match f with
  | Fetched.rejected message => Except.error message
  | Fetched.response status json => do
      let data ← json
      if ok status then
        pure (setTimeout 100 (setResult data v))
      else do
        let detail ← data.read "detail"
        pure (setTimeout 100 (setResult
          (JSVal.obj [("error", detail.or (JSVal.str ("API 오류: " ++ toString status)))]) v))

/-- The rest of `getPrediction` once the fetch has settled: `try`, `catch`, `finally`. -/
def getPredictionResume (f : Fetched) (v : View) : View :=
  let w :=
    match getPredictionTry f v with
    | Except.ok w => w
    | Except.error message =>
        setTimeout 100 (setResult (JSVal.obj [("error", JSVal.str ("네트워크 오류: " ++ message))]) v)
  setLoading false w

def step (base : String) : View → Event → Option View :=
  Page.step (getPredictionStart base) getPredictionResume

def run (base : String) : View → List Event → Option View :=
  Page.run (getPredictionStart base) getPredictionResume

/-- The guard of the gauge effect:
`!chartRef.current || !result || result.error || predictionType === 'now'`, with
`predictionType = result?.prediction_type`. -/
def gaugeReturns (canvas : Bool) (result : JSVal) : Bool :=
  !canvas || !result.truthy || (result.get "error").truthy ||
    (result.get "prediction_type").isStr "now"

/-- `const score = result.score || 0;` in `loadChart`. -/
def score (result : JSVal) : JSVal :=
  (result.get "score").or (JSVal.num 0)

/-- The colour ladder of `loadChart` over the local `score`. -/
def color (conv : JSVal → Option ℚ) (score : JSVal) : String :=
  if score.ge conv 80 then "#4CAF50"
  else if score.ge conv 60 then "#8BC34A"
  else if score.ge conv 40 then "#FFC107"
  else if score.ge conv 20 then "#FF9800"
  else "#E53935"

/-- The emoji ladder of `loadChart`, which tests `result.score` itself. -/
def emoji (conv : JSVal → Option ℚ) (result : JSVal) : String :=
  if (result.get "score").ge conv 80 then "🌟"
  else if (result.get "score").ge conv 60 then "😊"
  else if (result.get "score").ge conv 40 then "😐"
  else if (result.get "score").ge conv 20 then "😟"
  else "⚠️"

end Index1

/-! ## `index _2_tempgraph.js`: the same gauge -/

namespace Tempgraph

/-- A `fetch` of `getPrediction` that has not settled: its URL, the `type` argument of the call
that issued it, and whether it is the hourly request (the second `await`) of that call. -/
structure Request where
  url : String
  type : String
  hourly : Bool

/-- The `useState` cells of `Home`, the pending reveal timers (by delay in ms; the callback of
each is `() => setShowResult(true)`) and the pending fetches of `getPrediction`. -/
structure View where
  result : JSVal
  hourlyData : JSVal
  loading : Bool
  welcomeMessage : JSVal
  showResult : Bool
  timers : List Nat
  fetches : List Request

/-- The state after the first render. -/
def init : View :=
  ⟨JSVal.null, JSVal.null, false, JSVal.str "", false, [], []⟩

def setResult (r : JSVal) (v : View) : View :=
  { v with result := r }

def setHourlyData (h : JSVal) (v : View) : View :=
  { v with hourlyData := h }

def setLoading (b : Bool) (v : View) : View :=
  { v with loading := b }

def setShowResult (b : Bool) (v : View) : View :=
  { v with showResult := b }

/-- The call `setTimeout(() => setShowResult(true), delay)`. -/
def setTimeout (delay : Nat) (v : View) : View :=
  { v with timers := v.timers ++ [delay] }

/-- The call `fetch(url)` up to the suspension of its `await`. -/
def fetch (r : Request) (v : View) : View :=
  { v with fetches := v.fetches ++ [r] }

/-- `getPrediction(type)` up to the first `await fetch(...)`. -/
def getPredictionStart (base type : String) (v : View) : View :=
  fetch ⟨base ++ "/predict/" ++ type, type, false⟩
    (setShowResult false (setHourlyData JSVal.null (setResult JSVal.null (setLoading true v))))

/-- The outer `try` block of `getPrediction(type)` once the first fetch has settled: the state
it leaves, with `true` when it is suspended again at the hourly `await` and `false` when the
block has run to its end; or the message of the error it throws. -/
def getPredictionTry (base type : String) (f : Fetched) (v : View) : Except String (View × Bool) :=
  match f with
  | Fetched.rejected message => Except.error message
  | Fetched.response status json => do
      let data ← json
      if ok status then
        if type = "now" then
          pure (fetch ⟨base ++ "/predict/hourly/" ++ type, type, true⟩ (setResult data v), true)
        else
          pure (setTimeout 100 (setResult data v), false)
      else do
        let detail ← data.read "detail"
        pure (setTimeout 100 (setResult
          (JSVal.obj [("error", detail.or (JSVal.str ("API 오류: " ++ toString status)))]) v), false)

/-- The run of `getPrediction(type)` from the settlement of the first fetch to its next
suspension or its end (`catch` and `finally` included). -/
def getPredictionResume (base type : String) (f : Fetched) (v : View) : View :=
  match getPredictionTry base type f v with
  | Except.ok (w, true) => w
  | Except.ok (w, false) => setLoading false w
  | Except.error message =>
      setLoading false
        (setTimeout 100 (setResult (JSVal.obj [("error", JSVal.str ("네트워크 오류: " ++ message))]) v))

/-- The inner `try` block once the hourly fetch has settled: the state it leaves, or the
message of the error it throws (which the inner `catch` only logs). -/
def hourlyTry (f : Fetched) (v : View) : Except String View :=
  match f with
  | Fetched.rejected message => Except.error message
  | Fetched.response status json => do
      let hourlyResult ← json
      if ok status then do
        let hourly ← hourlyResult.read "hourly"
        pure (setHourlyData hourly v)
      else
        pure v

/-- The run of `getPrediction` from the settlement of the hourly fetch to its end. -/
def getPredictionHourlyResume (f : Fetched) (v : View) : View :=
  let w :=
    match hourlyTry f v with
    | Except.ok w => w
    | Except.error _ => v
  setLoading false (setTimeout 100 w)

/-- What happens on the event loop: a button press, the settlement of a pending fetch (by
position), the firing of a pending reveal timer (by position). -/
inductive Event where
  | click (type : String)
  | settle (i : Nat) (f : Fetched)
  | timeout (i : Nat)

/-- One event. -/
def step (base : String) (v : View) : Event → Option View
  | Event.click type => some (getPredictionStart base type v)
  | Event.settle i f =>
      match v.fetches[i]? with
      | some r =>
          if r.hourly then
            some (getPredictionHourlyResume f { v with fetches := v.fetches.eraseIdx i })
          else
            some (getPredictionResume base r.type f { v with fetches := v.fetches.eraseIdx i })
      | none => none
  | Event.timeout i =>
      if i < v.timers.length then
        some (setShowResult true { v with timers := v.timers.eraseIdx i })
      else none

/-- A sequence of events, oldest first. -/
def run (base : String) : View → List Event → Option View
  | v, [] => some v
  | v, e :: es => (step base v e).bind (fun w => run base w es)

/-- The guard of the gauge effect:
`!chartRef.current || !result || result.error || predictionType === 'now'`, with
`predictionType = result?.prediction_type`. -/
def gaugeReturns (canvas : Bool) (result : JSVal) : Bool :=
  !canvas || !result.truthy || (result.get "error").truthy ||
    (result.get "prediction_type").isStr "now"

/-- `const score = result.score || 0;` in `loadChart`. -/
def score (result : JSVal) : JSVal :=
  (result.get "score").or (JSVal.num 0)

/-- The colour ladder of `loadChart` over the local `score`. -/
def color (conv : JSVal → Option ℚ) (score : JSVal) : String :=
  if score.ge conv 80 then "#4CAF50"
  else if score.ge conv 60 then "#8BC34A"
  else if score.ge conv 40 then "#FFC107"
  else if score.ge conv 20 then "#FF9800"
  else "#E53935"

end Tempgraph

/-! ## `index.js`: four-level gauge -/

namespace Index

open Page

/-- `getPrediction(type)` up to `await fetch(...)`. -/
def getPredictionStart (base type : String) (v : View) : View :=
  fetch (base ++ "/predict/" ++ type) (setShowResult false (setResult JSVal.null (setLoading true v)))

/-- The `try` block of `getPrediction` once the fetch has settled: the state it leaves, or the
message of the error it throws.  Nothing is written before a throw. -/
def getPredictionTry (f : Fetched) (v : View) : Except String View :=
  match f with
  | Fetched.rejected message => Except.error message
  | Fetched.response status json => do
      let data ← json
      if ok status then
        pure (setTimeout 100 (setResult data v))
      else do
        let detail ← data.read "detail"
        pure (setTimeout 100 (setResult
          (JSVal.obj [("error", JSVal.str ("API 오류: " ++ toString status)), ("details", detail)]) v))

/-- The rest of `getPrediction` once the fetch has settled: `try`, `catch`, `finally`. -/
def getPredictionResume (f : Fetched) (v : View) : View :=
  let w :=
    match getPredictionTry f v with
    | Except.ok w => w
    | Except.error message =>
        setTimeout 100 (setResult (JSVal.obj [("error", JSVal.str ("네트워크 오류: " ++ message))]) v)
  setLoading false w

def step (base : String) : View → Event → Option View :=
  Page.step (getPredictionStart base) getPredictionResume

def run (base : String) : View → List Event → Option View :=
  Page.run (getPredictionStart base) getPredictionResume

/-- The guard of the gauge effect: `!chartRef.current || !result || result.error`. -/
def gaugeReturns (canvas : Bool) (result : JSVal) : Bool :=
  !canvas || !result.truthy || (result.get "error").truthy

/-- `const score = result.score || 0;` in `loadChart`. -/
def score (result : JSVal) : JSVal :=
  (result.get "score").or (JSVal.num 0)

/-- The colour of `loadChart`: `'#FB8C00'` unless one of the three tests replaces it. -/
def color (conv : JSVal → Option ℚ) (score : JSVal) : String :=
  if score.ge conv 80 then "#FFB300"
  else if score.ge conv 60 then "#43A047"
  else if score.lt conv 50 then "#E53935"
  else "#FB8C00"

/-- The emoji ladder of `ResultDisplay`, which tests `result.score` itself. -/
def emoji (conv : JSVal → Option ℚ) (result : JSVal) : String :=
  if (result.get "score").ge conv 80 then "☀️"
  else if (result.get "score").ge conv 60 then "😊"
  else if (result.get "score").ge conv 50 then "😣"
  else "🥶"

end Index

/-! ## `index _seo.js`: the page without a reveal flag

`index_im2.js` and `index_ im3.js` carry the `getPrediction` of `index.js` word for word; the
`getPrediction` of `index _seo.js` is the same function without `showResult` and its timers. -/

namespace Seo

/-- The `useState` cells of `Home` and the URLs of the pending fetches of `getPrediction`. -/
structure View where
  result : JSVal
  loading : Bool
  welcomeMessage : JSVal
  fetches : List String

/-- The state after the first render. -/
def init : View :=
  ⟨JSVal.null, false, JSVal.str "", []⟩

def setResult (r : JSVal) (v : View) : View :=
  { v with result := r }

def setLoading (b : Bool) (v : View) : View :=
  { v with loading := b }

/-- The call `fetch(url)` up to the suspension of its `await`. -/
def fetch (url : String) (v : View) : View :=
  { v with fetches := v.fetches ++ [url] }

/-- `getPrediction(type)` up to `await fetch(...)`. -/
def getPredictionStart (base type : String) (v : View) : View :=
  fetch (base ++ "/predict/" ++ type) (setResult JSVal.null (setLoading true v))

/-- The `try` block of `getPrediction` once the fetch has settled. -/
def getPredictionTry (f : Fetched) (v : View) : Except String View :=
  match f with
  | Fetched.rejected message => Except.error message
  | Fetched.response status json => do
      let data ← json
      if ok status then
        pure (setResult data v)
      else do
        let detail ← data.read "detail"
        pure (setResult
          (JSVal.obj [("error", JSVal.str ("API 오류: " ++ toString status)), ("details", detail)]) v)

/-- The rest of `getPrediction` once the fetch has settled: `try`, `catch`, `finally`. -/
def getPredictionResume (f : Fetched) (v : View) : View :=
  let w :=
    match getPredictionTry f v with
    | Except.ok w => w
    | Except.error message =>
        setResult (JSVal.obj [("error", JSVal.str ("네트워크 오류: " ++ message))]) v
  setLoading false w

/-- What happens on the event loop: a button press, or the settlement of a pending fetch. -/
inductive Event where
  | click (type : String)
  | settle (i : Nat) (f : Fetched)

/-- One event. -/
def step (base : String) (v : View) : Event → Option View
  | Event.click type => some (getPredictionStart base type v)
  | Event.settle i f =>
      if i < v.fetches.length then
        some (getPredictionResume f { v with fetches := v.fetches.eraseIdx i })
      else none

/-- A sequence of events, oldest first. -/
def run (base : String) : View → List Event → Option View
  | v, [] => some v
  | v, e :: es => (step base v e).bind (fun w => run base w es)

end Seo

/-! ## Predicates used to state the properties -/

namespace JS

/-- The text `part` occurs in `text` (what `text.includes(part)` tests). -/
def includes (text part : String) : Prop :=
  part.data <:+: text.data

instance (text part : String) : Decidable (includes text part) :=
  inferInstanceAs (Decidable (part.data <:+: text.data))

end JS

namespace Gauge

/-- The invariant of the gauge: no chart is live, or exactly one is and it is the chart held by
`chartInstance.current`. -/
def Owned (s : State) : Prop :=
  liveCount s = 0 ∨
    (liveCount s = 1 ∧
      ∃ i c, s.chartInstance = some i ∧ s.charts[i]? = some c ∧ c.destroyed = false)

end Gauge

namespace Page

/-- An event is calm in a state when it neither starts a fetch cycle while a reveal timer is
pending nor delivers a 2xx response whose body is the JSON value `null`. -/
def calm (v : View) : Event → Bool
  | Event.click _ => v.timers.isEmpty
  | Event.settle _ (Fetched.response status (Except.ok JSVal.null)) => !ok status
  | _ => true

/-- Every event of the run is calm in the state it occurs in. -/
def calmRun (start : String → View → View) (resume : Fetched → View → View) :
    View → List Event → Bool
  | _, [] => true
  | v, e :: es =>
      calm v e &&
        match step start resume v e with
        | some w => calmRun start resume w es
        | none => true

end Page

/-! ## Strings and the category text -/

namespace JS

/-- `s.toUpperCase()`: on a string of ASCII characters the letters `a` to `z` become `A` to `Z`;
the case mapping of other strings is a built-in table of the language, taken as the parameter
`upper`. -/
def toUpperCase (upper : String → String) (s : String) : String :=
  if s.data.all (fun c => decide (c.val < 128)) then String.mk (s.data.map Char.toUpper)
  else upper s

/-- `s.toLowerCase()`: on a string of ASCII characters the letters `A` to `Z` become `a` to `z`;
the case mapping of other strings is the parameter `lower`. -/
def toLowerCase (lower : String → String) (s : String) : String :=
  if s.data.all (fun c => decide (c.val < 128)) then String.mk (s.data.map Char.toLower)
  else lower s

/-- The expression `s.charAt(0).toUpperCase() + s.slice(1)`.  `charAt` and `slice` count UTF-16
code units: a first character below U+10000 is one unit, which is upper-cased and followed by
the rest; a first character from U+10000 on is split between `charAt(0)` (its high surrogate,
which has no case mapping) and `slice(1)`, and the concatenation is `s` again. -/
def upperFirst (upper : String → String) (s : String) : String :=
  match s.data with
  | [] => ""
  | c :: rest =>
      if c.val < 65536 then toUpperCase upper (String.singleton c) ++ String.mk rest
      else s

/-- Rounding of a rational to the nearest integer, a halfway case to the even one. -/
def roundHalfEven (x : ℚ) : ℤ :=
  if x - ⌊x⌋ < 1 / 2 then ⌊x⌋
  else if 1 / 2 < x - ⌊x⌋ then ⌊x⌋ + 1
  else if ⌊x⌋ % 2 = 0 then ⌊x⌋
  else ⌊x⌋ + 1

/-- The exponent of the unit in the last place of a double of the magnitude of `q`: 52 below
the power of two at or below `|q|` (a significand has 53 bits), and `-1074` in the subnormal
range. -/
def ulpExp (q : ℚ) : ℤ :=
  max (Int.log 2 |q| - 52) (-1074)

/-- What an arithmetic operator of the language returns when the exact result is `q`: the double
nearest to `q`, a halfway case going to the even significand (IEEE 754 binary64,
roundTiesToEven).  A result beyond the largest double would be `Infinity`, which `JSVal` does
not have; `100 - s` does not get there for a double `s`, the largest double being far more than
100 away from that bound. -/
def roundDouble (q : ℚ) : ℚ :=
  roundHalfEven (q / 2 ^ ulpExp q) * 2 ^ ulpExp q

/-- The subtraction `n - v` with a number literal on the left; `none` is NaN.  The operands are
doubles and so is the result: the exact difference rounded to the nearest double. -/
def JSVal.rsub (conv : JSVal → Option ℚ) (n : ℚ) (v : JSVal) : Option ℚ :=
  (v.toNumber conv).map (fun q => roundDouble (n - q))

end JS

namespace Index1

/-- `displayLabel` of `loadChart`:
`result.label ? result.label.charAt(0).toUpperCase() + result.label.slice(1) : 'Moderate'`.
A truthy label that is not a string has no `charAt`, and the call throws. -/
def displayLabel (upper : String → String) (result : JSVal) : Except String String :=
  if (result.get "label").truthy then
    match result.get "label" with
    | JSVal.str s => Except.ok (upperFirst upper s)
    | _ => Except.error "result.label.charAt is not a function"
  else Except.ok "Moderate"

/-- Whether `loadChart` throws between `getContext` and the `destroy()` of the held chart.  The
statements there are `result.score || 0`, `100 - score`, the colour ladder, `displayLabel` and
the emoji ladder; on a JSON value only `displayLabel` can throw. -/
def loadChartThrows (upper : String → String) (result : JSVal) : Bool :=
  match displayLabel upper result with
  | Except.ok _ => false
  | Except.error _ => true

/-- `const remaining = 100 - score;` -/
def remaining (conv : JSVal → Option ℚ) (score : JSVal) : Option ℚ :=
  JSVal.rsub conv 100 score

/-- `datasets[0].data`, the pair `[score, remaining]`. -/
def data (conv : JSVal → Option ℚ) (result : JSVal) : JSVal × Option ℚ :=
  (score result, remaining conv (score result))

/-- `datasets[0].backgroundColor`. -/
def backgroundColor (conv : JSVal → Option ℚ) (result : JSVal) : List String :=
  [color conv (score result), "rgba(255, 255, 255, 0.2)"]

end Index1

namespace Tempgraph

/-- `displayLabel` of `loadChart`:
`result.label ? result.label.charAt(0).toUpperCase() + result.label.slice(1) : 'Moderate'`. -/
def displayLabel (upper : String → String) (result : JSVal) : Except String String :=
  if (result.get "label").truthy then
    match result.get "label" with
    | JSVal.str s => Except.ok (upperFirst upper s)
    | _ => Except.error "result.label.charAt is not a function"
  else Except.ok "Moderate"

/-- Whether `loadChart` throws between `getContext` and the `destroy()` of the held chart; as
in `index_1.js`, only `displayLabel` can. -/
def loadChartThrows (upper : String → String) (result : JSVal) : Bool :=
  match displayLabel upper result with
  | Except.ok _ => false
  | Except.error _ => true

end Tempgraph

namespace Index

/-- `scoreClass` of `ResultDisplay`: `(result.label || 'fair').toLowerCase()`.  A truthy label
that is not a string has no `toLowerCase`, and the call throws. -/
def scoreClass (lower : String → String) (result : JSVal) : Except String String :=
  match (result.get "label").or (JSVal.str "fair") with
  | JSVal.str s => Except.ok (toLowerCase lower s)
  | _ => Except.error "(result.label || 'fair').toLowerCase is not a function"

/-- `displayLabel` of `ResultDisplay`: the label with its first character upper-cased when
`result.label` is truthy, and `scoreClass` with its first character upper-cased otherwise.
`scoreClass` is computed first, so its exception comes first. -/
def displayLabel (upper lower : String → String) (result : JSVal) : Except String String := do
  let scoreClass ← scoreClass lower result
  if (result.get "label").truthy then
    match result.get "label" with
    | JSVal.str s => pure (upperFirst upper s)
    | _ => Except.error "result.label.charAt is not a function"
  else
    pure (upperFirst upper scoreClass)

/-- Whether `loadChart` throws between `getContext` and the `destroy()` of the held chart.  The
statements there are `result.score || 0`, `100 - score` and the colour tests, and none of them
throws on a JSON value (`result` is truthy once the guard has passed). -/
def loadChartThrows (_ : JSVal) : Bool :=
  false

/-- `const remaining = 100 - score;` -/
def remaining (conv : JSVal → Option ℚ) (score : JSVal) : Option ℚ :=
  JSVal.rsub conv 100 score

/-- `datasets[0].data`, the pair `[score, remaining]`. -/
def data (conv : JSVal → Option ℚ) (result : JSVal) : JSVal × Option ℚ :=
  (score result, remaining conv (score result))

/-- `datasets[0].backgroundColor`. -/
def backgroundColor (conv : JSVal → Option ℚ) (result : JSVal) : List String :=
  [color conv (score result), "rgba(255, 255, 255, 0.2)"]

end Index

namespace Tempgraph

/-- The hourly fetch has failed: `fetch` threw, the body did not parse, or the status is not
2xx. -/
def hourlyFailed : Fetched → Bool
  | Fetched.rejected _ => true
  | Fetched.response _ (Except.error _) => true
  | Fetched.response status (Except.ok _) => !ok status

/-- The first response allows the hourly request: the status is 2xx and the body parsed. -/
def primarySucceeded : Fetched → Bool
  | Fetched.response status (Except.ok _) => ok status
  | _ => false

end Tempgraph

/-! ## The line chart effect of `index _2_tempgraph.js` (`useEffect` over
`[hourlyData, result, showResult]`) and the teardown of the view -/

namespace JS

/-- The property `v.length` of a value that is neither `null` nor `undefined`: the number of
items of an array, the number of UTF-16 code units of a string, the own property of an
object. -/
def JSVal.length : JSVal → JSVal
  | JSVal.arr items => JSVal.num items.length
  | JSVal.str s => JSVal.num ((s.data.map (fun c => if c.val < 65536 then 1 else 2)).sum : Nat)
  | JSVal.obj fields => lookup "length" fields
  | _ => JSVal.undefined

/-- Whether `v.map(d => d.time)` returns: `v` is an array (other values have no `map`) and no
item is `null` or `undefined` (reading `d.time` from those throws). -/
def JSVal.mapsOver : JSVal → Bool
  | JSVal.arr items =>
      items.all (fun d =>
        match d with
        | JSVal.null => false
        | JSVal.undefined => false
        | _ => true)
  | _ => false

end JS

namespace Line

/-- A timer registered by the effect: the id `setTimeout` returned, its delay in ms, and the
`hourlyData` captured by the `loadLineChart` its callback calls. -/
structure Timer where
  id : Nat
  delay : Nat
  hourlyData : JSVal

/-- The line canvas and its effect.  `chart` is the chart cell of the canvas: the charts
constructed by `loadLineChart` (each with the `hourlyData` it was built from in its `result`
field), `lineChartInstance.current` (as `chart.chartInstance`) and the `loadLineChart` calls
suspended on `await import(...)` (as `chart.loads`).  `timers` are the pending timers of the
effect, `nextTimer` the next id `setTimeout` hands out, and `returned` is the cleanup React
holds from the last run of the effect, named by the timer it captured (`none` when that run
returned early). -/
structure State where
  chart : Gauge.State
  timers : List Timer
  nextTimer : Nat
  returned : Option Nat

/-- The ref cell `lineChartInstance.current`. -/
def State.lineChartInstance (s : State) : Option Nat :=
  s.chart.chartInstance

/-- The state at mount. -/
def init : State :=
  ⟨Gauge.init, [], 0, none⟩

/-- The guard of the effect, true when it returns without scheduling anything:
`!lineChartRef.current || !hourlyData || !hourlyData.length ||
result?.prediction_type !== 'now'`. -/
def lineReturns (canvas : Bool) (hourlyData result : JSVal) : Bool :=
  !canvas || !hourlyData.truthy || !hourlyData.length.truthy ||
    !(result.get "prediction_type").isStr "now"

/-- `clearTimeout(timer)`. -/
def clearTimeout (timer : Nat) (s : State) : State :=
  { s with timers := s.timers.filter (fun t => t.id != timer) }

/-- The cleanup returned by a run of the effect whose timer is `timer`:
`clearTimeout(timer); if (lineChartInstance.current) lineChartInstance.current.destroy();`. -/
def cleanup (timer : Nat) (s : State) : State :=
  { clearTimeout timer s with chart := Gauge.destroyCurrent s.chart }

/-- The body of the effect: it returns early, or registers one timer of 200 ms whose callback
calls `loadLineChart`, and returns the cleanup capturing that timer. -/
def effect (canvas : Bool) (hourlyData result : JSVal) (s : State) : State :=
  if lineReturns canvas hourlyData result then { s with returned := none }
  else
    { s with
      timers := s.timers ++ [⟨s.nextTimer, 200, hourlyData⟩]
      nextTimer := s.nextTimer + 1
      returned := some s.nextTimer }

/-- React runs the cleanup it holds, if any, and forgets it. -/
def runCleanup (s : State) : State :=
  match s.returned with
  | some timer => { cleanup timer s with returned := none }
  | none => s

/-- The part of `loadLineChart` after the two imports: without a canvas
`lineChartRef.current.getContext` throws; with one, the held chart is destroyed and, when
`hourlyData.map(...)` returns, the new chart is constructed and stored. -/
def loadLineChartResume (canvas : Bool) (hourlyData : JSVal) (s : State) : State :=
  if canvas then
    if hourlyData.mapsOver then
      { s with chart := Gauge.newChart hourlyData (Gauge.destroyCurrent s.chart) }
    else { s with chart := Gauge.destroyCurrent s.chart }
  else s

/-- What happens to the line chart: React re-runs the effect after a render (cleanup of the
previous run, then the body, with `lineChartRef.current` attached or not and the current
`hourlyData` and `result`), a pending timer (by position) fires and calls `loadLineChart`, or
the imports of a suspended `loadLineChart` (by position) resolve. -/
inductive Event where
  | render (canvas : Bool) (hourlyData result : JSVal)
  | timeout (i : Nat)
  | loaded (i : Nat) (canvas : Bool)

/-- One event. -/
def step (s : State) : Event → Option State
  | Event.render canvas hourlyData result => some (effect canvas hourlyData result (runCleanup s))
  | Event.timeout i =>
      match s.timers[i]? with
      | some t =>
          some { s with
            timers := s.timers.eraseIdx i
            chart := { s.chart with loads := s.chart.loads ++ [t.hourlyData] } }
      | none => none
  | Event.loaded i canvas =>
      match s.chart.loads[i]? with
      | some hourlyData =>
          some (loadLineChartResume canvas hourlyData
            { s with chart := { s.chart with loads := s.chart.loads.eraseIdx i } })
      | none => none

/-- A sequence of events, oldest first. -/
def run : State → List Event → Option State
  | s, [] => some s
  | s, e :: es => (step s e).bind (fun t => run t es)

/-- The number of line charts constructed and not destroyed. -/
def liveCount (s : State) : Nat :=
  Gauge.liveCount s.chart

/-- The invariant of the line chart: the chart cell is owned, and every pending timer is the
one captured by the cleanup React holds. -/
def Owned (s : State) : Prop :=
  Gauge.Owned s.chart ∧ ∀ t ∈ s.timers, s.returned = some t.id

end Line

namespace Tempgraph

/-- The mounted view of `index _2_tempgraph.js`: its state cells with the reveal timers and
fetches, the gauge canvas, whether React holds a cleanup from the last run of the gauge effect,
and the line canvas with its effect. -/
structure App where
  view : View
  gauge : Gauge.State
  gaugeReturned : Bool
  line : Line.State

/-- React re-runs the gauge effect after a render: the cleanup it holds, then the body with
the current `result`. -/
def gaugeRender (canvas : Bool) (a : App) : App :=
  let g := if a.gaugeReturned then Gauge.destroyCurrent a.gauge else a.gauge
  if gaugeReturns canvas a.view.result then { a with gauge := g, gaugeReturned := false }
  else { a with gauge := { g with loads := g.loads ++ [a.view.result] }, gaugeReturned := true }

/-- React re-runs the line chart effect after a render, with the current `hourlyData` and
`result`. -/
def lineRender (canvas : Bool) (a : App) : App :=
  { a with line := Line.effect canvas a.view.hourlyData a.view.result (Line.runCleanup a.line) }

/-- Unmount: React runs the cleanups it holds for the two effects.  Nothing else runs: the
reveal timers were registered by `getPrediction`, outside any effect. -/
def unmount (a : App) : App :=
  { a with
    gauge := if a.gaugeReturned then Gauge.destroyCurrent a.gauge else a.gauge
    gaugeReturned := false
    line := Line.runCleanup a.line }

end Tempgraph

/-! ## What `ResultDisplay` of `index _2_tempgraph.js` mounts -/

namespace JS

/-- The comparison `v > n` against a number literal `n`: false when `v` converts to NaN. -/
def JSVal.gt (conv : JSVal → Option ℚ) (v : JSVal) (n : ℚ) : Bool :=
  match v.toNumber conv with
  | some q => decide (n < q)
  | none => false

end JS

namespace Tempgraph

/-- `ResultDisplay` reaches its last `return`: the view is not loading, `result` is truthy and
`result.error` is falsy. -/
def showsResult (v : View) : Bool :=
  !v.loading && v.result.truthy && !(v.result.get "error").truthy

/-- The gauge canvas is mounted: `predictionType === 'morning' || predictionType === 'evening'`
in the last `return` of `ResultDisplay`. -/
def gaugeCanvas (v : View) : Bool :=
  showsResult v &&
    ((v.result.get "prediction_type").isStr "morning" ||
      (v.result.get "prediction_type").isStr "evening")

/-- The weather details are mounted: `predictionType === 'now' && result.weather_data`. -/
def weatherDetails (v : View) : Bool :=
  showsResult v && (v.result.get "prediction_type").isStr "now" &&
    (v.result.get "weather_data").truthy

/-- The line canvas is mounted: inside the weather details,
`hourlyData && hourlyData.length > 0`. -/
def lineCanvas (conv : JSVal → Option ℚ) (v : View) : Bool :=
  weatherDetails v && v.hourlyData.truthy && v.hourlyData.length.gt conv 0

end Tempgraph

/-! ## Sample values used in the concrete statements -/

namespace Sample

/-- The body `{score: 72, prediction_type: "morning"}`. -/
def morning : JSVal :=
  JSVal.obj [("score", JSVal.num 72), ("prediction_type", JSVal.str "morning")]

/-- The view of `index _2_tempgraph.js` once `getPrediction('morning')` has settled with the
body `morning`: the reveal timer is pending. -/
def morningView : Tempgraph.View :=
  ⟨morning, JSVal.null, false, JSVal.str "", false, [100], []⟩

/-- The gauge once the chart of `morning` is drawn. -/
def morningGauge : Gauge.State :=
  ⟨[⟨morning, false⟩], some 0, []⟩

/-- An hourly series of one point. -/
def hourly : JSVal :=
  JSVal.arr [JSVal.obj [("time", JSVal.str "09"), ("temperature", JSVal.num 3)]]

/-- The line chart effect once it has run for `hourly`: the render-defer timer is pending. -/
def hourlyLine : Line.State :=
  ⟨Gauge.init, [⟨0, 200, hourly⟩], 1, some 0⟩

end Sample

/-! ## Base URL, welcome message, tooltip, precipitation colour -/

namespace JS

/-- The comparison `v === n` against a number literal `n`. -/
def JSVal.isNum (v : JSVal) (n : ℚ) : Bool :=
  match v with
  | JSVal.num q => decide (q = n)
  | _ => false

end JS

namespace Page

/-- `const API_BASE_URL = process.env.NEXT_PUBLIC_API_URL || 'http://localhost:8000';`, the same
line in every page.  `env` is the variable: `none` when it is unset (`undefined`), and the
empty string is falsy. -/
def API_BASE_URL (env : Option String) : String :=
  match env with
  | some value => if value ≠ "" then value else "http://localhost:8000"
  | none => "http://localhost:8000"

/-- The argument of `fetch` in `fetchWelcomeMessage`. -/
def welcomeUrl (base : String) : String :=
  base ++ "/api/welcome"

/-- The fixed greeting of `fetchWelcomeMessage`. -/
def welcomeDefault : String :=
  "안녕하세요! 😊<br/>날씨 예측 서비스입니다!"

def setWelcomeMessage (m : JSVal) (v : View) : View :=
  { v with welcomeMessage := m }

/-- The `try` block of `fetchWelcomeMessage` once its fetch has settled: the state it leaves, or
the message of the error it throws. -/
def fetchWelcomeMessageTry (f : Fetched) (v : View) : Except String View :=
  match f with
  | Fetched.rejected message => Except.error message
  | Fetched.response status json => do
      let data ← json
      if ok status then do
        let message ← data.read "message"
        pure (setWelcomeMessage message v)
      else
        pure (setWelcomeMessage (JSVal.str welcomeDefault) v)

/-- `fetchWelcomeMessage` once its fetch has settled: `try` and `catch`. -/
def fetchWelcomeMessage (f : Fetched) (v : View) : View :=
  match fetchWelcomeMessageTry f v with
  | Except.ok w => w
  | Except.error _ => setWelcomeMessage (JSVal.str welcomeDefault) v

end Page

namespace Tempgraph

/-- `tooltip.callbacks.label` of the line chart, the template literal
`온도: ${context.parsed.y}°C`.  `text` is the conversion of a value to a string (ToString of the
language). -/
def tooltipLabel (text : JSVal → String) (y : JSVal) : String :=
  "온도: " ++ text y ++ "°C"

/-- `scales.y.ticks.callback` of the line chart: `value + '°C'`. -/
def tickLabel (text : JSVal → String) (value : JSVal) : String :=
  text value ++ "°C"

end Tempgraph

namespace Im3

/-- `getPrecipitationColor` of `index_ im3.js`. -/
def getPrecipitationColor (conv : JSVal → Option ℚ) (precip : JSVal) : String :=
  if precip.isNum 0 then "#BDC3C7"
  else if precip.lt conv 5 then "#5DADE2"
  else if precip.lt conv 20 then "#3498DB"
  else "#2874A6"

end Im3

/-! ## Further predicates used to state the properties -/

namespace Index1

/-- The rank of a colour of the five-level ladder in the order
very_poor < poor < moderate < good < excellent. -/
def rank (color : String) : Nat :=
  if color = "#4CAF50" then 4
  else if color = "#8BC34A" then 3
  else if color = "#FFC107" then 2
  else if color = "#FF9800" then 1
  else 0

end Index1

namespace Index

/-- The rank of a colour of the four-level ladder in the order poor < fair < good < excellent. -/
def rank (color : String) : Nat :=
  if color = "#FFB300" then 3
  else if color = "#43A047" then 2
  else if color = "#FB8C00" then 1
  else 0

end Index

namespace Line

/-- The cleanup React holds captures a timer id that `setTimeout` has already handed out. -/
def Fresh (s : State) : Prop :=
  ∀ t, s.returned = some t → t < s.nextTimer

/-- The timer `t` has been handed out and is not pending. -/
def Cleared (t : Nat) (s : State) : Prop :=
  t < s.nextTimer ∧ ∀ x ∈ s.timers, x.id ≠ t

end Line

namespace Gauge

/-- Every suspended `loadChart` and every chart constructed comes from a `result` that passed
the guard of the effect. -/
def Passed (returns : Bool → JSVal → Bool) (s : State) : Prop :=
  (∀ r ∈ s.loads, ∃ canvas, returns canvas r = false) ∧
    (∀ c ∈ s.charts, ∃ canvas, returns canvas c.result = false)

end Gauge

/-! ## Theorems -/

/-- For a numeric operand, `a || 0` is that number (zero is replaced by zero). -/
theorem JS.or_zero_num (q : ℚ) : (JSVal.num q).or (JSVal.num 0) = JSVal.num q := by
  by_cases h : q = 0 <;> simp [JSVal.or, JSVal.truthy, h]

/-- For an absent operand, `a || 0` is zero. -/
theorem JS.or_zero_undefined : JSVal.undefined.or (JSVal.num 0) = JSVal.num 0 := by
  simp [JSVal.or, JSVal.truthy]

/-- The five-level ladder on a number, with the tests read in `ℚ`. -/
theorem Index1.color_five_num (conv : JSVal → Option ℚ) (s : ℚ) :
    Index1.color conv (JSVal.num s) =
      if 80 ≤ s then "#4CAF50" else if 60 ≤ s then "#8BC34A" else if 40 ≤ s then "#FFC107"
      else if 20 ≤ s then "#FF9800" else "#E53935" := by
  simp [Index1.color, JSVal.ge, JSVal.toNumber]

/-- The ladder of `index _2_tempgraph.js` is the ladder of `index_1.js`. -/
theorem Tempgraph.color_eq (conv : JSVal → Option ℚ) (result : JSVal) :
    Tempgraph.color conv (Tempgraph.score result) = Index1.color conv (Index1.score result) := rfl

/-- C1: in the gauge of `index_1.js` (and, identically, of `index _2_tempgraph.js`) a result whose
score is the number `s` gets the colour `#4CAF50` (excellent) iff `s ≥ 80`, `#8BC34A` (good) iff
`60 ≤ s < 80`, `#FFC107` (moderate) iff `40 ≤ s < 60`, `#FF9800` (poor) iff `20 ≤ s < 40` and
`#E53935` (very poor) iff `s < 20`; the colour is always one of these five, and the scores
80, 79.9, 60, 59.9, 40, 20, 19.9 get excellent, good, good, moderate, moderate, poor, very poor. -/
theorem C1_five_level_colour (conv : JSVal → Option ℚ) (result : JSVal) (s : ℚ)
    (h : result.get "score" = JSVal.num s) :
    (Index1.color conv (Index1.score result) = "#4CAF50" ↔ 80 ≤ s) ∧
    (Index1.color conv (Index1.score result) = "#8BC34A" ↔ 60 ≤ s ∧ s < 80) ∧
    (Index1.color conv (Index1.score result) = "#FFC107" ↔ 40 ≤ s ∧ s < 60) ∧
    (Index1.color conv (Index1.score result) = "#FF9800" ↔ 20 ≤ s ∧ s < 40) ∧
    (Index1.color conv (Index1.score result) = "#E53935" ↔ s < 20) ∧
    Index1.color conv (Index1.score result) ∈
      ["#4CAF50", "#8BC34A", "#FFC107", "#FF9800", "#E53935"] ∧
    Tempgraph.color conv (Tempgraph.score result) = Index1.color conv (Index1.score result) ∧
    Index1.color conv (Index1.score (JSVal.obj [("score", JSVal.num 80)])) = "#4CAF50" ∧
    Index1.color conv (Index1.score (JSVal.obj [("score", JSVal.num (799 / 10))])) = "#8BC34A" ∧
    Index1.color conv (Index1.score (JSVal.obj [("score", JSVal.num 60)])) = "#8BC34A" ∧
    Index1.color conv (Index1.score (JSVal.obj [("score", JSVal.num (599 / 10))])) = "#FFC107" ∧
    Index1.color conv (Index1.score (JSVal.obj [("score", JSVal.num 40)])) = "#FFC107" ∧
    Index1.color conv (Index1.score (JSVal.obj [("score", JSVal.num 20)])) = "#FF9800" ∧
    Index1.color conv (Index1.score (JSVal.obj [("score", JSVal.num (199 / 10))])) = "#E53935" := by
  have hs : Index1.score result = JSVal.num s := by
    rw [Index1.score, h, JS.or_zero_num]
  have hc : ∀ q : ℚ, Index1.color conv (Index1.score (JSVal.obj [("score", JSVal.num q)])) =
      Index1.color conv (JSVal.num q) := by
    intro q
    simp [Index1.score, JSVal.get, lookup, JS.or_zero_num]
  rw [Tempgraph.color_eq, hs]
  simp only [hc, Index1.color_five_num]
  refine ⟨?_, ?_, ?_, ?_, ?_, ?_, trivial, ?_, ?_, ?_, ?_, ?_, ?_, ?_⟩
  · split_ifs <;> simp <;> linarith
  · split_ifs <;> simp <;> first | (intros; linarith) | (constructor <;> linarith)
  · split_ifs <;> simp <;> first | (intros; linarith) | (constructor <;> linarith)
  · split_ifs <;> simp <;> first | (intros; linarith) | (constructor <;> linarith)
  · split_ifs <;> simp <;> linarith
  · split_ifs <;> simp
  all_goals norm_num

theorem C1_five_level_colour_witness :
    (JSVal.obj [("score", JSVal.num 72)]).get "score" = JSVal.num 72 ∧
    (Index1.color (fun _ => none) (Index1.score (JSVal.obj [("score", JSVal.num 72)])) = "#8BC34A" ↔
      (60 : ℚ) ≤ 72 ∧ (72 : ℚ) < 80) :=
  ⟨rfl, (C1_five_level_colour (fun _ => none) (JSVal.obj [("score", JSVal.num 72)]) 72 rfl).2.1⟩

/-- The four-level colour of `index.js` on a number, with the tests read in `ℚ`. -/
theorem Index.color_four_num (conv : JSVal → Option ℚ) (s : ℚ) :
    Index.color conv (JSVal.num s) =
      if 80 ≤ s then "#FFB300" else if 60 ≤ s then "#43A047" else if s < 50 then "#E53935"
      else "#FB8C00" := by
  simp [Index.color, JSVal.ge, JSVal.lt, JSVal.toNumber]

/-- C2: in the gauge of `index.js` a result whose score is the number `s` gets the colour
`#FFB300` (excellent) iff `s ≥ 80`, `#43A047` (good) iff `60 ≤ s < 80`, `#FB8C00` (fair) iff
`50 ≤ s < 60` and `#E53935` (poor) iff `s < 50`; the scores 80, 60, 50 and 49.9 get excellent,
good, fair and poor. -/
theorem C2_four_level_colour (conv : JSVal → Option ℚ) (result : JSVal) (s : ℚ)
    (h : result.get "score" = JSVal.num s) :
    (Index.color conv (Index.score result) = "#FFB300" ↔ 80 ≤ s) ∧
    (Index.color conv (Index.score result) = "#43A047" ↔ 60 ≤ s ∧ s < 80) ∧
    (Index.color conv (Index.score result) = "#FB8C00" ↔ 50 ≤ s ∧ s < 60) ∧
    (Index.color conv (Index.score result) = "#E53935" ↔ s < 50) ∧
    Index.color conv (Index.score (JSVal.obj [("score", JSVal.num 80)])) = "#FFB300" ∧
    Index.color conv (Index.score (JSVal.obj [("score", JSVal.num 60)])) = "#43A047" ∧
    Index.color conv (Index.score (JSVal.obj [("score", JSVal.num 50)])) = "#FB8C00" ∧
    Index.color conv (Index.score (JSVal.obj [("score", JSVal.num (499 / 10))])) = "#E53935" := by
  have hs : Index.score result = JSVal.num s := by
    rw [Index.score, h, JS.or_zero_num]
  have hc : ∀ q : ℚ, Index.color conv (Index.score (JSVal.obj [("score", JSVal.num q)])) =
      Index.color conv (JSVal.num q) := by
    intro q
    simp [Index.score, JSVal.get, lookup, JS.or_zero_num]
  rw [hs]
  simp only [hc, Index.color_four_num]
  refine ⟨?_, ?_, ?_, ?_, ?_, ?_, ?_, ?_⟩
  · split_ifs <;> simp <;> linarith
  · split_ifs <;> simp <;> first | (intros; linarith) | (constructor <;> linarith)
  · split_ifs <;> simp <;> first | (intros; linarith) | (constructor <;> linarith)
  · split_ifs <;> simp <;> linarith
  all_goals norm_num

theorem C2_four_level_colour_witness :
    (JSVal.obj [("score", JSVal.num 55)]).get "score" = JSVal.num 55 ∧
    (Index.color (fun _ => none) (Index.score (JSVal.obj [("score", JSVal.num 55)])) = "#FB8C00" ↔
      (50 : ℚ) ≤ 55 ∧ (55 : ℚ) < 60) :=
  ⟨rfl, (C2_four_level_colour (fun _ => none) (JSVal.obj [("score", JSVal.num 55)]) 55 rfl).2.2.1⟩

/-- The five-level emoji ladder of `index_1.js` when `result.score` is a number. -/
theorem Index1.emoji_five_num (conv : JSVal → Option ℚ) (result : JSVal) (s : ℚ)
    (h : result.get "score" = JSVal.num s) :
    Index1.emoji conv result =
      if 80 ≤ s then "🌟" else if 60 ≤ s then "😊" else if 40 ≤ s then "😐"
      else if 20 ≤ s then "😟" else "⚠️" := by
  simp [Index1.emoji, h, JSVal.ge, JSVal.toNumber]

/-- The four-level emoji ladder of `index.js` when `result.score` is a number. -/
theorem Index.emoji_four_num (conv : JSVal → Option ℚ) (result : JSVal) (s : ℚ)
    (h : result.get "score" = JSVal.num s) :
    Index.emoji conv result =
      if 80 ≤ s then "☀️" else if 60 ≤ s then "😊" else if 50 ≤ s then "😣" else "🥶" := by
  simp [Index.emoji, h, JSVal.ge, JSVal.toNumber]

/-- C10: whether `result.score` is absent or any number, the emoji (chosen from `result.score`)
and the colour (chosen from `result.score || 0`) belong to the same band: in `index_1.js` the
pair is one of 🌟/#4CAF50, 😊/#8BC34A, 😐/#FFC107, 😟/#FF9800, ⚠️/#E53935, in `index.js` one of
☀️/#FFB300, 😊/#43A047, 😣/#FB8C00, 🥶/#E53935; so also at the scores 80, 60, 50, 40 and 20. -/
theorem C10_icon_colour_agree (conv : JSVal → Option ℚ) (result : JSVal)
    (h : result.get "score" = JSVal.undefined ∨ ∃ s : ℚ, result.get "score" = JSVal.num s) :
    (Index1.emoji conv result, Index1.color conv (Index1.score result)) ∈
      [("🌟", "#4CAF50"), ("😊", "#8BC34A"), ("😐", "#FFC107"), ("😟", "#FF9800"),
        ("⚠️", "#E53935")] ∧
    (Index.emoji conv result, Index.color conv (Index.score result)) ∈
      [("☀️", "#FFB300"), ("😊", "#43A047"), ("😣", "#FB8C00"), ("🥶", "#E53935")] ∧
    (∀ b ∈ [((80 : ℚ), "🌟", "#4CAF50"), (60, "😊", "#8BC34A"), (50, "😐", "#FFC107"),
        (40, "😐", "#FFC107"), (20, "😟", "#FF9800")],
      Index1.emoji conv (JSVal.obj [("score", JSVal.num b.1)]) = b.2.1 ∧
      Index1.color conv (Index1.score (JSVal.obj [("score", JSVal.num b.1)])) = b.2.2) ∧
    (∀ b ∈ [((80 : ℚ), "☀️", "#FFB300"), (60, "😊", "#43A047"), (50, "😣", "#FB8C00"),
        (40, "🥶", "#E53935"), (20, "🥶", "#E53935")],
      Index.emoji conv (JSVal.obj [("score", JSVal.num b.1)]) = b.2.1 ∧
      Index.color conv (Index.score (JSVal.obj [("score", JSVal.num b.1)])) = b.2.2) := by
  have hb1 : ∀ q : ℚ, Index1.score (JSVal.obj [("score", JSVal.num q)]) = JSVal.num q := by
    intro q
    simp [Index1.score, JSVal.get, lookup, JS.or_zero_num]
  have hb2 : ∀ q : ℚ, Index.score (JSVal.obj [("score", JSVal.num q)]) = JSVal.num q := by
    intro q
    simp [Index.score, JSVal.get, lookup, JS.or_zero_num]
  have hg : ∀ q : ℚ, (JSVal.obj [("score", JSVal.num q)]).get "score" = JSVal.num q := by
    intro q
    simp [JSVal.get, lookup]
  have hab :
      (Index1.emoji conv result, Index1.color conv (Index1.score result)) ∈
        [("🌟", "#4CAF50"), ("😊", "#8BC34A"), ("😐", "#FFC107"), ("😟", "#FF9800"),
          ("⚠️", "#E53935")] ∧
      (Index.emoji conv result, Index.color conv (Index.score result)) ∈
        [("☀️", "#FFB300"), ("😊", "#43A047"), ("😣", "#FB8C00"), ("🥶", "#E53935")] := by
    rcases h with h | ⟨s, h⟩
    · simp [Index1.emoji, Index1.color, Index1.score, Index.emoji, Index.color, Index.score, h,
        JSVal.or, JSVal.truthy, JSVal.ge, JSVal.lt, JSVal.toNumber]
      norm_num
    · have h1 : Index1.score result = JSVal.num s := by rw [Index1.score, h, JS.or_zero_num]
      have h2 : Index.score result = JSVal.num s := by rw [Index.score, h, JS.or_zero_num]
      rw [h1, h2, Index1.color_five_num, Index.color_four_num,
        Index1.emoji_five_num conv result s h, Index.emoji_four_num conv result s h]
      constructor
      · split_ifs <;> simp
      · split_ifs <;> first | (simp; done) | (exfalso; linarith)
  refine ⟨hab.1, hab.2, ?_, ?_⟩
  · intro b hb
    simp only [List.mem_cons, List.mem_singleton, List.not_mem_nil, or_false] at hb
    rcases hb with rfl | rfl | rfl | rfl | rfl <;>
      simp only [hb1, Index1.color_five_num, Index1.emoji_five_num conv _ _ (hg _)] <;>
      norm_num
  · intro b hb
    simp only [List.mem_cons, List.mem_singleton, List.not_mem_nil, or_false] at hb
    rcases hb with rfl | rfl | rfl | rfl | rfl <;>
      simp only [hb2, Index.color_four_num, Index.emoji_four_num conv _ _ (hg _)] <;>
      norm_num

theorem C10_icon_colour_agree_witness :
    ((JSVal.obj [("score", JSVal.num 80)]).get "score" = JSVal.undefined ∨
      ∃ s : ℚ, (JSVal.obj [("score", JSVal.num 80)]).get "score" = JSVal.num s) ∧
    (Index1.emoji (fun _ => none) (JSVal.obj [("score", JSVal.num 80)]),
        Index1.color (fun _ => none) (Index1.score (JSVal.obj [("score", JSVal.num 80)]))) ∈
      [("🌟", "#4CAF50"), ("😊", "#8BC34A"), ("😐", "#FFC107"), ("😟", "#FF9800"),
        ("⚠️", "#E53935")] :=
  ⟨Or.inr ⟨80, rfl⟩,
    (C10_icon_colour_agree (fun _ => none) (JSVal.obj [("score", JSVal.num 80)])
      (Or.inr ⟨80, rfl⟩)).1⟩

/-! ### What `getPrediction` stores -/

/-- The value `getPrediction` of `index.js` stores does not depend on the state it resumes in. -/
theorem Index.resume_result_index (f : Fetched) (v w : Page.View) :
    (Index.getPredictionResume f v).result = (Index.getPredictionResume f w).result := by
  rcases f with m | ⟨status, m | data⟩
  · rfl
  · rfl
  · cases hok : ok status <;> cases data <;>
      simp [Index.getPredictionResume, Index.getPredictionTry, hok, JSVal.read, bind, Except.bind,
        pure, Except.pure, Page.setResult, Page.setTimeout, Page.setLoading]

/-- The value `getPrediction` of `index_1.js` stores does not depend on the state it resumes
in. -/
theorem Index1.resume_result_index1 (f : Fetched) (v w : Page.View) :
    (Index1.getPredictionResume f v).result = (Index1.getPredictionResume f w).result := by
  rcases f with m | ⟨status, m | data⟩
  · rfl
  · rfl
  · cases hok : ok status <;> cases data <;>
      simp [Index1.getPredictionResume, Index1.getPredictionTry, hok, JSVal.read, bind,
        Except.bind, pure, Except.pure, Page.setResult, Page.setTimeout, Page.setLoading]

/-- The value `getPrediction` of `index _seo.js` stores does not depend on the state it resumes
in. -/
theorem Seo.resume_result_seo (f : Fetched) (v w : Seo.View) :
    (Seo.getPredictionResume f v).result = (Seo.getPredictionResume f w).result := by
  rcases f with m | ⟨status, m | data⟩
  · rfl
  · rfl
  · cases hok : ok status <;> cases data <;>
      simp [Seo.getPredictionResume, Seo.getPredictionTry, hok, JSVal.read, bind,
        Except.bind, pure, Except.pure, Seo.setResult, Seo.setLoading]

/-- The value `getPrediction` of `index _2_tempgraph.js` stores when its first fetch settles
does not depend on the state it resumes in. -/
theorem Tempgraph.resume_result_tempgraph (base type : String) (f : Fetched) (v w : Tempgraph.View) :
    (Tempgraph.getPredictionResume base type f v).result =
      (Tempgraph.getPredictionResume base type f w).result := by
  rcases f with m | ⟨status, m | data⟩
  · rfl
  · rfl
  · by_cases hnow : type = "now" <;> cases hok : ok status <;> cases data <;>
      simp [Tempgraph.getPredictionResume, Tempgraph.getPredictionTry, hok, hnow, JSVal.read, bind,
        Except.bind, pure, Except.pure, Tempgraph.setResult, Tempgraph.setTimeout,
        Tempgraph.setLoading, Tempgraph.fetch]

/-- In `index _2_tempgraph.js` the run after the first fetch keeps the pending fetches and adds
at most the hourly one at the end. -/
theorem Tempgraph.resume_fetches (base type : String) (f : Fetched) (v : Tempgraph.View) :
    ∃ more, (Tempgraph.getPredictionResume base type f v).fetches = v.fetches ++ more := by
  rcases f with m | ⟨status, m | data⟩
  · exact ⟨[], by simp [Tempgraph.getPredictionResume, Tempgraph.getPredictionTry,
      Tempgraph.setResult, Tempgraph.setTimeout, Tempgraph.setLoading]⟩
  · exact ⟨[], by simp [Tempgraph.getPredictionResume, Tempgraph.getPredictionTry,
      Tempgraph.setResult, Tempgraph.setTimeout, Tempgraph.setLoading, bind, Except.bind]⟩
  · by_cases hnow : type = "now" <;> cases hok : ok status <;> cases data <;>
      simp [Tempgraph.getPredictionResume, Tempgraph.getPredictionTry, hok, hnow, JSVal.read, bind,
        Except.bind, pure, Except.pure, Tempgraph.setResult, Tempgraph.setTimeout,
        Tempgraph.setLoading, Tempgraph.fetch]

/-! ### C3: overlapping requests -/

/-- C3 (counterexample): in `index.js` request A (`morning`) is issued, then request B
(`evening`) before A resolves.  B's response arrives first and its body (score 72) is stored;
A's response arrives afterwards and its body (score 35) replaces B's, so the final result is
A's and not B's. -/
theorem C3_stale_response_overwrites :
    (Index.run "http://localhost:8000" Page.init
        [Page.Event.click "morning", Page.Event.click "evening",
          Page.Event.settle 1 (Fetched.response 200 (Except.ok (JSVal.obj [("score", JSVal.num 72)])))]).map
        (fun v => v.result) = some (JSVal.obj [("score", JSVal.num 72)]) ∧
    (Index.run "http://localhost:8000" Page.init
        [Page.Event.click "morning", Page.Event.click "evening",
          Page.Event.settle 1 (Fetched.response 200 (Except.ok (JSVal.obj [("score", JSVal.num 72)]))),
          Page.Event.settle 0 (Fetched.response 200 (Except.ok (JSVal.obj [("score", JSVal.num 35)])))]).map
        (fun v => v.result) = some (JSVal.obj [("score", JSVal.num 35)]) ∧
    JSVal.obj [("score", JSVal.num 35)] ≠ JSVal.obj [("score", JSVal.num 72)] := by
  refine ⟨rfl, rfl, ?_⟩
  simp

/-- C3 (amended): when `getPrediction` is called for A and then for B before A resolves, and A's
response (`a`) arrives after B's (`b`), the final stored result is the one `getPrediction`
stores for `a`: the response that arrives last wins, in `index.js` (whose `getPrediction` is
that of `index_im2.js` and `index_ im3.js`), `index_1.js`, `index _2_tempgraph.js` and
`index _seo.js`. -/
theorem C3_last_response_wins (base tA tB : String) (a b : Fetched) :
    (Index.run base Page.init
        [Page.Event.click tA, Page.Event.click tB, Page.Event.settle 1 b,
          Page.Event.settle 0 a]).map (fun v => v.result) =
      some (Index.getPredictionResume a Page.init).result ∧
    (Index1.run base Page.init
        [Page.Event.click tA, Page.Event.click tB, Page.Event.settle 1 b,
          Page.Event.settle 0 a]).map (fun v => v.result) =
      some (Index1.getPredictionResume a Page.init).result ∧
    (Tempgraph.run base Tempgraph.init
        [Tempgraph.Event.click tA, Tempgraph.Event.click tB, Tempgraph.Event.settle 1 b,
          Tempgraph.Event.settle 0 a]).map (fun v => v.result) =
      some (Tempgraph.getPredictionResume base tA a Tempgraph.init).result ∧
    (Seo.run base Seo.init
        [Seo.Event.click tA, Seo.Event.click tB, Seo.Event.settle 1 b,
          Seo.Event.settle 0 a]).map (fun v => v.result) =
      some (Seo.getPredictionResume a Seo.init).result := by
  refine ⟨?_, ?_, ?_, ?_⟩
  · have hf : ∀ (f : Fetched) (v : Page.View),
        (Index.getPredictionResume f v).fetches = v.fetches := by
      intro f v
      rcases f with m | ⟨status, m | data⟩
      · rfl
      · rfl
      · cases hok : ok status <;> cases data <;>
          simp [Index.getPredictionResume, Index.getPredictionTry, hok, JSVal.read, bind,
            Except.bind, pure, Except.pure, Page.setResult, Page.setTimeout, Page.setLoading]
    simp [Index.run, Page.run, Page.step, Index.getPredictionStart, Page.fetch, Page.init,
      Page.setResult, Page.setShowResult, Page.setLoading, hf]
    exact Index.resume_result_index a _ _
  · have hf : ∀ (f : Fetched) (v : Page.View),
        (Index1.getPredictionResume f v).fetches = v.fetches := by
      intro f v
      rcases f with m | ⟨status, m | data⟩
      · rfl
      · rfl
      · cases hok : ok status <;> cases data <;>
          simp [Index1.getPredictionResume, Index1.getPredictionTry, hok, JSVal.read, bind,
            Except.bind, pure, Except.pure, Page.setResult, Page.setTimeout, Page.setLoading]
    simp [Index1.run, Page.run, Page.step, Index1.getPredictionStart, Page.fetch, Page.init,
      Page.setResult, Page.setShowResult, Page.setLoading, hf]
    exact Index1.resume_result_index1 a _ _
  · obtain ⟨more, hmore⟩ := Tempgraph.resume_fetches base tB b
      ⟨JSVal.null, JSVal.null, true, JSVal.str "", false, [], [⟨base ++ "/predict/" ++ tA, tA, false⟩]⟩
    simp [Tempgraph.run, Tempgraph.step, Tempgraph.getPredictionStart, Tempgraph.fetch,
      Tempgraph.init, Tempgraph.setResult, Tempgraph.setShowResult, Tempgraph.setLoading,
      Tempgraph.setHourlyData, hmore]
    exact Tempgraph.resume_result_tempgraph base tA a _ _
  · have hf : ∀ (f : Fetched) (v : Seo.View),
        (Seo.getPredictionResume f v).fetches = v.fetches := by
      intro f v
      rcases f with m | ⟨status, m | data⟩
      · rfl
      · rfl
      · cases hok : ok status <;> cases data <;>
          simp [Seo.getPredictionResume, Seo.getPredictionTry, hok, JSVal.read, bind,
            Except.bind, pure, Except.pure, Seo.setResult, Seo.setLoading]
    simp [Seo.run, Seo.step, Seo.getPredictionStart, Seo.fetch, Seo.init,
      Seo.setResult, Seo.setLoading, hf]
    exact Seo.resume_result_seo a _ _

/-! ### C4: the reveal flag -/

/-- C4 (counterexample): in `index.js` a prediction settles and schedules its reveal timer; the
user presses a button again before the timer fires, which resets `result` to `null` and
`showResult` to `false`; the timer of the first cycle then fires and sets `showResult` to `true`
while `result` is still `null`. -/
theorem C4_reveal_while_result_null :
    (Index.run "http://localhost:8000" Page.init
        [Page.Event.click "morning",
          Page.Event.settle 0 (Fetched.response 200 (Except.ok (JSVal.obj [("score", JSVal.num 72)]))),
          Page.Event.click "evening", Page.Event.timeout 0]).map (fun v => v.result) =
      some JSVal.null ∧
    (Index.run "http://localhost:8000" Page.init
        [Page.Event.click "morning",
          Page.Event.settle 0 (Fetched.response 200 (Except.ok (JSVal.obj [("score", JSVal.num 72)]))),
          Page.Event.click "evening", Page.Event.timeout 0]).map (fun v => v.showResult) =
      some true :=
  ⟨rfl, rfl⟩

/-- A calm settlement stores a value other than `null` in `index.js`. -/
theorem Index.resume_ne_null_index (i : Nat) (f : Fetched) (u v : Page.View)
    (h : Page.calm u (Page.Event.settle i f) = true) :
    (Index.getPredictionResume f v).result ≠ JSVal.null := by
  rcases f with m | ⟨status, m | data⟩
  · simp [Index.getPredictionResume, Index.getPredictionTry, Page.setResult, Page.setTimeout,
      Page.setLoading]
  · simp [Index.getPredictionResume, Index.getPredictionTry, Page.setResult, Page.setTimeout,
      Page.setLoading, bind, Except.bind]
  · cases hok : ok status <;> cases data <;>
      simp_all [Index.getPredictionResume, Index.getPredictionTry, JSVal.read, bind,
        Except.bind, pure, Except.pure, Page.setResult, Page.setTimeout, Page.setLoading,
        Page.calm]

/-- Calm runs of `index.js` keep: while `result` is `null`, `showResult` is `false` and no
reveal timer is pending. -/
theorem Index.calm_invariant (base : String) (es : List Page.Event) :
    ∀ v w : Page.View, (v.result = JSVal.null → v.showResult = false ∧ v.timers = []) →
      Index.run base v es = some w →
      Page.calmRun (Index.getPredictionStart base) Index.getPredictionResume v es = true →
      (w.result = JSVal.null → w.showResult = false ∧ w.timers = []) := by
  induction es with
  | nil =>
      intro v w hv hrun _
      simp [Index.run, Page.run] at hrun
      subst hrun
      exact hv
  | cons e es ih =>
      intro v w hv hrun hcalm
      simp only [Index.run, Page.run] at hrun
      simp only [Page.calmRun, Bool.and_eq_true] at hcalm
      obtain ⟨hce, hrest⟩ := hcalm
      cases hstep : Page.step (Index.getPredictionStart base) Index.getPredictionResume v e with
      | none => simp [hstep] at hrun
      | some u =>
          rw [hstep] at hrun hrest
          simp only [Option.some_bind] at hrun
          refine ih u w ?_ hrun hrest
          cases e with
          | click type =>
              simp only [Page.step, Option.some.injEq] at hstep
              subst hstep
              intro _
              simp only [Page.calm, List.isEmpty_iff] at hce
              simp [Index.getPredictionStart, Page.fetch, Page.setShowResult, Page.setResult,
                Page.setLoading, hce]
          | settle i f =>
              simp only [Page.step] at hstep
              split_ifs at hstep with hi
              simp only [Option.some.injEq] at hstep
              subst hstep
              intro hnull
              exact absurd hnull (Index.resume_ne_null_index i f v _ hce)
          | timeout i =>
              simp only [Page.step] at hstep
              split_ifs at hstep with hi
              simp only [Option.some.injEq] at hstep
              subst hstep
              intro hnull
              have hnull2 : v.result = JSVal.null := by simpa [Page.setShowResult] using hnull
              have ht := (hv hnull2).2
              rw [ht] at hi
              simp at hi

/-- C4 (amended): in every state `index.js` reaches from its initial state by a run in which no
`getPrediction` call starts while a reveal timer is pending and no 2xx response carries the JSON
body `null`, `showResult` is `false` whenever `result` is `null`. -/
theorem C4_reveal_flag_calm (base : String) (es : List Page.Event) (v : Page.View)
    (hrun : Index.run base Page.init es = some v)
    (hcalm : Page.calmRun (Index.getPredictionStart base) Index.getPredictionResume
      Page.init es = true)
    (hnull : v.result = JSVal.null) : v.showResult = false :=
  (Index.calm_invariant base es Page.init v (fun _ => ⟨rfl, rfl⟩) hrun hcalm hnull).1

theorem C4_reveal_flag_calm_witness :
    Index.run "http://localhost:8000" Page.init
        [Page.Event.click "morning",
          Page.Event.settle 0 (Fetched.response 200 (Except.ok (JSVal.obj [("score", JSVal.num 72)]))),
          Page.Event.timeout 0, Page.Event.click "evening"] =
      some (Page.View.mk JSVal.null true (JSVal.str "") false [] ["http://localhost:8000/predict/evening"]) ∧
    Page.calmRun (Index.getPredictionStart "http://localhost:8000") Index.getPredictionResume
        Page.init
        [Page.Event.click "morning",
          Page.Event.settle 0 (Fetched.response 200 (Except.ok (JSVal.obj [("score", JSVal.num 72)]))),
          Page.Event.timeout 0, Page.Event.click "evening"] = true ∧
    (Page.View.mk JSVal.null true (JSVal.str "") false [] ["http://localhost:8000/predict/evening"]).showResult
      = false :=
  ⟨rfl, rfl,
    C4_reveal_flag_calm "http://localhost:8000"
      [Page.Event.click "morning",
        Page.Event.settle 0 (Fetched.response 200 (Except.ok (JSVal.obj [("score", JSVal.num 72)]))),
        Page.Event.timeout 0, Page.Event.click "evening"]
      (Page.View.mk JSVal.null true (JSVal.str "") false [] ["http://localhost:8000/predict/evening"])
      rfl rfl rfl⟩

/-! ### C5: one live gauge chart -/

/-- Destroying a chart that is live removes exactly one chart from the live ones. -/
theorem Gauge.live_destroyAt_of_live (cs : List Gauge.Chart) :
    ∀ (i : Nat) (c : Gauge.Chart), cs[i]? = some c → c.destroyed = false →
      ((Gauge.destroyAt i cs).filter (fun c => !c.destroyed)).length + 1 =
        (cs.filter (fun c => !c.destroyed)).length := by
  induction cs with
  | nil => intro i c h; simp at h
  | cons d ds ih =>
      intro i c h hc
      cases i with
      | zero =>
          simp only [List.getElem?_cons_zero, Option.some.injEq] at h
          subst h
          simp [Gauge.destroyAt, List.filter_cons, hc]
      | succ j =>
          simp only [List.getElem?_cons_succ] at h
          have := ih j c h hc
          cases hd : d.destroyed <;> simp [Gauge.destroyAt, List.filter_cons, hd] <;> omega

/-- Destroying a chart never adds a live one. -/
theorem Gauge.live_destroyAt_le (cs : List Gauge.Chart) :
    ∀ i : Nat, ((Gauge.destroyAt i cs).filter (fun c => !c.destroyed)).length ≤
      (cs.filter (fun c => !c.destroyed)).length := by
  induction cs with
  | nil => intro i; simp [Gauge.destroyAt]
  | cons d ds ih =>
      intro i
      cases i with
      | zero =>
          cases hd : d.destroyed <;> simp [Gauge.destroyAt, List.filter_cons, hd]
      | succ j =>
          have := ih j
          cases hd : d.destroyed <;> simp [Gauge.destroyAt, List.filter_cons, hd] <;> omega

/-- After `destroyCurrent` no chart is live. -/
theorem Gauge.live_destroyCurrent (s : Gauge.State) (h : Gauge.Owned s) :
    Gauge.liveCount (Gauge.destroyCurrent s) = 0 := by
  rcases h with h0 | ⟨h1, i, c, hi, hc, hd⟩
  · cases hci : s.chartInstance with
    | none => simpa [Gauge.destroyCurrent, hci] using h0
    | some i =>
        have := Gauge.live_destroyAt_le s.charts i
        simp only [Gauge.liveCount] at h0
        simp only [Gauge.destroyCurrent, hci, Gauge.liveCount]
        omega
  · have := Gauge.live_destroyAt_of_live s.charts i c hc hd
    simp only [Gauge.liveCount] at h1
    simp only [Gauge.destroyCurrent, hi, Gauge.liveCount]
    omega

/-- A `loadChart` that completes on an attached canvas without throwing leaves exactly one live
chart, held by `chartInstance.current`. -/
theorem Gauge.loadChartResume_live (throws : JSVal → Bool) (result : JSVal) (s : Gauge.State)
    (h : Gauge.Owned s) (ht : throws result = false) :
    Gauge.liveCount (Gauge.loadChartResume throws true result s) = 1 ∧
      Gauge.Owned (Gauge.loadChartResume throws true result s) := by
  have h0 := Gauge.live_destroyCurrent s h
  have h1 : Gauge.liveCount (Gauge.loadChartResume throws true result s) = 1 := by
    simp only [Gauge.liveCount] at h0
    simp [Gauge.loadChartResume, ht, Gauge.newChart, Gauge.liveCount, List.filter_append, h0]
  refine ⟨h1, Or.inr ⟨h1, (Gauge.destroyCurrent s).charts.length, ⟨result, false⟩, ?_, ?_, rfl⟩⟩
  · simp [Gauge.loadChartResume, ht, Gauge.newChart]
  · simp [Gauge.loadChartResume, ht, Gauge.newChart]

/-- A `loadChart` that throws before it reaches its `destroy()` leaves the charts as they
were. -/
theorem Gauge.loadChartResume_throws (throws : JSVal → Bool) (canvas : Bool) (result : JSVal)
    (s : Gauge.State) (ht : throws result = true) :
    Gauge.loadChartResume throws canvas result s = s := by
  simp [Gauge.loadChartResume, ht]

/-- The part of `loadChart` after the imports keeps the invariant, however it ends. -/
theorem Gauge.loadChartResume_owned (throws : JSVal → Bool) (canvas : Bool) (result : JSVal)
    (s : Gauge.State) (h : Gauge.Owned s) :
    Gauge.Owned (Gauge.loadChartResume throws canvas result s) := by
  cases canvas with
  | false => simpa [Gauge.loadChartResume] using h
  | true =>
      cases ht : throws result with
      | false => exact (Gauge.loadChartResume_live throws result s h ht).2
      | true =>
          rw [Gauge.loadChartResume_throws throws true result s ht]
          exact h

/-- Every event keeps the invariant, whatever the guard of the effect. -/
theorem Gauge.step_owned (returns : Bool → JSVal → Bool) (throws : JSVal → Bool)
    (s t : Gauge.State) (e : Gauge.Event)
    (h : Gauge.Owned s) (hstep : Gauge.step returns throws s e = some t) : Gauge.Owned t := by
  cases e with
  | effect canvas result =>
      simp only [Gauge.step] at hstep
      split_ifs at hstep <;> simp only [Option.some.injEq] at hstep <;> subst hstep
      · exact h
      · exact h
  | cleanup =>
      simp only [Gauge.step, Option.some.injEq] at hstep
      subst hstep
      exact Or.inl (Gauge.live_destroyCurrent s h)
  | loaded i canvas =>
      simp only [Gauge.step] at hstep
      cases hl : s.loads[i]? with
      | none => simp [hl] at hstep
      | some result =>
          simp only [hl, Option.some.injEq] at hstep
          subst hstep
          have h2 : Gauge.Owned { s with loads := s.loads.eraseIdx i } := h
          exact Gauge.loadChartResume_owned throws canvas result _ h2

/-- Every state reached from mount satisfies the invariant. -/
theorem Gauge.run_owned (returns : Bool → JSVal → Bool) (throws : JSVal → Bool)
    (es : List Gauge.Event) :
    ∀ s t : Gauge.State, Gauge.Owned s → Gauge.run returns throws s es = some t →
      Gauge.Owned t := by
  induction es with
  | nil =>
      intro s t h hrun
      simp only [Gauge.run, Option.some.injEq] at hrun
      subst hrun
      exact h
  | cons e es ih =>
      intro s t h hrun
      simp only [Gauge.run] at hrun
      cases hstep : Gauge.step returns throws s e with
      | none => simp [hstep] at hrun
      | some u =>
          rw [hstep] at hrun
          exact ih u t (Gauge.step_owned returns throws s u e h hstep) hrun

/-- The `loadChart` of `index_1.js` throws before its `destroy()` exactly when `result.label` is
truthy and not a string. -/
theorem Index1.loadChartThrows_false_iff (upper : String → String) (result : JSVal) :
    Index1.loadChartThrows upper result = false ↔
      (result.get "label").truthy = false ∨ ∃ t, result.get "label" = JSVal.str t := by
  unfold Index1.loadChartThrows Index1.displayLabel
  cases hl : result.get "label" <;> simp [JSVal.truthy]
  case bool b => cases b <;> simp
  case num q => by_cases hq : q = 0 <;> simp [hq]
  case str t => by_cases ht : t = "" <;> simp [ht]

/-- C5 (counterexample): in `index_1.js` the result
`{score: 72, label: 5, prediction_type: "morning"}` passes the guard of the gauge effect, and
`loadChart` throws at `result.label.charAt` before it reaches `new Chart`: two renders in
succession on the attached canvas, with the cleanup between them or without it, leave no live
chart, not exactly one. -/
theorem C5_label_throw_leaves_no_chart :
    Index1.gaugeReturns true
      (JSVal.obj [("score", JSVal.num 72), ("label", JSVal.num 5),
        ("prediction_type", JSVal.str "morning")]) = false ∧
    Index1.displayLabel id
      (JSVal.obj [("score", JSVal.num 72), ("label", JSVal.num 5),
        ("prediction_type", JSVal.str "morning")]) =
      Except.error "result.label.charAt is not a function" ∧
    (Gauge.run Index1.gaugeReturns (Index1.loadChartThrows id) Gauge.init
      [Gauge.Event.effect true
          (JSVal.obj [("score", JSVal.num 72), ("label", JSVal.num 5),
            ("prediction_type", JSVal.str "morning")]),
        Gauge.Event.loaded 0 true, Gauge.Event.cleanup,
        Gauge.Event.effect true
          (JSVal.obj [("score", JSVal.num 72), ("label", JSVal.num 5),
            ("prediction_type", JSVal.str "morning")]),
        Gauge.Event.loaded 0 true]).map Gauge.liveCount = some 0 ∧
    (Gauge.run Index1.gaugeReturns (Index1.loadChartThrows id) Gauge.init
      [Gauge.Event.effect true
          (JSVal.obj [("score", JSVal.num 72), ("label", JSVal.num 5),
            ("prediction_type", JSVal.str "morning")]),
        Gauge.Event.effect true
          (JSVal.obj [("score", JSVal.num 72), ("label", JSVal.num 5),
            ("prediction_type", JSVal.str "morning")]),
        Gauge.Event.loaded 0 true, Gauge.Event.loaded 0 true]).map Gauge.liveCount = some 0 := by
  refine ⟨?_, ?_, ?_, ?_⟩
  · simp [Index1.gaugeReturns, JSVal.truthy, JSVal.get, lookup, JSVal.isStr]
  · simp [Index1.displayLabel, JSVal.truthy, JSVal.get, lookup]
  · simp [Gauge.run, Gauge.step, Gauge.init, Index1.gaugeReturns, Index1.loadChartThrows,
      Index1.displayLabel, Gauge.loadChartResume, Gauge.destroyCurrent, Gauge.liveCount,
      JSVal.truthy, JSVal.get, lookup, JSVal.isStr]
  · simp [Gauge.run, Gauge.step, Gauge.init, Index1.gaugeReturns, Index1.loadChartThrows,
      Index1.displayLabel, Gauge.loadChartResume, Gauge.destroyCurrent, Gauge.liveCount,
      JSVal.truthy, JSVal.get, lookup, JSVal.isStr]

/-- C5 (amended): in every state the gauge of `index.js` or of `index_1.js` reaches from mount
through effect runs, effect cleanups and `loadChart` completions, at most one chart constructed
by `loadChart` is live.  In `index.js` each `loadChart` completion on the attached canvas leaves
exactly one live chart, so two renders in succession (with or without the cleanup between them)
leave exactly one.  In `index_1.js` the same holds for a `loadChart` whose `result.label` is
falsy or a string, whatever the render before it was; a `loadChart` whose `result.label` is
truthy and not a string throws before its `destroy()` and leaves the charts as they were. -/
theorem C5_single_live_gauge (upper : String → String) (es : List Gauge.Event)
    (s : Gauge.State)
    (h : Gauge.run Index.gaugeReturns Index.loadChartThrows Gauge.init es = some s ∨
      Gauge.run Index1.gaugeReturns (Index1.loadChartThrows upper) Gauge.init es = some s) :
    Gauge.liveCount s ≤ 1 ∧
    (∀ r1 : JSVal,
      Gauge.liveCount (Gauge.loadChartResume Index.loadChartThrows true r1 s) = 1) ∧
    (∀ r1 r2 : JSVal,
      Gauge.liveCount
        (Gauge.loadChartResume Index.loadChartThrows true r2
          (Gauge.loadChartResume Index.loadChartThrows true r1 s)) = 1) ∧
    (∀ r1 r2 : JSVal,
      Gauge.liveCount
        (Gauge.loadChartResume Index.loadChartThrows true r2
          (Gauge.destroyCurrent (Gauge.loadChartResume Index.loadChartThrows true r1 s))) = 1) ∧
    (∀ r1 : JSVal, Index1.loadChartThrows upper r1 = false →
      Gauge.liveCount (Gauge.loadChartResume (Index1.loadChartThrows upper) true r1 s) = 1) ∧
    (∀ r1 r2 : JSVal, Index1.loadChartThrows upper r2 = false →
      Gauge.liveCount
        (Gauge.loadChartResume (Index1.loadChartThrows upper) true r2
          (Gauge.loadChartResume (Index1.loadChartThrows upper) true r1 s)) = 1) ∧
    (∀ r1 r2 : JSVal, Index1.loadChartThrows upper r2 = false →
      Gauge.liveCount
        (Gauge.loadChartResume (Index1.loadChartThrows upper) true r2
          (Gauge.destroyCurrent
            (Gauge.loadChartResume (Index1.loadChartThrows upper) true r1 s))) = 1) ∧
    (∀ (r1 : JSVal) (canvas : Bool), Index1.loadChartThrows upper r1 = true →
      Gauge.loadChartResume (Index1.loadChartThrows upper) canvas r1 s = s) ∧
    (∀ r1 : JSVal, Index1.loadChartThrows upper r1 = false ↔
      (r1.get "label").truthy = false ∨ ∃ t, r1.get "label" = JSVal.str t) := by
  have hinit : Gauge.Owned Gauge.init := Or.inl rfl
  have hs : Gauge.Owned s := by
    rcases h with h | h
    · exact Gauge.run_owned _ _ es _ _ hinit h
    · exact Gauge.run_owned _ _ es _ _ hinit h
  refine ⟨?_, ?_, ?_, ?_, ?_, ?_, ?_, ?_, ?_⟩
  · rcases hs with h0 | ⟨h1, _⟩ <;> omega
  · intro r1
    exact (Gauge.loadChartResume_live _ r1 s hs rfl).1
  · intro r1 r2
    exact (Gauge.loadChartResume_live _ r2 _ (Gauge.loadChartResume_live _ r1 s hs rfl).2 rfl).1
  · intro r1 r2
    have h1 := (Gauge.loadChartResume_live Index.loadChartThrows r1 s hs rfl).2
    exact (Gauge.loadChartResume_live _ r2 _ (Or.inl (Gauge.live_destroyCurrent _ h1)) rfl).1
  · intro r1 ht
    exact (Gauge.loadChartResume_live _ r1 s hs ht).1
  · intro r1 r2 ht
    exact (Gauge.loadChartResume_live _ r2 _
      (Gauge.loadChartResume_owned _ true r1 s hs) ht).1
  · intro r1 r2 ht
    have h1 := Gauge.loadChartResume_owned (Index1.loadChartThrows upper) true r1 s hs
    exact (Gauge.loadChartResume_live _ r2 _ (Or.inl (Gauge.live_destroyCurrent _ h1)) ht).1
  · intro r1 canvas ht
    exact Gauge.loadChartResume_throws _ canvas r1 s ht
  · intro r1
    exact Index1.loadChartThrows_false_iff upper r1

theorem C5_single_live_gauge_witness :
    Gauge.run Index.gaugeReturns Index.loadChartThrows Gauge.init
        [Gauge.Event.effect true (JSVal.obj [("score", JSVal.num 72)]), Gauge.Event.loaded 0 true,
          Gauge.Event.effect true (JSVal.obj [("score", JSVal.num 72)]), Gauge.Event.loaded 0 true] =
      some (Gauge.State.mk [⟨JSVal.obj [("score", JSVal.num 72)], true⟩,
        ⟨JSVal.obj [("score", JSVal.num 72)], false⟩] (some 1) []) ∧
    Gauge.liveCount
        (Gauge.State.mk [⟨JSVal.obj [("score", JSVal.num 72)], true⟩,
          ⟨JSVal.obj [("score", JSVal.num 72)], false⟩] (some 1) []) ≤ 1 ∧
    Index1.loadChartThrows id Sample.morning = false ∧
    Gauge.liveCount
      (Gauge.loadChartResume (Index1.loadChartThrows id) true Sample.morning
        (Gauge.State.mk [⟨JSVal.obj [("score", JSVal.num 72)], true⟩,
          ⟨JSVal.obj [("score", JSVal.num 72)], false⟩] (some 1) [])) = 1 :=
  ⟨rfl, (C5_single_live_gauge id
    [Gauge.Event.effect true (JSVal.obj [("score", JSVal.num 72)]), Gauge.Event.loaded 0 true,
      Gauge.Event.effect true (JSVal.obj [("score", JSVal.num 72)]), Gauge.Event.loaded 0 true]
    (Gauge.State.mk [⟨JSVal.obj [("score", JSVal.num 72)], true⟩,
      ⟨JSVal.obj [("score", JSVal.num 72)], false⟩] (some 1) [])
    (Or.inl rfl)).1,
    rfl,
    (C5_single_live_gauge id
    [Gauge.Event.effect true (JSVal.obj [("score", JSVal.num 72)]), Gauge.Event.loaded 0 true,
      Gauge.Event.effect true (JSVal.obj [("score", JSVal.num 72)]), Gauge.Event.loaded 0 true]
    (Gauge.State.mk [⟨JSVal.obj [("score", JSVal.num 72)], true⟩,
      ⟨JSVal.obj [("score", JSVal.num 72)], false⟩] (some 1) [])
    (Or.inl rfl)).2.2.2.2.1 Sample.morning rfl⟩

/-! ### C6 to C9: what `getPrediction` stores on errors -/

/-- C6 (counterexample): in `index.js` a response with status 500 whose body is the JSON value
`null` makes `data.detail` throw inside the `try`; the `catch` stores the network-error Failure,
whose message does not contain the status, and which has no `details`. -/
theorem C6_null_body_is_network_error :
    (Index.getPredictionResume (Fetched.response 500 (Except.ok JSVal.null)) Page.init).result =
      JSVal.obj
        [("error", JSVal.str "네트워크 오류: Cannot read properties of null (reading 'detail')")] ∧
    ¬ JS.includes "네트워크 오류: Cannot read properties of null (reading 'detail')" "500" :=
  ⟨rfl, by decide⟩

/-- The status is part of the text `API 오류: ` followed by the status. -/
theorem JS.includes_status (status : Nat) :
    JS.includes ("API 오류: " ++ toString status) (toString status) := by
  unfold JS.includes
  rw [String.data_append]
  exact (List.suffix_append _ _).isInfix

/-- C6 (amended): in `index.js`, for every non-2xx response with status `c` and a parseable JSON
body other than `null`, `getPrediction` stores the object with `error` the text `API 오류: `
followed by the decimal `c` and `details` the body's `detail` (absent when the body has none);
the message contains the status; for status 503 with body `{detail: "service unavailable"}` the
message contains `503` and the detail is `service unavailable`. -/
theorem C6_protocol_error (status : Nat) (data : JSVal) (v : Page.View)
    (hok : ok status = false) (hnull : data ≠ JSVal.null) (hundef : data ≠ JSVal.undefined) :
    (Index.getPredictionResume (Fetched.response status (Except.ok data)) v).result =
      JSVal.obj [("error", JSVal.str ("API 오류: " ++ toString status)),
        ("details", data.get "detail")] ∧
    JS.includes ("API 오류: " ++ toString status) (toString status) ∧
    (Index.getPredictionResume (Fetched.response 503
        (Except.ok (JSVal.obj [("detail", JSVal.str "service unavailable")]))) v).result =
      JSVal.obj [("error", JSVal.str "API 오류: 503"),
        ("details", JSVal.str "service unavailable")] ∧
    JS.includes "API 오류: 503" "503" ∧
    (Index.getPredictionResume (Fetched.response 503 (Except.ok (JSVal.obj []))) v).result =
      JSVal.obj [("error", JSVal.str "API 오류: 503"), ("details", JSVal.undefined)] := by
  refine ⟨?_, JS.includes_status status, rfl, by decide, rfl⟩
  cases data <;>
    simp_all [Index.getPredictionResume, Index.getPredictionTry, JSVal.read, bind, Except.bind,
      pure, Except.pure, Page.setResult, Page.setTimeout, Page.setLoading]

theorem C6_protocol_error_witness :
    ok 404 = false ∧
    JSVal.obj [("detail", JSVal.str "Not Found")] ≠ JSVal.null ∧
    JSVal.obj [("detail", JSVal.str "Not Found")] ≠ JSVal.undefined ∧
    (Index.getPredictionResume (Fetched.response 404
        (Except.ok (JSVal.obj [("detail", JSVal.str "Not Found")]))) Page.init).result =
      JSVal.obj [("error", JSVal.str ("API 오류: " ++ toString 404)),
        ("details", (JSVal.obj [("detail", JSVal.str "Not Found")]).get "detail")] :=
  ⟨rfl, by simp, by simp,
    (C6_protocol_error 404 (JSVal.obj [("detail", JSVal.str "Not Found")]) Page.init rfl
      (by simp) (by simp)).1⟩

/-- C7 (counterexample): in `index_1.js` and in `index _2_tempgraph.js` a response with status
503 and body `{detail: "service unavailable"}` stores the message `service unavailable`, which
does not contain `503`. -/
theorem C7_detail_replaces_status :
    (Index1.getPredictionResume (Fetched.response 503
        (Except.ok (JSVal.obj [("detail", JSVal.str "service unavailable")]))) Page.init).result =
      JSVal.obj [("error", JSVal.str "service unavailable")] ∧
    (Tempgraph.getPredictionResume "http://localhost:8000" "evening" (Fetched.response 503
        (Except.ok (JSVal.obj [("detail", JSVal.str "service unavailable")])))
        Tempgraph.init).result =
      JSVal.obj [("error", JSVal.str "service unavailable")] ∧
    ¬ JS.includes "service unavailable" "503" :=
  ⟨rfl, rfl, by decide⟩

/-- C7 (amended): in `index_1.js` and in `index _2_tempgraph.js`, for every non-2xx response
with status `c` and a parseable JSON body other than `null`, the stored Failure has as message
the body's `detail` when that is truthy, and otherwise the text `API 오류: ` followed by the
decimal `c`; so the message embeds the status exactly when the body carries no truthy detail. -/
theorem C7_protocol_error_message (base type : String) (status : Nat) (data : JSVal)
    (v : Page.View) (w : Tempgraph.View)
    (hok : ok status = false) (hnull : data ≠ JSVal.null) (hundef : data ≠ JSVal.undefined) :
    (Index1.getPredictionResume (Fetched.response status (Except.ok data)) v).result =
      JSVal.obj [("error", (data.get "detail").or (JSVal.str ("API 오류: " ++ toString status)))] ∧
    (Tempgraph.getPredictionResume base type (Fetched.response status (Except.ok data)) w).result =
      JSVal.obj [("error", (data.get "detail").or (JSVal.str ("API 오류: " ++ toString status)))] ∧
    ((data.get "detail").truthy = true →
      (data.get "detail").or (JSVal.str ("API 오류: " ++ toString status)) = data.get "detail") ∧
    ((data.get "detail").truthy = false →
      (data.get "detail").or (JSVal.str ("API 오류: " ++ toString status)) =
        JSVal.str ("API 오류: " ++ toString status) ∧
      JS.includes ("API 오류: " ++ toString status) (toString status)) := by
  refine ⟨?_, ?_, ?_, ?_⟩
  · cases data <;>
      simp_all [Index1.getPredictionResume, Index1.getPredictionTry, JSVal.read, bind,
        Except.bind, pure, Except.pure, Page.setResult, Page.setTimeout, Page.setLoading]
  · cases data <;>
      simp_all [Tempgraph.getPredictionResume, Tempgraph.getPredictionTry, JSVal.read, bind,
        Except.bind, pure, Except.pure, Tempgraph.setResult, Tempgraph.setTimeout,
        Tempgraph.setLoading]
  · intro h
    simp [JSVal.or, h]
  · intro h
    exact ⟨by simp [JSVal.or, h], JS.includes_status status⟩

theorem C7_protocol_error_message_witness :
    ok 503 = false ∧ JSVal.obj [] ≠ JSVal.null ∧ JSVal.obj [] ≠ JSVal.undefined ∧
    (Index1.getPredictionResume (Fetched.response 503 (Except.ok (JSVal.obj []))) Page.init).result =
      JSVal.obj [("error",
        ((JSVal.obj []).get "detail").or (JSVal.str ("API 오류: " ++ toString 503)))] :=
  ⟨rfl, by simp, by simp,
    (C7_protocol_error_message "http://localhost:8000" "evening" 503 (JSVal.obj []) Page.init
      Tempgraph.init rfl (by simp) (by simp)).1⟩

/-- C8 (counterexample): in `index.js` a 2xx response whose body is error-shaped
(`{detail: "service unavailable"}`, no score) is stored as it is, with no `error` field; and a
response with status 502 whose body does not parse stores the message of the parse error, which
does not contain `502`. -/
theorem C8_error_shaped_body_stored :
    (Index.getPredictionResume (Fetched.response 200
        (Except.ok (JSVal.obj [("detail", JSVal.str "service unavailable")]))) Page.init).result =
      JSVal.obj [("detail", JSVal.str "service unavailable")] ∧
    ((JSVal.obj [("detail", JSVal.str "service unavailable")]).get "error").truthy = false ∧
    (Index.getPredictionResume (Fetched.response 502
        (Except.error "Unexpected token < in JSON at position 0")) Page.init).result =
      JSVal.obj [("error", JSVal.str "네트워크 오류: Unexpected token < in JSON at position 0")] ∧
    ¬ JS.includes "네트워크 오류: Unexpected token < in JSON at position 0" "502" :=
  ⟨rfl, rfl, rfl, by decide⟩

/-- C8 (amended): in `index.js`, for every response whose body cannot be parsed as JSON
(`response.json()` rejects with message `m`), whatever the status, the stored result is the
Failure whose message is `네트워크 오류: ` followed by `m`; and for every 2xx response with a
parseable body, the body is stored unchanged as the result, whatever its shape. -/
theorem C8_unparseable_and_unvalidated (status : Nat) (m : String) (data : JSVal)
    (v : Page.View) :
    (Index.getPredictionResume (Fetched.response status (Except.error m)) v).result =
      JSVal.obj [("error", JSVal.str ("네트워크 오류: " ++ m))] ∧
    (ok status = true →
      (Index.getPredictionResume (Fetched.response status (Except.ok data)) v).result = data) := by
  refine ⟨rfl, ?_⟩
  intro hok
  simp [Index.getPredictionResume, Index.getPredictionTry, hok, bind, Except.bind, pure,
    Except.pure, Page.setResult, Page.setTimeout, Page.setLoading]

theorem C8_unparseable_and_unvalidated_witness :
    ok 201 = true ∧
    (Index.getPredictionResume (Fetched.response 201
        (Except.ok (JSVal.obj [("detail", JSVal.str "x")]))) Page.init).result =
      JSVal.obj [("detail", JSVal.str "x")] :=
  ⟨rfl,
    (C8_unparseable_and_unvalidated 201 "" (JSVal.obj [("detail", JSVal.str "x")]) Page.init).2 rfl⟩

/-- C9: when the fetch of `getPrediction` rejects with an error of message `m`, the `try` block
throws, the `catch` handles it, and the stored result is exactly the object whose only field is
`error`, the text `네트워크 오류: ` followed by `m`: in `index.js` (whose `getPrediction` is that of
`index_im2.js` and `index_ im3.js`), `index_1.js`, `index _2_tempgraph.js` (its first fetch) and
`index _seo.js`.  `getPredictionResume` is a total function: the call ends in a state, not in
an exception. -/
theorem C9_transport_error (base type m : String) (v : Page.View) (w : Tempgraph.View)
    (u : Seo.View) :
    Index.getPredictionTry (Fetched.rejected m) v = Except.error m ∧
    (Index.getPredictionResume (Fetched.rejected m) v).result =
      JSVal.obj [("error", JSVal.str ("네트워크 오류: " ++ m))] ∧
    (Index1.getPredictionResume (Fetched.rejected m) v).result =
      JSVal.obj [("error", JSVal.str ("네트워크 오류: " ++ m))] ∧
    (Tempgraph.getPredictionResume base type (Fetched.rejected m) w).result =
      JSVal.obj [("error", JSVal.str ("네트워크 오류: " ++ m))] ∧
    (Seo.getPredictionResume (Fetched.rejected m) u).result =
      JSVal.obj [("error", JSVal.str ("네트워크 오류: " ++ m))] ∧
    JS.includes ("네트워크 오류: " ++ m) m := by
  refine ⟨rfl, rfl, rfl, rfl, rfl, ?_⟩
  unfold JS.includes
  rw [String.data_append]
  exact (List.suffix_append _ _).isInfix

/-! ### C11 to C13: fallbacks and labels -/

/-- C11 (counterexample): a success result without a score (`{label: "good"}`) gets, in
`index_1.js`, the colour `#E53935` and the emoji ⚠️ of the lowest band, not `#FFC107` and 😐; in
`index.js` it gets `#E53935` and 🥶, not `#FB8C00` and 😣. -/
theorem C11_missing_score_is_lowest_band :
    Index1.color (fun _ => none) (Index1.score (JSVal.obj [("label", JSVal.str "good")])) =
      "#E53935" ∧
    Index1.emoji (fun _ => none) (JSVal.obj [("label", JSVal.str "good")]) = "⚠️" ∧
    Index.color (fun _ => none) (Index.score (JSVal.obj [("label", JSVal.str "good")])) =
      "#E53935" ∧
    Index.emoji (fun _ => none) (JSVal.obj [("label", JSVal.str "good")]) = "🥶" ∧
    "#E53935" ≠ "#FFC107" ∧ "⚠️" ≠ "😐" ∧ "#E53935" ≠ "#FB8C00" ∧ "🥶" ≠ "😣" := by
  refine ⟨?_, ?_, ?_, ?_, by decide, by decide, by decide, by decide⟩
  · simp [Index1.color, Index1.score, JSVal.get, lookup, JSVal.or, JSVal.truthy, JSVal.ge,
      JSVal.toNumber]
    norm_num
  · simp [Index1.emoji, JSVal.get, lookup, JSVal.ge, JSVal.toNumber]
  · simp [Index.color, Index.score, JSVal.get, lookup, JSVal.or, JSVal.truthy, JSVal.ge,
      JSVal.lt, JSVal.toNumber]
    norm_num
  · simp [Index.emoji, JSVal.get, lookup, JSVal.ge, JSVal.toNumber]

/-- C11 (amended): when a success result carries no score, the gauge takes the score to be 0:
the colour and emoji it derives are those of the lowest category (`#E53935` and ⚠️ in the
five-level gauge of `index_1.js`, `#E53935` and 🥶 in the four-level gauge of `index.js`); the
derivation is total, so classification does not fail. -/
theorem C11_missing_score_fallback (conv : JSVal → Option ℚ) (result : JSVal)
    (h : result.get "score" = JSVal.undefined) :
    Index1.score result = JSVal.num 0 ∧
    Index1.color conv (Index1.score result) = "#E53935" ∧
    Index1.emoji conv result = "⚠️" ∧
    Index.score result = JSVal.num 0 ∧
    Index.color conv (Index.score result) = "#E53935" ∧
    Index.emoji conv result = "🥶" := by
  have h1 : Index1.score result = JSVal.num 0 := by
    rw [Index1.score, h, JS.or_zero_undefined]
  have h2 : Index.score result = JSVal.num 0 := by
    rw [Index.score, h, JS.or_zero_undefined]
  refine ⟨h1, ?_, ?_, h2, ?_, ?_⟩
  · rw [h1, Index1.color_five_num]
    norm_num
  · simp [Index1.emoji, h, JSVal.ge, JSVal.toNumber]
  · rw [h2, Index.color_four_num]
    norm_num
  · simp [Index.emoji, h, JSVal.ge, JSVal.toNumber]

theorem C11_missing_score_fallback_witness :
    (JSVal.obj [("label", JSVal.str "good")]).get "score" = JSVal.undefined ∧
    Index1.color (fun _ => none) (Index1.score (JSVal.obj [("label", JSVal.str "good")])) =
      "#E53935" :=
  ⟨rfl, (C11_missing_score_fallback (fun _ => none) (JSVal.obj [("label", JSVal.str "good")])
    rfl).2.1⟩

/-- Upper-casing the first character of a string whose first character lies below U+10000. -/
theorem JS.upperFirst_cons (upper : String → String) (L : String) (c : Char) (rest : List Char)
    (hL : L.data = c :: rest) (hc : c.val < 65536) :
    upperFirst upper L = toUpperCase upper (String.singleton c) ++ String.mk rest := by
  simp [upperFirst, hL, hc]

/-- A non-empty string is truthy. -/
theorem JS.truthy_str (L : String) (hL : L ≠ "") : (JSVal.str L).truthy = true := by
  simp [JSVal.truthy, hL]

/-- C12: for every non-empty server label `L`, the category text shown by `index_1.js` and by
`index.js` is `L` with its first character upper-cased (`charAt(0).toUpperCase()` followed by
`slice(1)`, which act on the first UTF-16 code unit: a first character below U+10000 is
replaced by its upper case, a first character beyond is left as it is), the CSS class of
`index.js` is `L` lower-cased, and both are the same for any two results with that label, so
for any two scores; the gauge colour and emoji are the same for any two results with an equal
score, so for any two labels. -/
theorem C12_label_authoritative (conv : JSVal → Option ℚ) (upper lower : String → String)
    (L : String) (r1 r2 : JSVal) (hL : L ≠ "")
    (h1 : r1.get "label" = JSVal.str L) (h2 : r2.get "label" = JSVal.str L) :
    Index1.displayLabel upper r1 = Except.ok (upperFirst upper L) ∧
    Index1.displayLabel upper r2 = Index1.displayLabel upper r1 ∧
    Index.displayLabel upper lower r1 = Except.ok (upperFirst upper L) ∧
    Index.displayLabel upper lower r2 = Index.displayLabel upper lower r1 ∧
    Index.scoreClass lower r1 = Except.ok (toLowerCase lower L) ∧
    Index.scoreClass lower r2 = Index.scoreClass lower r1 ∧
    (∀ (c : Char) (rest : List Char), L.data = c :: rest → c.val < 65536 →
      upperFirst upper L = toUpperCase upper (String.singleton c) ++ String.mk rest) ∧
    (∀ (c : Char) (rest : List Char), L.data = c :: rest → ¬ c.val < 65536 →
      upperFirst upper L = L) ∧
    upperFirst upper "good" = "Good" ∧ toLowerCase lower "Good" = "good" ∧
    (∀ s1 s2 : JSVal, s1.get "score" = s2.get "score" →
      Index1.color conv (Index1.score s1) = Index1.color conv (Index1.score s2) ∧
      Index1.emoji conv s1 = Index1.emoji conv s2 ∧
      Index.color conv (Index.score s1) = Index.color conv (Index.score s2) ∧
      Index.emoji conv s1 = Index.emoji conv s2) := by
  have ht := JS.truthy_str L hL
  have hor : (JSVal.str L).or (JSVal.str "fair") = JSVal.str L := by simp [JSVal.or, ht]
  have a1 : ∀ r : JSVal, r.get "label" = JSVal.str L →
      Index1.displayLabel upper r = Except.ok (upperFirst upper L) := by
    intro r hr
    simp [Index1.displayLabel, hr, ht]
  have a2 : ∀ r : JSVal, r.get "label" = JSVal.str L →
      Index.scoreClass lower r = Except.ok (toLowerCase lower L) := by
    intro r hr
    simp [Index.scoreClass, hr, hor]
  have a3 : ∀ r : JSVal, r.get "label" = JSVal.str L →
      Index.displayLabel upper lower r = Except.ok (upperFirst upper L) := by
    intro r hr
    simp [Index.displayLabel, a2 r hr, hr, ht, bind, Except.bind, pure, Except.pure]
  refine ⟨a1 r1 h1, by rw [a1 r1 h1, a1 r2 h2], a3 r1 h1, by rw [a3 r1 h1, a3 r2 h2],
    a2 r1 h1, by rw [a2 r1 h1, a2 r2 h2], ?_, ?_, rfl, rfl, ?_⟩
  · intro c rest hd hc
    exact JS.upperFirst_cons upper L c rest hd hc
  · intro c rest hd hc
    simp [upperFirst, hd, hc]
  · intro s1 s2 hs
    simp [Index1.score, Index1.emoji, Index.score, Index.emoji, hs]

theorem C12_label_authoritative_witness :
    "good" ≠ "" ∧
    (JSVal.obj [("score", JSVal.num 72), ("label", JSVal.str "good")]).get "label" =
      JSVal.str "good" ∧
    (JSVal.obj [("score", JSVal.num 15), ("label", JSVal.str "good")]).get "label" =
      JSVal.str "good" ∧
    Index1.displayLabel id (JSVal.obj [("score", JSVal.num 15), ("label", JSVal.str "good")]) =
      Index1.displayLabel id (JSVal.obj [("score", JSVal.num 72), ("label", JSVal.str "good")]) :=
  ⟨by decide, rfl, rfl,
    (C12_label_authoritative (fun _ => none) id id "good"
      (JSVal.obj [("score", JSVal.num 72), ("label", JSVal.str "good")])
      (JSVal.obj [("score", JSVal.num 15), ("label", JSVal.str "good")])
      (by decide) rfl rfl).2.1⟩

/-- C13: when a success result has no label (it is absent, the empty string, or any other falsy
value), whatever the rest of the result and so for every score, `index.js` uses the class
`fair` and the text `Fair`, and `index_1.js` and `index _2_tempgraph.js` use the text
`Moderate`; none of the three computations throws. -/
theorem C13_missing_label_fallback (upper lower : String → String) (result : JSVal)
    (h : (result.get "label").truthy = false) :
    Index.scoreClass lower result = Except.ok "fair" ∧
    Index.displayLabel upper lower result = Except.ok "Fair" ∧
    Index1.displayLabel upper result = Except.ok "Moderate" ∧
    Tempgraph.displayLabel upper result = Except.ok "Moderate" := by
  have hor : (result.get "label").or (JSVal.str "fair") = JSVal.str "fair" := by
    simp [JSVal.or, h]
  have hs : Index.scoreClass lower result = Except.ok "fair" := by
    simp only [Index.scoreClass, hor]
    rfl
  refine ⟨hs, ?_, ?_, ?_⟩
  · simp only [Index.displayLabel, hs, h, bind, Except.bind, pure, Except.pure]
    rfl
  · simp [Index1.displayLabel, h]
  · simp [Tempgraph.displayLabel, h]

theorem C13_missing_label_fallback_witness :
    ((JSVal.obj [("score", JSVal.num 72), ("label", JSVal.str "")]).get "label").truthy = false ∧
    ((JSVal.obj [("score", JSVal.num 72)]).get "label").truthy = false ∧
    Index.displayLabel id id (JSVal.obj [("score", JSVal.num 72), ("label", JSVal.str "")]) =
      Except.ok "Fair" ∧
    Index1.displayLabel id (JSVal.obj [("score", JSVal.num 72)]) = Except.ok "Moderate" :=
  ⟨rfl, rfl,
    (C13_missing_label_fallback id id
      (JSVal.obj [("score", JSVal.num 72), ("label", JSVal.str "")]) rfl).2.1,
    (C13_missing_label_fallback id id (JSVal.obj [("score", JSVal.num 72)]) rfl).2.2.1⟩

/-! ### C14: the segments of the gauge, in double arithmetic -/

/-- Rounding to the nearest integer moves a number by at most one half. -/
theorem JS.roundHalfEven_error (x : ℚ) : |(roundHalfEven x : ℚ) - x| ≤ 1 / 2 := by
  have h1 := Int.floor_le x
  have h2 := Int.lt_floor_add_one x
  unfold roundHalfEven
  split_ifs with a b c
  · rw [abs_le]; constructor <;> linarith
  · rw [abs_le]; push_cast; constructor <;> linarith
  · rw [abs_le]; constructor <;> linarith
  · rw [abs_le]; push_cast; constructor <;> linarith

/-- A non-negative number rounds to a non-negative integer. -/
theorem JS.roundHalfEven_nonneg (x : ℚ) (h : 0 ≤ x) : 0 ≤ roundHalfEven x := by
  have h1 : 0 ≤ ⌊x⌋ := Int.floor_nonneg.2 h
  unfold roundHalfEven
  split_ifs <;> omega

/-- An integer rounds to itself. -/
theorem JS.roundHalfEven_intCast (m : ℤ) : roundHalfEven (m : ℚ) = m := by
  simp [roundHalfEven]

/-- A number within one half of an even integer rounds to it, the halfway cases included. -/
theorem JS.roundHalfEven_near_even (M : ℤ) (hM : M % 2 = 0) (x : ℚ)
    (h : |x - M| ≤ 1 / 2) : roundHalfEven x = M := by
  rw [abs_le] at h
  have h1 := Int.floor_le x
  have h2 := Int.lt_floor_add_one x
  have hf : ⌊x⌋ = M ∨ ⌊x⌋ = M - 1 := by
    have a : M - 1 ≤ ⌊x⌋ := by
      rw [Int.le_floor]; push_cast; linarith
    have b : ⌊x⌋ < M + 1 := by
      rw [Int.floor_lt]; push_cast; linarith
    omega
  unfold roundHalfEven
  rcases hf with hf | hf
  · have hx : x - (M : ℚ) ≤ 1 / 2 := h.2
    rw [hf]
    split_ifs <;> first | rfl | omega | (exfalso; linarith)
  · rw [hf]
    have hx : (M : ℚ) - 1 / 2 ≤ x := by linarith [h.1]
    split_ifs with a <;> first | omega | (exfalso; push_cast at a; linarith)

/-- The binary logarithm of a number between two consecutive powers of two. -/
theorem JS.log_of_bounds (k : ℤ) (r : ℚ) (h1 : (2 : ℚ) ^ k ≤ r) (h2 : r < (2 : ℚ) ^ (k + 1)) :
    Int.log 2 r = k := by
  have hr : 0 < r := lt_of_lt_of_le (by positivity) h1
  have a : k ≤ Int.log 2 r := by
    rw [← Int.zpow_le_iff_le_log (by norm_num) hr]
    exact_mod_cast h1
  have b : Int.log 2 r < k + 1 := by
    rw [← Int.lt_zpow_iff_log_lt (by norm_num) hr]
    exact_mod_cast h2
  omega

/-- A number below a power of two has a smaller binary logarithm. -/
theorem JS.log_le_of_lt (k : ℤ) (r : ℚ) (hk : 0 ≤ k) (h2 : r < (2 : ℚ) ^ (k + 1)) :
    Int.log 2 r ≤ k := by
  by_cases hr : 0 < r
  · have b : Int.log 2 r < k + 1 := by
      rw [← Int.lt_zpow_iff_log_lt (by norm_num) hr]
      exact_mod_cast h2
    omega
  · have : Int.log 2 r = 0 := Int.log_of_right_le_zero 2 (le_of_not_lt hr)
    omega

/-- The unit in the last place is positive. -/
theorem JS.ulpExp_pos (q : ℚ) : (0 : ℚ) < 2 ^ ulpExp q := by positivity

/-- A non-negative number rounds to a non-negative double. -/
theorem JS.roundDouble_nonneg (q : ℚ) (h : 0 ≤ q) : 0 ≤ roundDouble q := by
  unfold roundDouble
  have h1 : 0 ≤ roundHalfEven (q / 2 ^ ulpExp q) :=
    JS.roundHalfEven_nonneg _ (div_nonneg h (le_of_lt (JS.ulpExp_pos q)))
  have h2 : (0 : ℚ) ≤ (roundHalfEven (q / 2 ^ ulpExp q) : ℚ) := by exact_mod_cast h1
  exact mul_nonneg h2 (le_of_lt (JS.ulpExp_pos q))

/-- Rounding to a double moves a number by at most half a unit in the last place. -/
theorem JS.roundDouble_error (q : ℚ) : |roundDouble q - q| ≤ 2 ^ ulpExp q / 2 := by
  have hp := JS.ulpExp_pos q
  have h := JS.roundHalfEven_error (q / 2 ^ ulpExp q)
  have e : roundDouble q - q = ((roundHalfEven (q / 2 ^ ulpExp q) : ℚ) - q / 2 ^ ulpExp q) *
      2 ^ ulpExp q := by
    unfold roundDouble
    field_simp
  rw [e, abs_mul, abs_of_pos hp]
  calc |((roundHalfEven (q / 2 ^ ulpExp q) : ℚ) - q / 2 ^ ulpExp q)| * 2 ^ ulpExp q
      ≤ 1 / 2 * 2 ^ ulpExp q := mul_le_mul_of_nonneg_right h (le_of_lt hp)
    _ = 2 ^ ulpExp q / 2 := by ring

/-- A number strictly within one half of an integer rounds to it. -/
theorem JS.roundHalfEven_nearest (n : ℤ) (x : ℚ) (h1 : (n : ℚ) - 1 / 2 < x)
    (h2 : x < (n : ℚ) + 1 / 2) : roundHalfEven x = n := by
  have f1 := Int.floor_le x
  have f2 := Int.lt_floor_add_one x
  have hf : ⌊x⌋ = n ∨ ⌊x⌋ = n - 1 := by
    have a : n - 1 ≤ ⌊x⌋ := by
      rw [Int.le_floor]; push_cast; linarith
    have b : ⌊x⌋ < n + 1 := by
      rw [Int.floor_lt]; push_cast; linarith
    omega
  unfold roundHalfEven
  rcases hf with hf | hf
  · rw [hf]
    split_ifs with a b <;> first | rfl | (exfalso; linarith)
  · rw [hf]
    split_ifs with a b <;> first | omega | (exfalso; push_cast at *; linarith)

/-- The unit in the last place of a normal number between two consecutive powers of two. -/
theorem JS.ulpExp_of_bounds (k : ℤ) (q : ℚ) (hk : -1022 ≤ k) (h1 : (2 : ℚ) ^ k ≤ |q|)
    (h2 : |q| < (2 : ℚ) ^ (k + 1)) : ulpExp q = k - 52 := by
  unfold ulpExp
  rw [JS.log_of_bounds k _ h1 h2]
  omega

/-- The unit in the last place of a number below a power of two. -/
theorem JS.ulpExp_le (k : ℤ) (q : ℚ) (hk : 0 ≤ k) (h2 : |q| < (2 : ℚ) ^ (k + 1)) :
    ulpExp q ≤ k - 52 := by
  unfold ulpExp
  have := JS.log_le_of_lt k _ hk h2
  omega

/-- The double nearest to a normal number, from its binade and its nearest significand. -/
theorem JS.roundDouble_eval (q : ℚ) (k n : ℤ) (hk : -1022 ≤ k) (h1 : (2 : ℚ) ^ k ≤ |q|)
    (h2 : |q| < (2 : ℚ) ^ (k + 1)) (h3 : (n : ℚ) - 1 / 2 < q / 2 ^ (k - 52))
    (h4 : q / 2 ^ (k - 52) < (n : ℚ) + 1 / 2) : roundDouble q = n * 2 ^ (k - 52) := by
  unfold roundDouble
  rw [JS.ulpExp_of_bounds k q hk h1 h2, JS.roundHalfEven_nearest n _ h3 h4]

/-- A number with a significand of at most 53 bits and an exponent in range is a double: it
rounds to itself. -/
theorem JS.roundDouble_of_significand (m e : ℤ) (hm : |m| < 2 ^ 53) (he : -1074 ≤ e) :
    roundDouble (m * 2 ^ e) = m * 2 ^ e := by
  by_cases h0 : m = 0
  · subst h0
    simp [roundDouble, roundHalfEven]
  have hu : ulpExp ((m : ℚ) * 2 ^ e) ≤ e := by
    unfold ulpExp
    have hpos : (0 : ℚ) < |(m : ℚ) * 2 ^ e| := by
      rw [abs_pos]
      have : (m : ℚ) ≠ 0 := by exact_mod_cast h0
      positivity
    have hlt : |(m : ℚ) * 2 ^ e| < (2 : ℚ) ^ (53 + e) := by
      rw [abs_mul, abs_of_pos (by positivity : (0 : ℚ) < 2 ^ e), zpow_add₀ (by norm_num)]
      have : |(m : ℚ)| < 2 ^ (53 : ℤ) := by
        rw [show ((2 : ℚ) ^ (53 : ℤ)) = ((2 ^ 53 : ℤ) : ℚ) by norm_num, ← Int.cast_abs]
        exact_mod_cast hm
      exact mul_lt_mul_of_pos_right this (by positivity)
    have hl : Int.log 2 |(m : ℚ) * 2 ^ e| < 53 + e := by
      rw [← Int.lt_zpow_iff_log_lt (by norm_num) hpos]
      exact_mod_cast hlt
    omega
  obtain ⟨n, hn⟩ := Int.eq_ofNat_of_zero_le (sub_nonneg.2 hu)
  have he2 : e = ulpExp ((m : ℚ) * 2 ^ e) + n := by omega
  have hp := JS.ulpExp_pos ((m : ℚ) * 2 ^ e)
  have hq : (m : ℚ) * 2 ^ e / 2 ^ ulpExp ((m : ℚ) * 2 ^ e) = ((m * 2 ^ n : ℤ) : ℚ) := by
    rw [div_eq_iff (ne_of_gt hp)]
    nth_rewrite 1 [he2]
    rw [zpow_add₀ (by norm_num), zpow_natCast]
    push_cast
    ring
  unfold roundDouble
  rw [hq, JS.roundHalfEven_intCast, ← hq]
  field_simp

/-- For `0 ≤ s ≤ 100` the rounded difference `100 - s` is within `2^-47` of the exact one, and
adding it to `s` in double arithmetic gives 100. -/
theorem JS.roundDouble_sum_hundred (s : ℚ) (h0 : 0 ≤ s) (h100 : s ≤ 100) :
    |s + roundDouble (100 - s) - 100| ≤ 2 ^ (-47 : ℤ) ∧
      roundDouble (s + roundDouble (100 - s)) = 100 := by
  have hb : |100 - s| < (2 : ℚ) ^ ((6 : ℤ) + 1) := by
    rw [abs_of_nonneg (by linarith)]
    norm_num
    linarith
  have hu := JS.ulpExp_le 6 (100 - s) (by norm_num) hb
  have herr := JS.roundDouble_error (100 - s)
  have hpow : (2 : ℚ) ^ ulpExp (100 - s) ≤ 2 ^ (-46 : ℤ) :=
    zpow_le_zpow_right₀ (by norm_num) (by omega)
  have hclose : |s + roundDouble (100 - s) - 100| ≤ 2 ^ (-47 : ℤ) := by
    have e : s + roundDouble (100 - s) - 100 = roundDouble (100 - s) - (100 - s) := by ring
    rw [e]
    calc |roundDouble (100 - s) - (100 - s)| ≤ 2 ^ ulpExp (100 - s) / 2 := herr
      _ ≤ 2 ^ (-46 : ℤ) / 2 := (div_le_div_iff_of_pos_right (by norm_num)).2 hpow
      _ = 2 ^ (-47 : ℤ) := by norm_num
  refine ⟨hclose, ?_⟩
  have hc := abs_le.1 hclose
  have h47 : (2 : ℚ) ^ (-47 : ℤ) = 1 / 140737488355328 := by norm_num
  rw [h47] at hc
  have hx1 : (2 : ℚ) ^ (6 : ℤ) ≤ |s + roundDouble (100 - s)| := by
    rw [abs_of_nonneg (by linarith)]
    norm_num
    linarith
  have hx2 : |s + roundDouble (100 - s)| < (2 : ℚ) ^ ((6 : ℤ) + 1) := by
    rw [abs_of_nonneg (by linarith)]
    norm_num
    linarith
  generalize s + roundDouble (100 - s) = x at hc hx1 hx2
  unfold roundDouble
  rw [JS.ulpExp_of_bounds 6 _ (by norm_num) hx1 hx2,
    JS.roundHalfEven_near_even 7036874417766400 (by norm_num)]
  · norm_num
  · rw [abs_le]
    norm_num
    constructor <;> linarith

/-- The double of the literal `0.1`. -/
theorem JS.roundDouble_tenth :
    roundDouble (1 / 10) = 3602879701896397 / 36028797018963968 := by
  rw [JS.roundDouble_eval (1 / 10) (-4) 7205759403792794 (by norm_num)
    (by rw [abs_of_pos (by norm_num)]; norm_num) (by rw [abs_of_pos (by norm_num)]; norm_num)
    (by norm_num) (by norm_num)]
  norm_num

/-- The double `100 - 0.1`. -/
theorem JS.roundDouble_hundred_sub_tenth :
    roundDouble (100 - 3602879701896397 / 36028797018963968) =
      7029837543348634 / 70368744177664 := by
  rw [JS.roundDouble_eval _ 6 7029837543348634 (by norm_num)
    (by rw [abs_of_pos (by norm_num)]; norm_num) (by rw [abs_of_pos (by norm_num)]; norm_num)
    (by norm_num) (by norm_num)]
  norm_num

/-- The double `100 - 1e17`. -/
theorem JS.roundDouble_hundred_sub_1e17 :
    roundDouble (100 - 100000000000000000) = -99999999999999904 := by
  rw [JS.roundDouble_eval _ 56 (-6249999999999994) (by norm_num)
    (by rw [abs_of_neg (by norm_num)]; norm_num) (by rw [abs_of_neg (by norm_num)]; norm_num)
    (by norm_num) (by norm_num)]
  norm_num

/-- The double `100 - 72`. -/
theorem JS.roundDouble_28 : roundDouble (100 - 72) = 28 := by
  have := JS.roundDouble_of_significand 28 0 (by norm_num) (by norm_num)
  norm_num at this ⊢
  exact this

/-- The number `1e17` is a double. -/
theorem JS.roundDouble_1e17 : roundDouble 100000000000000000 = 100000000000000000 := by
  have := JS.roundDouble_of_significand 762939453125 17 (by norm_num) (by norm_num)
  norm_num at this ⊢
  exact this

/-- The double sum `1e17 + (100 - 1e17)`. -/
theorem JS.roundDouble_96 : roundDouble (100000000000000000 + -99999999999999904) = 96 := by
  have := JS.roundDouble_of_significand 96 0 (by norm_num) (by norm_num)
  norm_num at this ⊢
  exact this

/-- C14 (counterexample): for the score `1e17`, which is a double, the dataset of `index.js` is
`[1e17, -99999999999999904]`: the second segment is the double nearest to `100 - 1e17`, and the
two segments sum to 96, exactly and in double arithmetic.  For the score `0.1` (the double
nearest to one tenth), which lies between 0 and 100, the dataset is `[0.1, 99.9]` with the double
nearest to `100 - 0.1`, and the two segments sum to `100 + 205 / 2^55`, not to 100. -/
theorem C14_segments_do_not_sum_to_100 :
    roundDouble 100000000000000000 = 100000000000000000 ∧
    Index.data (fun _ => none) (JSVal.obj [("score", JSVal.num 100000000000000000)]) =
      (JSVal.num 100000000000000000, some (-99999999999999904)) ∧
    Index1.data (fun _ => none) (JSVal.obj [("score", JSVal.num 100000000000000000)]) =
      (JSVal.num 100000000000000000, some (-99999999999999904)) ∧
    (100000000000000000 + -99999999999999904 : ℚ) = 96 ∧
    roundDouble (100000000000000000 + -99999999999999904) = 96 ∧
    roundDouble (1 / 10) = 3602879701896397 / 36028797018963968 ∧
    Index.data (fun _ => none)
        (JSVal.obj [("score", JSVal.num (3602879701896397 / 36028797018963968))]) =
      (JSVal.num (3602879701896397 / 36028797018963968),
        some (7029837543348634 / 70368744177664)) ∧
    (3602879701896397 / 36028797018963968 + 7029837543348634 / 70368744177664 : ℚ) =
      100 + 205 / 36028797018963968 := by
  have e1 : Index.score (JSVal.obj [("score", JSVal.num 100000000000000000)]) =
      JSVal.num 100000000000000000 := by
    simp [Index.score, JSVal.get, lookup, JS.or_zero_num]
  have e2 : Index1.score (JSVal.obj [("score", JSVal.num 100000000000000000)]) =
      JSVal.num 100000000000000000 := by
    simp [Index1.score, JSVal.get, lookup, JS.or_zero_num]
  have e3 : Index.score
      (JSVal.obj [("score", JSVal.num (3602879701896397 / 36028797018963968))]) =
      JSVal.num (3602879701896397 / 36028797018963968) := by
    simp [Index.score, JSVal.get, lookup, JS.or_zero_num]
  refine ⟨JS.roundDouble_1e17, ?_, ?_, by norm_num, JS.roundDouble_96, JS.roundDouble_tenth, ?_,
    by norm_num⟩
  · simp only [Index.data, Index.remaining, JSVal.rsub, e1, JSVal.toNumber, Option.map_some']
    rw [JS.roundDouble_hundred_sub_1e17]
  · simp only [Index1.data, Index1.remaining, JSVal.rsub, e2, JSVal.toNumber, Option.map_some']
    rw [JS.roundDouble_hundred_sub_1e17]
  · simp only [Index.data, Index.remaining, JSVal.rsub, e3, JSVal.toNumber, Option.map_some']
    rw [JS.roundDouble_hundred_sub_tenth]

/-- C14 (amended): for a success result whose score is the number `s`, or is absent (then
`s = 0`), the doughnut dataset of `index.js` and of `index_1.js` is exactly the pair `[s, r]`
with `r` the double nearest to `100 - s`.  Whenever `0 ≤ s ≤ 100` both segments are non-negative,
`s + r` differs from 100 by at most `2^-47`, and the double sum of the two is 100.  The sum
`s + r` is exactly 100 whenever `100 - s` is itself a double, as it is for every multiple `s` of
`2^-47` with `36 < s ≤ 100` (every double in that range is one) and for every integer `s` from
0 to 100.  The first segment takes the colour the ladder gives to `s` and the second the fixed
fill `rgba(255, 255, 255, 0.2)`; for score 72 with label `good` the segments are `[72, 28]` in
the colour of the good band (`#43A047` in `index.js`, `#8BC34A` in `index_1.js`). -/
theorem C14_gauge_segments (conv : JSVal → Option ℚ) (result : JSVal) (s : ℚ)
    (h : result.get "score" = JSVal.num s ∨ (result.get "score" = JSVal.undefined ∧ s = 0)) :
    Index.data conv result = (JSVal.num s, some (roundDouble (100 - s))) ∧
    Index1.data conv result = (JSVal.num s, some (roundDouble (100 - s))) ∧
    (0 ≤ s → s ≤ 100 →
      0 ≤ s ∧ 0 ≤ roundDouble (100 - s) ∧
        |s + roundDouble (100 - s) - 100| ≤ 2 ^ (-47 : ℤ) ∧
        roundDouble (s + roundDouble (100 - s)) = 100) ∧
    (∀ m e : ℤ, 100 - s = m * 2 ^ e → |m| < 2 ^ 53 → -1074 ≤ e →
      roundDouble (100 - s) = 100 - s ∧ s + roundDouble (100 - s) = 100) ∧
    (∀ m : ℤ, s = m * 2 ^ (-47 : ℤ) → 36 < s → s ≤ 100 →
      roundDouble (100 - s) = 100 - s ∧ s + roundDouble (100 - s) = 100) ∧
    (∀ n : ℤ, s = n → 0 ≤ n → n ≤ 100 →
      roundDouble (100 - s) = 100 - s ∧ s + roundDouble (100 - s) = 100) ∧
    Index.backgroundColor conv result =
      [Index.color conv (JSVal.num s), "rgba(255, 255, 255, 0.2)"] ∧
    Index1.backgroundColor conv result =
      [Index1.color conv (JSVal.num s), "rgba(255, 255, 255, 0.2)"] ∧
    Index.data conv (JSVal.obj [("score", JSVal.num 72), ("label", JSVal.str "good")]) =
      (JSVal.num 72, some 28) ∧
    Index1.data conv (JSVal.obj [("score", JSVal.num 72), ("label", JSVal.str "good")]) =
      (JSVal.num 72, some 28) ∧
    Index.backgroundColor conv (JSVal.obj [("score", JSVal.num 72), ("label", JSVal.str "good")]) =
      ["#43A047", "rgba(255, 255, 255, 0.2)"] ∧
    Index1.backgroundColor conv
        (JSVal.obj [("score", JSVal.num 72), ("label", JSVal.str "good")]) =
      ["#8BC34A", "rgba(255, 255, 255, 0.2)"] := by
  have h1 : Index1.score result = JSVal.num s := by
    rcases h with h | ⟨h, hs⟩
    · rw [Index1.score, h, JS.or_zero_num]
    · rw [Index1.score, h, JS.or_zero_undefined, hs]
  have h2 : Index.score result = JSVal.num s := by
    rcases h with h | ⟨h, hs⟩
    · rw [Index.score, h, JS.or_zero_num]
    · rw [Index.score, h, JS.or_zero_undefined, hs]
  have e1 : Index1.score (JSVal.obj [("score", JSVal.num 72), ("label", JSVal.str "good")]) =
      JSVal.num 72 := by
    simp [Index1.score, JSVal.get, lookup, JS.or_zero_num]
  have e2 : Index.score (JSVal.obj [("score", JSVal.num 72), ("label", JSVal.str "good")]) =
      JSVal.num 72 := by
    simp [Index.score, JSVal.get, lookup, JS.or_zero_num]
  have hrep : ∀ m e : ℤ, 100 - s = m * 2 ^ e → |m| < 2 ^ 53 → -1074 ≤ e →
      roundDouble (100 - s) = 100 - s ∧ s + roundDouble (100 - s) = 100 := by
    intro m e hme hm he
    have hr := JS.roundDouble_of_significand m e hm he
    rw [← hme] at hr
    exact ⟨hr, by rw [hr]; ring⟩
  refine ⟨?_, ?_, ?_, hrep, ?_, ?_, ?_, ?_, ?_, ?_, ?_, ?_⟩
  · simp only [Index.data, Index.remaining, JSVal.rsub, h2, JSVal.toNumber, Option.map_some']
  · simp only [Index1.data, Index1.remaining, JSVal.rsub, h1, JSVal.toNumber, Option.map_some']
  · intro h0 h100
    have hsum := JS.roundDouble_sum_hundred s h0 h100
    exact ⟨h0, JS.roundDouble_nonneg _ (by linarith), hsum.1, hsum.2⟩
  · intro m hs h36 h100
    have hp : (2 : ℚ) ^ (-47 : ℤ) = 1 / 140737488355328 := by norm_num
    rw [hp] at hs
    have hm1 : ((36 * 140737488355328 : ℤ) : ℚ) < (m : ℚ) := by
      push_cast
      rw [hs] at h36
      linarith
    have hm2 : (m : ℚ) ≤ ((100 * 140737488355328 : ℤ) : ℚ) := by
      push_cast
      rw [hs] at h100
      linarith
    have hm3 : 36 * 140737488355328 < m := by exact_mod_cast hm1
    have hm4 : m ≤ 100 * 140737488355328 := by exact_mod_cast hm2
    apply hrep (100 * 140737488355328 - m) (-47)
    · rw [hp, hs]
      push_cast
      ring
    · rw [abs_lt]
      constructor <;> omega
    · norm_num
  · intro n hs h0 h100
    apply hrep (100 - n) 0
    · rw [hs]
      push_cast
      ring
    · rw [abs_lt]
      constructor <;> omega
    · norm_num
  · simp [Index.backgroundColor, h2]
  · simp [Index1.backgroundColor, h1]
  · simp only [Index.data, Index.remaining, JSVal.rsub, e2, JSVal.toNumber, Option.map_some']
    rw [JS.roundDouble_28]
  · simp only [Index1.data, Index1.remaining, JSVal.rsub, e1, JSVal.toNumber, Option.map_some']
    rw [JS.roundDouble_28]
  · simp [Index.backgroundColor, e2, Index.color_four_num]
    norm_num
  · simp [Index1.backgroundColor, e1, Index1.color_five_num]
    norm_num

theorem C14_gauge_segments_witness :
    ((JSVal.obj [("score", JSVal.num 35)]).get "score" = JSVal.num 35 ∨
      ((JSVal.obj [("score", JSVal.num 35)]).get "score" = JSVal.undefined ∧ (35 : ℚ) = 0)) ∧
    Index.data (fun _ => none) (JSVal.obj [("score", JSVal.num 35)]) =
      (JSVal.num 35, some (roundDouble (100 - 35))) ∧
    (35 : ℚ) + roundDouble (100 - 35) = 100 :=
  ⟨Or.inl rfl,
    (C14_gauge_segments (fun _ => none) (JSVal.obj [("score", JSVal.num 35)]) 35
      (Or.inl rfl)).1,
    ((C14_gauge_segments (fun _ => none) (JSVal.obj [("score", JSVal.num 35)]) 35
      (Or.inl rfl)).2.2.2.2.2.1 35 (by norm_num) (by norm_num) (by norm_num)).2⟩

/-! ### C15, C16: the reveal timer -/

/-- C15 (counterexample): in `index.js` a prediction settles and schedules its reveal timer; a
second `getPrediction` starts while that timer is pending.  The timer is still pending after the
start (nothing cancelled it), and when it fires `showResult` becomes `true` while the view is
loading the newer request. -/
theorem C15_stale_reveal_not_cancelled :
    (Index.run "http://localhost:8000" Page.init
        [Page.Event.click "morning",
          Page.Event.settle 0 (Fetched.response 200 (Except.ok (JSVal.obj [("score", JSVal.num 72)]))),
          Page.Event.click "evening"]).map (fun v => (v.timers, v.loading, v.showResult)) =
      some ([100], true, false) ∧
    (Index.run "http://localhost:8000" Page.init
        [Page.Event.click "morning",
          Page.Event.settle 0 (Fetched.response 200 (Except.ok (JSVal.obj [("score", JSVal.num 72)]))),
          Page.Event.click "evening",
          Page.Event.timeout 0]).map (fun v => (v.timers, v.loading, v.showResult)) =
      some ([], true, true) :=
  ⟨rfl, rfl⟩

/-- C15 (amended): when `getPrediction` of `index.js` starts a new fetch, every reveal timer
that is pending stays pending (`getPrediction` cancels nothing); each of them can still fire,
and when it does it sets `showResult` to `true` although the newer request has reset the view
to loading with `result` null. -/
theorem C15_reveal_timer_survives (base type : String) (v : Page.View) :
    (Index.getPredictionStart base type v).timers = v.timers ∧
    (Index.getPredictionStart base type v).loading = true ∧
    (Index.getPredictionStart base type v).showResult = false ∧
    (∀ i : Nat, i < v.timers.length →
      (Index.step base (Index.getPredictionStart base type v) (Page.Event.timeout i)).map
          (fun w => (w.showResult, w.loading, w.timers)) =
        some (true, true, v.timers.eraseIdx i) ∧
      ∀ w, Index.step base (Index.getPredictionStart base type v) (Page.Event.timeout i) = some w →
        w.result = JSVal.null) := by
  refine ⟨rfl, rfl, rfl, ?_⟩
  intro i hi
  have ht : (Index.getPredictionStart base type v).timers = v.timers := rfl
  constructor
  · simp [Index.step, Page.step, ht, hi, Page.setShowResult]
    rfl
  · intro w hw
    simp only [Index.step, Page.step, ht, hi, if_true, Option.some.injEq] at hw
    subst hw
    rfl

theorem C15_reveal_timer_survives_witness :
    (0 : Nat) < (Page.View.mk (JSVal.obj [("score", JSVal.num 72)]) false (JSVal.str "") false [100]
      []).timers.length ∧
    (Index.step "http://localhost:8000"
        (Index.getPredictionStart "http://localhost:8000" "evening"
          (Page.View.mk (JSVal.obj [("score", JSVal.num 72)]) false (JSVal.str "") false [100] []))
        (Page.Event.timeout 0)).map (fun w => (w.showResult, w.loading, w.timers)) =
      some (true, true,
        (Page.View.mk (JSVal.obj [("score", JSVal.num 72)]) false (JSVal.str "") false [100]
          []).timers.eraseIdx 0) :=
  ⟨by decide,
    ((C15_reveal_timer_survives "http://localhost:8000" "evening"
      (Page.View.mk (JSVal.obj [("score", JSVal.num 72)]) false (JSVal.str "") false [100] [])).2.2.2
      0 (by decide)).1⟩

/-- Every path of `getPrediction` of `index.js` stores a result, then schedules one timer of
100 ms, then clears `loading`. -/
theorem Index.resume_shape_index (f : Fetched) (v : Page.View) :
    Index.getPredictionResume f v =
      Page.setLoading false (Page.setTimeout 100
        (Page.setResult (Index.getPredictionResume f v).result v)) := by
  rcases f with m | ⟨status, m | data⟩
  · rfl
  · rfl
  · cases hok : ok status <;> cases data <;>
      simp [Index.getPredictionResume, Index.getPredictionTry, hok, JSVal.read, bind,
        Except.bind, pure, Except.pure, Page.setResult, Page.setTimeout, Page.setLoading]

/-- A first response that does not open the hourly request makes `getPrediction` of
`index _2_tempgraph.js` store a result, schedule one timer of 100 ms and clear `loading`. -/
theorem Tempgraph.resume_shape_settled (base type : String) (f : Fetched) (v : Tempgraph.View)
    (h : ¬ (type = "now" ∧ Tempgraph.primarySucceeded f = true)) :
    Tempgraph.getPredictionResume base type f v =
      Tempgraph.setLoading false (Tempgraph.setTimeout 100
        (Tempgraph.setResult (Tempgraph.getPredictionResume base type f v).result v)) := by
  rcases f with m | ⟨status, m | data⟩
  · rfl
  · rfl
  · by_cases hnow : type = "now" <;> cases hok : ok status <;> cases data <;>
      simp_all [Tempgraph.getPredictionResume, Tempgraph.getPredictionTry, JSVal.read, bind,
        Except.bind, pure, Except.pure, Tempgraph.setResult, Tempgraph.setTimeout,
        Tempgraph.setLoading, Tempgraph.primarySucceeded]

/-- A first response that opens the hourly request makes `getPrediction` of
`index _2_tempgraph.js` store the body and issue the hourly fetch, with no timer yet. -/
theorem Tempgraph.resume_shape_suspended (base : String) (status : Nat) (data : JSVal)
    (v : Tempgraph.View) (hok : ok status = true) :
    Tempgraph.getPredictionResume base "now" (Fetched.response status (Except.ok data)) v =
      Tempgraph.fetch ⟨base ++ "/predict/hourly/" ++ "now", "now", true⟩
        (Tempgraph.setResult data v) := by
  simp [Tempgraph.getPredictionResume, Tempgraph.getPredictionTry, hok, bind, Except.bind, pure,
    Except.pure]

/-- The run after the hourly fetch keeps the result, stores the hourly data or nothing,
schedules one timer of 100 ms and clears `loading`. -/
theorem Tempgraph.hourly_resume_shape (f : Fetched) (v : Tempgraph.View) :
    (Tempgraph.getPredictionHourlyResume f v =
        Tempgraph.setLoading false (Tempgraph.setTimeout 100 v) ∨
      ∃ h, Tempgraph.getPredictionHourlyResume f v =
        Tempgraph.setLoading false (Tempgraph.setTimeout 100 (Tempgraph.setHourlyData h v))) := by
  rcases f with m | ⟨status, m | data⟩
  · exact Or.inl rfl
  · exact Or.inl rfl
  · cases hok : ok status
    · left
      simp [Tempgraph.getPredictionHourlyResume, Tempgraph.hourlyTry, hok, bind, Except.bind,
        pure, Except.pure]
    · cases hread : data.read "hourly" with
      | error m =>
          left
          simp [Tempgraph.getPredictionHourlyResume, Tempgraph.hourlyTry, hok, bind,
            Except.bind, hread]
      | ok h =>
          right
          refine ⟨h, ?_⟩
          simp [Tempgraph.getPredictionHourlyResume, Tempgraph.hourlyTry, hok, bind,
            Except.bind, pure, Except.pure, hread]

/-- C16: every path of `getPrediction` stores the result and then schedules exactly one timer,
with delay 100 ms.  In `index.js` the run after the fetch is `setResult`, one `setTimeout` of
100 ms, `setLoading(false)`, on all paths.  In `index _2_tempgraph.js` the same holds unless
the call is suspended at the hourly fetch (no timer yet); the run after the hourly fetch then
schedules the one timer.  A timer that fires sets `showResult` to `true` and changes nothing
else. -/
theorem C16_one_reveal_per_result (base type : String) (f : Fetched) (v : Page.View)
    (w : Tempgraph.View) :
    Index.getPredictionResume f v =
      Page.setLoading false (Page.setTimeout 100
        (Page.setResult (Index.getPredictionResume f v).result v)) ∧
    (Index.getPredictionResume f v).timers = v.timers ++ [100] ∧
    (Tempgraph.getPredictionResume base type f w =
        Tempgraph.setLoading false (Tempgraph.setTimeout 100
          (Tempgraph.setResult (Tempgraph.getPredictionResume base type f w).result w)) ∨
      (type = "now" ∧ Tempgraph.primarySucceeded f = true ∧
        (Tempgraph.getPredictionResume base type f w).timers = w.timers ∧
        (Tempgraph.getPredictionResume base type f w).fetches =
          w.fetches ++ [⟨base ++ "/predict/hourly/" ++ type, type, true⟩])) ∧
    (Tempgraph.getPredictionHourlyResume f w).timers = w.timers ++ [100] ∧
    (Tempgraph.getPredictionHourlyResume f w).result = w.result ∧
    (∀ i : Nat, i < v.timers.length →
      Index.step base v (Page.Event.timeout i) =
        some { v with showResult := true, timers := v.timers.eraseIdx i }) ∧
    (∀ i : Nat, i < w.timers.length →
      Tempgraph.step base w (Tempgraph.Event.timeout i) =
        some { w with showResult := true, timers := w.timers.eraseIdx i }) := by
  have hi := Index.resume_shape_index f v
  refine ⟨hi, ?_, ?_, ?_, ?_, ?_, ?_⟩
  · rw [hi]
    rfl
  · by_cases h : type = "now" ∧ Tempgraph.primarySucceeded f = true
    · right
      obtain ⟨hnow, hp⟩ := h
      rcases f with m | ⟨status, m | data⟩
      · simp [Tempgraph.primarySucceeded] at hp
      · simp [Tempgraph.primarySucceeded] at hp
      · simp only [Tempgraph.primarySucceeded] at hp
        subst hnow
        rw [Tempgraph.resume_shape_suspended base status data w hp]
        exact ⟨rfl, by simp [Tempgraph.primarySucceeded, hp], rfl, rfl⟩
    · left
      exact Tempgraph.resume_shape_settled base type f w h
  · rcases Tempgraph.hourly_resume_shape f w with h | ⟨d, h⟩ <;> rw [h] <;> rfl
  · rcases Tempgraph.hourly_resume_shape f w with h | ⟨d, h⟩ <;> rw [h] <;> rfl
  · intro i hlt
    simp [Index.step, Page.step, hlt, Page.setShowResult]
  · intro i hlt
    simp [Tempgraph.step, hlt, Tempgraph.setShowResult]

theorem C16_one_reveal_per_result_witness :
    (0 : Nat) < (Page.View.mk (JSVal.obj [("score", JSVal.num 72)]) false (JSVal.str "") false [100]
      []).timers.length ∧
    Index.step "http://localhost:8000"
        (Page.View.mk (JSVal.obj [("score", JSVal.num 72)]) false (JSVal.str "") false [100] [])
        (Page.Event.timeout 0) =
      some (Page.View.mk (JSVal.obj [("score", JSVal.num 72)]) false (JSVal.str "") true [] []) :=
  ⟨by decide,
    (C16_one_reveal_per_result "http://localhost:8000" "morning" (Fetched.rejected "x")
      (Page.View.mk (JSVal.obj [("score", JSVal.num 72)]) false (JSVal.str "") false [100] [])
      Tempgraph.init).2.2.2.2.2.1 0 (by decide)⟩

/-! ### C18, C19: the requests of `index _2_tempgraph.js` -/

/-- C18: one call `getPrediction(k)` of `index _2_tempgraph.js` issues, at its start, exactly one
request, to `base/predict/k`; when the first response arrives it issues exactly one more, to
`base/predict/hourly/k`, if `k` is `now` and the response was 2xx with a parseable body, and
none otherwise; when the hourly response arrives it issues none.  So no request is repeated
after a failure. -/
theorem C18_request_count (base k : String) (f : Fetched) (v : Tempgraph.View) :
    (Tempgraph.getPredictionStart base k v).fetches =
      v.fetches ++ [⟨base ++ "/predict/" ++ k, k, false⟩] ∧
    ((k = "now" ∧ Tempgraph.primarySucceeded f = true) →
      (Tempgraph.getPredictionResume base k f v).fetches =
        v.fetches ++ [⟨base ++ "/predict/hourly/" ++ k, k, true⟩]) ∧
    (¬ (k = "now" ∧ Tempgraph.primarySucceeded f = true) →
      (Tempgraph.getPredictionResume base k f v).fetches = v.fetches) ∧
    (Tempgraph.getPredictionHourlyResume f v).fetches = v.fetches := by
  refine ⟨rfl, ?_, ?_, ?_⟩
  · rintro ⟨hnow, hp⟩
    rcases f with m | ⟨status, m | data⟩
    · simp [Tempgraph.primarySucceeded] at hp
    · simp [Tempgraph.primarySucceeded] at hp
    · simp only [Tempgraph.primarySucceeded] at hp
      subst hnow
      rw [Tempgraph.resume_shape_suspended base status data v hp]
      rfl
  · intro h
    rw [Tempgraph.resume_shape_settled base k f v h]
    rfl
  · rcases Tempgraph.hourly_resume_shape f v with h | ⟨d, h⟩ <;> rw [h] <;> rfl

theorem C18_request_count_witness :
    ("now" = "now" ∧
      Tempgraph.primarySucceeded
        (Fetched.response 200 (Except.ok (JSVal.obj [("score", JSVal.num 72)]))) = true) ∧
    (Tempgraph.getPredictionResume "http://localhost:8000" "now"
        (Fetched.response 200 (Except.ok (JSVal.obj [("score", JSVal.num 72)])))
        Tempgraph.init).fetches =
      Tempgraph.init.fetches ++ [⟨"http://localhost:8000" ++ "/predict/hourly/" ++ "now", "now", true⟩] ∧
    ¬ ("evening" = "now" ∧
      Tempgraph.primarySucceeded
        (Fetched.response 200 (Except.ok (JSVal.obj [("score", JSVal.num 72)]))) = true) ∧
    (Tempgraph.getPredictionResume "http://localhost:8000" "evening"
        (Fetched.response 200 (Except.ok (JSVal.obj [("score", JSVal.num 72)])))
        Tempgraph.init).fetches = Tempgraph.init.fetches :=
  ⟨⟨rfl, rfl⟩,
    (C18_request_count "http://localhost:8000" "now"
      (Fetched.response 200 (Except.ok (JSVal.obj [("score", JSVal.num 72)])))
      Tempgraph.init).2.1 ⟨rfl, rfl⟩,
    by decide,
    (C18_request_count "http://localhost:8000" "evening"
      (Fetched.response 200 (Except.ok (JSVal.obj [("score", JSVal.num 72)])))
      Tempgraph.init).2.2.1 (by decide)⟩

/-- Erasing the last position of a list extended by one element gives the list back. -/
theorem JS.eraseIdx_length_concat {α : Type} (l : List α) (a : α) :
    (l ++ [a]).eraseIdx l.length = l := by
  induction l with
  | nil => rfl
  | cons x xs ih => simp [List.eraseIdx, ih]

/-- C19: in `index _2_tempgraph.js`, a call `getPrediction('now')` whose first response is 2xx
with body `b` and whose hourly fetch fails (it throws, its body does not parse, or its status
is not 2xx) completes with `result` still `b`, `hourlyData` null, one reveal timer of 100 ms
scheduled and `loading` false. -/
theorem C19_hourly_failure_non_fatal (base : String) (v : Tempgraph.View) (status : Nat)
    (b : JSVal) (h : Fetched) (hok : ok status = true) (hfail : Tempgraph.hourlyFailed h = true) :
    ∃ w, Tempgraph.run base v
        [Tempgraph.Event.click "now",
          Tempgraph.Event.settle v.fetches.length (Fetched.response status (Except.ok b)),
          Tempgraph.Event.settle v.fetches.length h] = some w ∧
      w.result = b ∧ w.hourlyData = JSVal.null ∧ w.timers = v.timers ++ [100] ∧
      w.loading = false ∧ w.fetches = v.fetches := by
  have hh : Tempgraph.getPredictionHourlyResume h
      ⟨b, JSVal.null, true, v.welcomeMessage, false, v.timers, v.fetches⟩ =
      ⟨b, JSVal.null, false, v.welcomeMessage, false, v.timers ++ [100], v.fetches⟩ := by
    rcases h with m | ⟨s, m | d⟩
    · rfl
    · rfl
    · simp only [Tempgraph.hourlyFailed, Bool.not_eq_true'] at hfail
      simp [Tempgraph.getPredictionHourlyResume, Tempgraph.hourlyTry, hfail, bind, Except.bind,
        pure, Except.pure, Tempgraph.setLoading, Tempgraph.setTimeout]
  refine ⟨⟨b, JSVal.null, false, v.welcomeMessage, false, v.timers ++ [100], v.fetches⟩,
    ?_, rfl, rfl, rfl, rfl, rfl⟩
  simp [Tempgraph.run, Tempgraph.step, Tempgraph.getPredictionStart, Tempgraph.fetch,
    Tempgraph.setShowResult, Tempgraph.setHourlyData, Tempgraph.setResult, Tempgraph.setLoading,
    JS.eraseIdx_length_concat, Tempgraph.resume_shape_suspended, hok, hh]

theorem C19_hourly_failure_non_fatal_witness :
    ok 200 = true ∧ Tempgraph.hourlyFailed (Fetched.response 500 (Except.ok (JSVal.obj []))) = true ∧
    ∃ w, Tempgraph.run "http://localhost:8000" Tempgraph.init
        [Tempgraph.Event.click "now",
          Tempgraph.Event.settle Tempgraph.init.fetches.length
            (Fetched.response 200 (Except.ok (JSVal.obj [("score", JSVal.num 72)]))),
          Tempgraph.Event.settle Tempgraph.init.fetches.length
            (Fetched.response 500 (Except.ok (JSVal.obj [])))] = some w ∧
      w.result = JSVal.obj [("score", JSVal.num 72)] ∧ w.hourlyData = JSVal.null ∧
      w.timers = Tempgraph.init.timers ++ [100] ∧ w.loading = false ∧
      w.fetches = Tempgraph.init.fetches :=
  ⟨rfl, rfl,
    C19_hourly_failure_non_fatal "http://localhost:8000" Tempgraph.init 200
      (JSVal.obj [("score", JSVal.num 72)]) (Fetched.response 500 (Except.ok (JSVal.obj [])))
      rfl rfl⟩

/-! ### C20: the guard of the line chart effect -/

/-- The guard lets the effect through exactly when the canvas is attached, `hourlyData` and
its `length` are truthy, and the prediction type is `now`. -/
theorem Line.lineReturns_false_iff (canvas : Bool) (hourlyData result : JSVal) :
    Line.lineReturns canvas hourlyData result = false ↔
      canvas = true ∧ hourlyData.truthy = true ∧ hourlyData.length.truthy = true ∧
        (result.get "prediction_type").isStr "now" = true := by
  simp [Line.lineReturns, and_assoc]

/-- An array is truthy, and its `length` is truthy exactly when it has an item. -/
theorem JS.arr_length_truthy (items : List JSVal) :
    (JSVal.arr items).truthy = true ∧
      ((JSVal.arr items).length.truthy = true ↔ items ≠ []) := by
  refine ⟨rfl, ?_⟩
  cases items <;> simp [JSVal.length, JSVal.truthy]
  exact Nat.cast_add_one_ne_zero _

/-- C20 (counterexample): a `now` prediction with weather data arrives, and the hourly response
is `{hourly: "x"}`, which stores the string `x` in `hourlyData`.  `ResultDisplay` mounts the
line canvas (`"x".length > 0`), the guard of the line chart effect lets the run through, and a
timer of 200 ms is scheduled, although `hourlyData` is not an array. -/
theorem C20_timer_for_non_array :
    (Tempgraph.run "http://localhost:8000" Tempgraph.init
        [Tempgraph.Event.click "now",
          Tempgraph.Event.settle 0 (Fetched.response 200
            (Except.ok (JSVal.obj [("prediction_type", JSVal.str "now"),
              ("weather_data", JSVal.obj [("temperature", JSVal.num 3)])]))),
          Tempgraph.Event.settle 0 (Fetched.response 200
            (Except.ok (JSVal.obj [("hourly", JSVal.str "x")])))]).map
        (fun v => v.hourlyData) = some (JSVal.str "x") ∧
    (Tempgraph.run "http://localhost:8000" Tempgraph.init
        [Tempgraph.Event.click "now",
          Tempgraph.Event.settle 0 (Fetched.response 200
            (Except.ok (JSVal.obj [("prediction_type", JSVal.str "now"),
              ("weather_data", JSVal.obj [("temperature", JSVal.num 3)])]))),
          Tempgraph.Event.settle 0 (Fetched.response 200
            (Except.ok (JSVal.obj [("hourly", JSVal.str "x")])))]).map
        (fun v => (Tempgraph.lineCanvas (fun _ => none) v,
          Line.lineReturns (Tempgraph.lineCanvas (fun _ => none) v) v.hourlyData v.result,
          (Tempgraph.lineRender (Tempgraph.lineCanvas (fun _ => none) v)
            ⟨v, Gauge.init, false, Line.init⟩).line.timers.map (fun t => t.delay))) =
      some (true, false, [200]) := by
  refine ⟨rfl, ?_⟩
  simp [Tempgraph.run, Tempgraph.step, Tempgraph.init, Tempgraph.getPredictionStart,
    Tempgraph.getPredictionResume, Tempgraph.getPredictionTry, Tempgraph.getPredictionHourlyResume,
    Tempgraph.hourlyTry, Tempgraph.fetch, Tempgraph.setResult, Tempgraph.setHourlyData,
    Tempgraph.setLoading, Tempgraph.setShowResult, Tempgraph.setTimeout, ok, bind, Except.bind,
    pure, Except.pure, JSVal.read, JSVal.get, lookup, Tempgraph.lineCanvas,
    Tempgraph.weatherDetails, Tempgraph.showsResult, JSVal.truthy, JSVal.isStr, JSVal.length,
    JSVal.gt, JSVal.toNumber, Line.lineReturns, Tempgraph.lineRender, Line.effect,
    Line.runCleanup, Line.init]

/-- C20 (amended): in `index _2_tempgraph.js` a run of the line chart effect schedules rendering
only when the canvas is attached, `result.prediction_type` is `now` and `hourlyData` is truthy
with a truthy `length`: for an array, exactly when it is non-empty.  For an empty hourly array,
or null, the run returns early: it schedules no timer and constructs no chart.  A suspended
`loadLineChart` constructs a chart only with the canvas attached and from an array.  The run
does not touch the stored result, the hourly data or anything else of the view, nor the
gauge; for an empty hourly array or null the line canvas is not mounted, and whether the
weather details are mounted does not depend on the hourly data. -/
theorem C20_line_chart_guard (canvas : Bool) (hourlyData result : JSVal) (items : List JSVal)
    (s : Line.State) (a : Tempgraph.App) :
    (Line.lineReturns canvas hourlyData result = false ↔
      canvas = true ∧ hourlyData.truthy = true ∧ hourlyData.length.truthy = true ∧
        (result.get "prediction_type").isStr "now" = true) ∧
    (Line.lineReturns canvas (JSVal.arr items) result = false ↔
      canvas = true ∧ items ≠ [] ∧ (result.get "prediction_type").isStr "now" = true) ∧
    Line.lineReturns canvas (JSVal.arr []) result = true ∧
    Line.lineReturns canvas JSVal.null result = true ∧
    (Line.lineReturns canvas hourlyData result = true →
      Line.effect canvas hourlyData result s = { s with returned := none }) ∧
    (Line.lineReturns canvas hourlyData result = false →
      (Line.effect canvas hourlyData result s).timers =
        s.timers ++ [⟨s.nextTimer, 200, hourlyData⟩] ∧
      (Line.effect canvas hourlyData result s).chart = s.chart) ∧
    ((Line.loadLineChartResume canvas hourlyData s).chart.charts.length ≠ s.chart.charts.length →
      canvas = true ∧ hourlyData.mapsOver = true ∧ ∃ xs, hourlyData = JSVal.arr xs) ∧
    (Tempgraph.lineRender canvas a).view = a.view ∧
    (Tempgraph.lineRender canvas a).gauge = a.gauge ∧
    (∀ (conv : JSVal → Option ℚ) (v : Tempgraph.View),
      v.hourlyData = JSVal.arr [] ∨ v.hourlyData = JSVal.null →
        Tempgraph.lineCanvas conv v = false) ∧
    (∀ (h : JSVal) (v : Tempgraph.View),
      Tempgraph.weatherDetails (Tempgraph.setHourlyData h v) = Tempgraph.weatherDetails v ∧
      (Tempgraph.setHourlyData h v).result = v.result) := by
  have harr := JS.arr_length_truthy items
  refine ⟨Line.lineReturns_false_iff canvas hourlyData result, ?_, ?_, ?_, ?_, ?_, ?_, rfl, rfl,
    ?_, fun _ _ => ⟨rfl, rfl⟩⟩
  rotate_right
  · intro conv v hv
    rcases hv with hv | hv <;>
      simp [Tempgraph.lineCanvas, hv, JSVal.truthy, JSVal.length, JSVal.gt, JSVal.toNumber]
  · rw [Line.lineReturns_false_iff, harr.1, harr.2]
    simp
  · simp [Line.lineReturns, JSVal.length, JSVal.truthy]
  · simp [Line.lineReturns, JSVal.truthy]
  · intro h
    simp [Line.effect, h]
  · intro h
    simp [Line.effect, h]
  · intro h
    have hlen : ∀ g : Gauge.State, (Gauge.destroyCurrent g).charts.length = g.charts.length := by
      intro g
      have hd : ∀ (cs : List Gauge.Chart) (i : Nat),
          (Gauge.destroyAt i cs).length = cs.length := by
        intro cs
        induction cs with
        | nil => intro i; simp [Gauge.destroyAt]
        | cons c cs ih =>
            intro i
            cases i with
            | zero => simp [Gauge.destroyAt]
            | succ j => simp [Gauge.destroyAt, ih j]
      cases hci : g.chartInstance with
      | none => simp [Gauge.destroyCurrent, hci]
      | some i => simp [Gauge.destroyCurrent, hci, hd]
    cases canvas with
    | false => simp [Line.loadLineChartResume] at h
    | true =>
        cases hm : hourlyData.mapsOver with
        | false => simp [Line.loadLineChartResume, hm, hlen] at h
        | true =>
            refine ⟨rfl, rfl, ?_⟩
            cases hourlyData <;> simp [JSVal.mapsOver] at hm
            exact ⟨_, rfl⟩

theorem C20_line_chart_guard_witness :
    Line.lineReturns true (JSVal.arr []) (JSVal.obj [("prediction_type", JSVal.str "now")]) =
      true ∧
    Line.effect true (JSVal.arr []) (JSVal.obj [("prediction_type", JSVal.str "now")]) Line.init =
      { Line.init with returned := none } :=
  ⟨(C20_line_chart_guard true (JSVal.arr []) (JSVal.obj [("prediction_type", JSVal.str "now")])
      [] Line.init ⟨Tempgraph.init, Gauge.init, false, Line.init⟩).2.2.1,
    (C20_line_chart_guard true (JSVal.arr []) (JSVal.obj [("prediction_type", JSVal.str "now")])
      [] Line.init ⟨Tempgraph.init, Gauge.init, false, Line.init⟩).2.2.2.2.1
      ((C20_line_chart_guard true (JSVal.arr [])
        (JSVal.obj [("prediction_type", JSVal.str "now")])
        [] Line.init ⟨Tempgraph.init, Gauge.init, false, Line.init⟩).2.2.1)⟩

/-! ### C17: teardown -/

/-- After React has run the cleanup it holds, no timer of the line chart effect is pending, the
chart cell is owned with no live chart if a cleanup was held, and no cleanup is held. -/
theorem Line.runCleanup_owned (s : Line.State) (h : Line.Owned s) :
    (Line.runCleanup s).timers = [] ∧ Gauge.Owned (Line.runCleanup s).chart ∧
      (Line.runCleanup s).returned = none ∧
      (s.returned ≠ none → Line.liveCount (Line.runCleanup s) = 0) := by
  obtain ⟨hc, ht⟩ := h
  cases hr : s.returned with
  | none =>
      have hnil : s.timers = [] := by
        cases hts : s.timers with
        | nil => rfl
        | cons t ts =>
            have := ht t (by simp [hts])
            simp [hr] at this
      simp [Line.runCleanup, hr, hnil, hc]
  | some timer =>
      have hfil : s.timers.filter (fun t => t.id != timer) = [] := by
        rw [List.filter_eq_nil_iff]
        intro t hmem
        have := ht t hmem
        rw [hr] at this
        simp only [Option.some.injEq] at this
        simp [this]
      have hlive := Gauge.live_destroyCurrent s.chart hc
      refine ⟨?_, ?_, ?_, ?_⟩
      · simp [Line.runCleanup, hr, Line.cleanup, Line.clearTimeout, hfil]
      · simpa [Line.runCleanup, hr, Line.cleanup, Line.clearTimeout] using Or.inl hlive
      · simp [Line.runCleanup, hr]
      · intro _
        simpa [Line.runCleanup, hr, Line.cleanup, Line.clearTimeout, Line.liveCount] using hlive

/-- Every event of the line chart keeps its invariant. -/
theorem Line.step_owned_line (s t : Line.State) (e : Line.Event) (h : Line.Owned s)
    (hstep : Line.step s e = some t) : Line.Owned t := by
  cases e with
  | render canvas hourlyData result =>
      simp only [Line.step, Option.some.injEq] at hstep
      subst hstep
      obtain ⟨h1, h2, h3, _⟩ := Line.runCleanup_owned s h
      by_cases hg : Line.lineReturns canvas hourlyData result = true
      · simp [Line.Owned, Line.effect, hg, h1, h2]
      · simp [Line.Owned, Line.effect, hg, h1, h2]
  | timeout i =>
      simp only [Line.step] at hstep
      cases hti : s.timers[i]? with
      | none => simp [hti] at hstep
      | some tm =>
          simp only [hti, Option.some.injEq] at hstep
          subst hstep
          refine ⟨h.1, ?_⟩
          intro x hx
          exact h.2 x (List.mem_of_mem_eraseIdx hx)
  | loaded i canvas =>
      simp only [Line.step] at hstep
      cases hl : s.chart.loads[i]? with
      | none => simp [hl] at hstep
      | some hourlyData =>
          simp only [hl, Option.some.injEq] at hstep
          subst hstep
          have hc : Gauge.Owned { s.chart with loads := s.chart.loads.eraseIdx i } := h.1
          cases canvas with
          | false => exact ⟨hc, h.2⟩
          | true =>
              cases hm : hourlyData.mapsOver with
              | false =>
                  refine ⟨?_, ?_⟩
                  · have e : (Line.loadLineChartResume true hourlyData
                        { s with chart :=
                          { s.chart with loads := s.chart.loads.eraseIdx i } }).chart =
                        Gauge.destroyCurrent
                          { s.chart with loads := s.chart.loads.eraseIdx i } := by
                      simp [Line.loadLineChartResume, hm]
                    rw [e]
                    exact Or.inl (Gauge.live_destroyCurrent _ hc)
                  · intro x hx
                    have hx2 : x ∈ s.timers := by
                      simpa [Line.loadLineChartResume, hm] using hx
                    simpa [Line.loadLineChartResume, hm] using h.2 x hx2
              | true =>
                  refine ⟨?_, ?_⟩
                  · have e : (Line.loadLineChartResume true hourlyData
                        { s with chart :=
                          { s.chart with loads := s.chart.loads.eraseIdx i } }).chart =
                        Gauge.loadChartResume (fun _ => false) true hourlyData
                          { s.chart with loads := s.chart.loads.eraseIdx i } := by
                      simp [Line.loadLineChartResume, hm, Gauge.loadChartResume]
                    rw [e]
                    exact (Gauge.loadChartResume_live _ hourlyData _ hc rfl).2
                  · intro x hx
                    have hx2 : x ∈ s.timers := by
                      simpa [Line.loadLineChartResume, hm] using hx
                    simpa [Line.loadLineChartResume, hm] using h.2 x hx2

/-- Every state of the line chart reached from mount satisfies its invariant. -/
theorem Line.run_owned_line (es : List Line.Event) :
    ∀ s t : Line.State, Line.Owned s → Line.run s es = some t → Line.Owned t := by
  induction es with
  | nil =>
      intro s t h hrun
      simp only [Line.run, Option.some.injEq] at hrun
      subst hrun
      exact h
  | cons e es ih =>
      intro s t h hrun
      simp only [Line.run] at hrun
      cases hstep : Line.step s e with
      | none => simp [hstep] at hrun
      | some u =>
          rw [hstep] at hrun
          exact ih u t (Line.step_owned_line s u e h hstep) hrun

/-- With the canvas detached, resumed `loadChart` calls construct and destroy nothing. -/
theorem Gauge.run_detached (returns : Bool → JSVal → Bool) (throws : JSVal → Bool)
    (is : List Nat) :
    ∀ s t : Gauge.State,
      Gauge.run returns throws s (is.map (fun i => Gauge.Event.loaded i false)) = some t →
      t.charts = s.charts ∧ t.chartInstance = s.chartInstance := by
  induction is with
  | nil =>
      intro s t h
      simp only [List.map_nil, Gauge.run, Option.some.injEq] at h
      subst h
      exact ⟨rfl, rfl⟩
  | cons i is ih =>
      intro s t h
      simp only [List.map_cons, Gauge.run, Gauge.step] at h
      cases hl : s.loads[i]? with
      | none => simp [hl] at h
      | some result =>
          simp only [hl, Option.some_bind, Gauge.loadChartResume] at h
          have := ih _ t h
          simpa using this

/-- With the canvas detached, resumed `loadLineChart` calls construct and destroy nothing and
register no timer. -/
theorem Line.run_detached_line (is : List Nat) :
    ∀ s t : Line.State,
      Line.run s (is.map (fun i => Line.Event.loaded i false)) = some t →
      t.chart.charts = s.chart.charts ∧ t.timers = s.timers := by
  induction is with
  | nil =>
      intro s t h
      simp only [List.map_nil, Line.run, Option.some.injEq] at h
      subst h
      exact ⟨rfl, rfl⟩
  | cons i is ih =>
      intro s t h
      simp only [List.map_cons, Line.run, Line.step] at h
      cases hl : s.chart.loads[i]? with
      | none => simp [hl] at h
      | some hourlyData =>
          simp only [hl, Option.some_bind, Line.loadLineChartResume] at h
          have := ih _ t h
          simpa using this

/-- C17 (counterexample): in `index _2_tempgraph.js` a `morning` prediction settles and
schedules its reveal timer, the gauge canvas is mounted and the gauge chart is drawn; the view
is unmounted while the timer is pending.  The gauge chart is destroyed, but the reveal timer is
still pending after the unmount, and it fires. -/
theorem C17_reveal_timer_outlives_unmount :
    Tempgraph.run "http://localhost:8000" Tempgraph.init
        [Tempgraph.Event.click "morning",
          Tempgraph.Event.settle 0 (Fetched.response 200 (Except.ok Sample.morning))] =
      some Sample.morningView ∧
    Tempgraph.gaugeCanvas Sample.morningView = true ∧
    Gauge.run Tempgraph.gaugeReturns (Tempgraph.loadChartThrows id) Gauge.init
        [Gauge.Event.effect true Sample.morning, Gauge.Event.loaded 0 true] =
      some Sample.morningGauge ∧
    (Tempgraph.unmount ⟨Sample.morningView, Sample.morningGauge, true, Line.init⟩).view.timers =
      [100] ∧
    Gauge.liveCount
        (Tempgraph.unmount ⟨Sample.morningView, Sample.morningGauge, true, Line.init⟩).gauge =
      0 ∧
    (Tempgraph.step "http://localhost:8000"
        (Tempgraph.unmount ⟨Sample.morningView, Sample.morningGauge, true, Line.init⟩).view
        (Tempgraph.Event.timeout 0)).map (fun v => v.showResult) = some true :=
  ⟨rfl, rfl, rfl, rfl, rfl, rfl⟩

/-- C17 (amended): unmounting the view of `index _2_tempgraph.js` runs the cleanups React holds
for the two chart effects and nothing else.  The render-defer timer is cleared, so its callback
never runs; the line chart is destroyed whenever a render-defer timer was pending or the line
effect had returned its cleanup, and the gauge chart whenever the gauge effect had returned its
cleanup, leaving zero live charts; with the canvases detached no chart is constructed
afterwards.  The reveal timers are not cancelled: the view state is untouched and each pending
reveal timer still fires. -/
theorem C17_teardown (upper : String → String) (base : String) (es : List Gauge.Event)
    (ls : List Line.Event)
    (v : Tempgraph.View) (g : Gauge.State) (l : Line.State) (held : Bool)
    (hg : Gauge.run Tempgraph.gaugeReturns (Tempgraph.loadChartThrows upper) Gauge.init es =
      some g)
    (hl : Line.run Line.init ls = some l) :
    (Tempgraph.unmount ⟨v, g, held, l⟩).view = v ∧
    (Tempgraph.unmount ⟨v, g, held, l⟩).line.timers = [] ∧
    (∀ i : Nat, Line.step (Tempgraph.unmount ⟨v, g, held, l⟩).line (Line.Event.timeout i) = none) ∧
    (l.timers ≠ [] → Line.liveCount (Tempgraph.unmount ⟨v, g, held, l⟩).line = 0) ∧
    (l.returned ≠ none → Line.liveCount (Tempgraph.unmount ⟨v, g, held, l⟩).line = 0) ∧
    (held = true → Gauge.liveCount (Tempgraph.unmount ⟨v, g, held, l⟩).gauge = 0) ∧
    (∀ (is : List Nat) (t : Gauge.State),
      Gauge.run Tempgraph.gaugeReturns (Tempgraph.loadChartThrows upper)
          (Tempgraph.unmount ⟨v, g, held, l⟩).gauge
          (is.map (fun i => Gauge.Event.loaded i false)) = some t →
        t.charts = (Tempgraph.unmount ⟨v, g, held, l⟩).gauge.charts) ∧
    (∀ (is : List Nat) (t : Line.State),
      Line.run (Tempgraph.unmount ⟨v, g, held, l⟩).line
          (is.map (fun i => Line.Event.loaded i false)) = some t →
        t.chart.charts = (Tempgraph.unmount ⟨v, g, held, l⟩).line.chart.charts ∧ t.timers = []) ∧
    (∀ i : Nat, i < v.timers.length →
      (Tempgraph.step base (Tempgraph.unmount ⟨v, g, held, l⟩).view
        (Tempgraph.Event.timeout i)).map (fun w => w.showResult) = some true) := by
  have hgi : Gauge.Owned Gauge.init := Or.inl rfl
  have hli : Line.Owned Line.init := ⟨hgi, by intro t ht; simp [Line.init] at ht⟩
  have hgo : Gauge.Owned g := Gauge.run_owned _ _ es _ _ hgi hg
  have hlo : Line.Owned l := Line.run_owned_line ls _ _ hli hl
  obtain ⟨c1, _, _, c4⟩ := Line.runCleanup_owned l hlo
  have hline : (Tempgraph.unmount ⟨v, g, held, l⟩).line = Line.runCleanup l := rfl
  refine ⟨rfl, ?_, ?_, ?_, ?_, ?_, ?_, ?_, ?_⟩
  · rw [hline]
    exact c1
  · intro i
    rw [hline]
    simp [Line.step, c1]
  · intro hne
    rw [hline]
    apply c4
    intro hnone
    cases hts : l.timers with
    | nil => exact hne hts
    | cons t ts =>
        have := hlo.2 t (by simp [hts])
        simp [hnone] at this
  · intro hne
    rw [hline]
    exact c4 hne
  · intro hh
    subst hh
    exact Gauge.live_destroyCurrent g hgo
  · intro is t hrun
    exact (Gauge.run_detached _ _ is _ t hrun).1
  · intro is t hrun
    have := Line.run_detached_line is _ t hrun
    refine ⟨this.1, ?_⟩
    rw [this.2, hline]
    exact c1
  · intro i hi
    have hv : (Tempgraph.unmount ⟨v, g, held, l⟩).view = v := rfl
    rw [hv]
    simp [Tempgraph.step, hi, Tempgraph.setShowResult]

theorem C17_teardown_witness :
    Gauge.run Tempgraph.gaugeReturns (Tempgraph.loadChartThrows id) Gauge.init
        [Gauge.Event.effect true Sample.morning, Gauge.Event.loaded 0 true] =
      some Sample.morningGauge ∧
    Line.run Line.init
        [Line.Event.render true Sample.hourly
          (JSVal.obj [("prediction_type", JSVal.str "now")])] = some Sample.hourlyLine ∧
    Sample.hourlyLine.timers ≠ [] ∧
    (Tempgraph.unmount
      ⟨Sample.morningView, Sample.morningGauge, true, Sample.hourlyLine⟩).line.timers = [] ∧
    Line.liveCount
      (Tempgraph.unmount
        ⟨Sample.morningView, Sample.morningGauge, true, Sample.hourlyLine⟩).line = 0 ∧
    Gauge.liveCount
      (Tempgraph.unmount
        ⟨Sample.morningView, Sample.morningGauge, true, Sample.hourlyLine⟩).gauge = 0 :=
  ⟨rfl, rfl, by simp [Sample.hourlyLine],
    (C17_teardown id "http://localhost:8000"
      [Gauge.Event.effect true Sample.morning, Gauge.Event.loaded 0 true]
      [Line.Event.render true Sample.hourly (JSVal.obj [("prediction_type", JSVal.str "now")])]
      Sample.morningView Sample.morningGauge Sample.hourlyLine true rfl rfl).2.1,
    (C17_teardown id "http://localhost:8000"
      [Gauge.Event.effect true Sample.morning, Gauge.Event.loaded 0 true]
      [Line.Event.render true Sample.hourly (JSVal.obj [("prediction_type", JSVal.str "now")])]
      Sample.morningView Sample.morningGauge Sample.hourlyLine true rfl rfl).2.2.2.1
      (by simp [Sample.hourlyLine]),
    (C17_teardown id "http://localhost:8000"
      [Gauge.Event.effect true Sample.morning, Gauge.Event.loaded 0 true]
      [Line.Event.render true Sample.hourly (JSVal.obj [("prediction_type", JSVal.str "now")])]
      Sample.morningView Sample.morningGauge Sample.hourlyLine true rfl rfl).2.2.2.2.2.1 rfl⟩

/-! ### C21: the render-defer timer -/

/-- Every event keeps: the cleanup React holds captures an id already handed out. -/
theorem Line.step_fresh (s t : Line.State) (e : Line.Event) (h : Line.Fresh s)
    (hstep : Line.step s e = some t) : Line.Fresh t := by
  cases e with
  | render canvas hourlyData result =>
      simp only [Line.step, Option.some.injEq] at hstep
      subst hstep
      intro x hx
      by_cases hg : Line.lineReturns canvas hourlyData result = true
      · simp [Line.effect, hg] at hx
      · have hn : (Line.runCleanup s).nextTimer = s.nextTimer := by
          cases hr : s.returned <;> simp [Line.runCleanup, hr, Line.cleanup, Line.clearTimeout]
        simp only [Line.effect, hg, Bool.false_eq_true, if_false, Option.some.injEq] at hx
        simp only [Line.effect, hg, Bool.false_eq_true, if_false]
        omega
  | timeout i =>
      simp only [Line.step] at hstep
      cases hti : s.timers[i]? with
      | none => simp [hti] at hstep
      | some tm =>
          simp only [hti, Option.some.injEq] at hstep
          subst hstep
          exact h
  | loaded i canvas =>
      simp only [Line.step] at hstep
      cases hl : s.chart.loads[i]? with
      | none => simp [hl] at hstep
      | some hourlyData =>
          simp only [hl, Option.some.injEq] at hstep
          subst hstep
          intro x hx
          have hx2 : s.returned = some x := by
            cases canvas <;> cases hm : hourlyData.mapsOver <;>
              simpa [Line.loadLineChartResume, hm] using hx
          have := h x hx2
          cases canvas <;> cases hm : hourlyData.mapsOver <;>
            simpa [Line.loadLineChartResume, hm] using this

/-- Every state of the line chart reached from mount keeps that property. -/
theorem Line.run_fresh (es : List Line.Event) :
    ∀ s t : Line.State, Line.Fresh s → Line.run s es = some t → Line.Fresh t := by
  induction es with
  | nil =>
      intro s t h hrun
      simp only [Line.run, Option.some.injEq] at hrun
      subst hrun
      exact h
  | cons e es ih =>
      intro s t h hrun
      simp only [Line.run] at hrun
      cases hstep : Line.step s e with
      | none => simp [hstep] at hrun
      | some u =>
          rw [hstep] at hrun
          exact ih u t (Line.step_fresh s u e h hstep) hrun

/-- A timer that has been handed out and is not pending never becomes pending again. -/
theorem Line.step_cleared (k : Nat) (s t : Line.State) (e : Line.Event) (h : Line.Cleared k s)
    (hstep : Line.step s e = some t) : Line.Cleared k t := by
  obtain ⟨hk, hne⟩ := h
  cases e with
  | render canvas hourlyData result =>
      simp only [Line.step, Option.some.injEq] at hstep
      subst hstep
      have hn : (Line.runCleanup s).nextTimer = s.nextTimer := by
        cases hr : s.returned <;> simp [Line.runCleanup, hr, Line.cleanup, Line.clearTimeout]
      have ht : ∀ x ∈ (Line.runCleanup s).timers, x.id ≠ k := by
        intro x hx
        cases hr : s.returned with
        | none =>
            simp only [Line.runCleanup, hr] at hx
            exact hne x hx
        | some timer =>
            simp only [Line.runCleanup, hr, Line.cleanup, Line.clearTimeout,
              List.mem_filter] at hx
            exact hne x hx.1
      by_cases hg : Line.lineReturns canvas hourlyData result = true
      · refine ⟨?_, ?_⟩
        · simp only [Line.effect, hg, if_true]
          omega
        · intro x hx
          simp only [Line.effect, hg, if_true] at hx
          exact ht x hx
      · refine ⟨?_, ?_⟩
        · simp only [Line.effect, hg, Bool.false_eq_true, if_false]
          omega
        · intro x hx
          simp only [Line.effect, hg, Bool.false_eq_true, if_false, List.mem_append,
            List.mem_singleton] at hx
          rcases hx with hx | hx
          · exact ht x hx
          · subst hx
            show (Line.runCleanup s).nextTimer ≠ k
            omega
  | timeout i =>
      simp only [Line.step] at hstep
      cases hti : s.timers[i]? with
      | none => simp [hti] at hstep
      | some tm =>
          simp only [hti, Option.some.injEq] at hstep
          subst hstep
          exact ⟨hk, fun x hx => hne x (List.mem_of_mem_eraseIdx hx)⟩
  | loaded i canvas =>
      simp only [Line.step] at hstep
      cases hl : s.chart.loads[i]? with
      | none => simp [hl] at hstep
      | some hourlyData =>
          simp only [hl, Option.some.injEq] at hstep
          subst hstep
          cases canvas <;> cases hm : hourlyData.mapsOver <;>
            simpa [Line.Cleared, Line.loadLineChartResume, hm] using
              (⟨hk, hne⟩ : k < s.nextTimer ∧ ∀ x ∈ s.timers, x.id ≠ k)

/-- The same along a run. -/
theorem Line.run_cleared (k : Nat) (es : List Line.Event) :
    ∀ s t : Line.State, Line.Cleared k s → Line.run s es = some t → Line.Cleared k t := by
  induction es with
  | nil =>
      intro s t h hrun
      simp only [Line.run, Option.some.injEq] at hrun
      subst hrun
      exact h
  | cons e es ih =>
      intro s t h hrun
      simp only [Line.run] at hrun
      cases hstep : Line.step s e with
      | none => simp [hstep] at hrun
      | some u =>
          rw [hstep] at hrun
          exact ih u t (Line.step_cleared k s u e h hstep) hrun

/-- `runCleanup` hands out no timer id. -/
theorem Line.runCleanup_nextTimer (s : Line.State) :
    (Line.runCleanup s).nextTimer = s.nextTimer := by
  cases hr : s.returned <;> simp [Line.runCleanup, hr, Line.cleanup, Line.clearTimeout]

/-- C21: in `index _2_tempgraph.js`, a run of the line chart effect that passes its guard
schedules exactly one timer, with delay 200 ms (in a state reached from mount it is then the
only pending one); when that timer fires, `loadLineChart` is called with the `hourlyData` of
that run.  The run returns the cleanup that captures that timer; the cleanup removes the
timers with that id and no other, and calls no `loadLineChart`.  Once the cleanup has run, the
timer is never pending again, whatever happens afterwards: if it had not fired before, the
`loadLineChart` of that run is never invoked. -/
theorem C21_render_defer_cancellable (es : List Line.Event) (s : Line.State) (canvas : Bool)
    (hourlyData result : JSVal)
    (hrun : Line.run Line.init es = some s)
    (hpass : Line.lineReturns canvas hourlyData result = false) :
    (∀ s0 : Line.State, (Line.effect canvas hourlyData result s0).timers =
      s0.timers ++ [⟨s0.nextTimer, 200, hourlyData⟩]) ∧
    Line.step s (Line.Event.render canvas hourlyData result) =
      some (Line.effect canvas hourlyData result (Line.runCleanup s)) ∧
    (Line.effect canvas hourlyData result (Line.runCleanup s)).timers =
      [⟨s.nextTimer, 200, hourlyData⟩] ∧
    (Line.effect canvas hourlyData result (Line.runCleanup s)).returned = some s.nextTimer ∧
    (Line.step (Line.effect canvas hourlyData result (Line.runCleanup s))
        (Line.Event.timeout 0)).map (fun t => (t.timers.length, t.chart.loads)) =
      some (0, (Line.runCleanup s).chart.loads ++ [hourlyData]) ∧
    (∀ (s0 : Line.State) (t : Nat),
      (Line.cleanup t s0).timers = s0.timers.filter (fun x => x.id != t) ∧
      (Line.cleanup t s0).chart.loads = s0.chart.loads) ∧
    (∀ (es1 : List Line.Event) (s1 : Line.State),
      Line.run (Line.effect canvas hourlyData result (Line.runCleanup s)) es1 = some s1 →
      s1.returned = some s.nextTimer →
      (Line.runCleanup s1).timers = [] ∧
      (Line.runCleanup s1).chart.loads = s1.chart.loads ∧
      ∀ (es2 : List Line.Event) (s2 : Line.State),
        Line.run (Line.runCleanup s1) es2 = some s2 → ∀ x ∈ s2.timers, x.id ≠ s.nextTimer) := by
  have hgi : Gauge.Owned Gauge.init := Or.inl rfl
  have hli : Line.Owned Line.init := ⟨hgi, by intro t ht; simp [Line.init] at ht⟩
  have hfi : Line.Fresh Line.init := by intro t ht; simp [Line.init] at ht
  have hso : Line.Owned s := Line.run_owned_line es _ _ hli hrun
  have hsf : Line.Fresh s := Line.run_fresh es _ _ hfi hrun
  have hstep : Line.step s (Line.Event.render canvas hourlyData result) =
      some (Line.effect canvas hourlyData result (Line.runCleanup s)) := rfl
  have heff : ∀ s0 : Line.State, (Line.effect canvas hourlyData result s0).timers =
      s0.timers ++ [⟨s0.nextTimer, 200, hourlyData⟩] := by
    intro s0
    simp [Line.effect, hpass]
  have hnil := (Line.runCleanup_owned s hso).1
  have htim : (Line.effect canvas hourlyData result (Line.runCleanup s)).timers =
      [⟨s.nextTimer, 200, hourlyData⟩] := by
    rw [heff, hnil, Line.runCleanup_nextTimer]
    rfl
  refine ⟨heff, hstep, htim, ?_, ?_, ?_, ?_⟩
  · simp [Line.effect, hpass, Line.runCleanup_nextTimer]
  · simp [Line.step, htim]
    simp [Line.effect, hpass]
  · intro s0 t
    constructor
    · rfl
    · cases hci : s0.chart.chartInstance <;>
        simp [Line.cleanup, Line.clearTimeout, Gauge.destroyCurrent, hci]
  · intro es1 s1 hrun1 hret
    have ho1 : Line.Owned s1 :=
      Line.run_owned_line es1 _ _ (Line.step_owned_line s _ _ hso hstep) hrun1
    have hf1 : Line.Fresh s1 :=
      Line.run_fresh es1 _ _ (Line.step_fresh s _ _ hsf hstep) hrun1
    have hlt : s.nextTimer < s1.nextTimer := hf1 _ hret
    refine ⟨(Line.runCleanup_owned s1 ho1).1, ?_, ?_⟩
    · cases hci : s1.chart.chartInstance <;>
        simp [Line.runCleanup, hret, Line.cleanup, Line.clearTimeout, Gauge.destroyCurrent, hci]
    · intro es2 s2 hrun2
      have hc : Line.Cleared s.nextTimer (Line.runCleanup s1) := by
        refine ⟨by rw [Line.runCleanup_nextTimer]; exact hlt, ?_⟩
        intro x hx
        rw [(Line.runCleanup_owned s1 ho1).1] at hx
        simp at hx
      exact (Line.run_cleared s.nextTimer es2 _ _ hc hrun2).2

theorem C21_render_defer_cancellable_witness :
    Line.run Line.init [] = some Line.init ∧
    Line.lineReturns true Sample.hourly (JSVal.obj [("prediction_type", JSVal.str "now")]) =
      false ∧
    (Line.effect true Sample.hourly (JSVal.obj [("prediction_type", JSVal.str "now")])
      (Line.runCleanup Line.init)).timers = [⟨Line.init.nextTimer, 200, Sample.hourly⟩] ∧
    Line.run
        (Line.effect true Sample.hourly (JSVal.obj [("prediction_type", JSVal.str "now")])
          (Line.runCleanup Line.init)) [] =
      some Sample.hourlyLine ∧
    Sample.hourlyLine.returned = some Line.init.nextTimer ∧
    (Line.runCleanup Sample.hourlyLine).timers = [] :=
  ⟨rfl, rfl,
    (C21_render_defer_cancellable [] Line.init true Sample.hourly
      (JSVal.obj [("prediction_type", JSVal.str "now")]) rfl rfl).2.2.1,
    rfl, rfl,
    ((C21_render_defer_cancellable [] Line.init true Sample.hourly
      (JSVal.obj [("prediction_type", JSVal.str "now")]) rfl rfl).2.2.2.2.2.2
      [] Sample.hourlyLine rfl rfl).1⟩

/-! ### C22: the start of a fetch cycle -/

/-- C22: for every prior state, right after `getPrediction` has begun (up to its first `await`)
`result` is null, `showResult` is false and `loading` is true, in `index.js`, `index_1.js` and
`index _2_tempgraph.js`, where `hourlyData` is null as well; the welcome message is the one of
the prior state. -/
theorem C22_fetch_cycle_start (base type : String) (v : Page.View) (w : Tempgraph.View) :
    (Index.getPredictionStart base type v).result = JSVal.null ∧
    (Index.getPredictionStart base type v).showResult = false ∧
    (Index.getPredictionStart base type v).loading = true ∧
    (Index.getPredictionStart base type v).welcomeMessage = v.welcomeMessage ∧
    (Index1.getPredictionStart base type v).result = JSVal.null ∧
    (Index1.getPredictionStart base type v).showResult = false ∧
    (Index1.getPredictionStart base type v).loading = true ∧
    (Index1.getPredictionStart base type v).welcomeMessage = v.welcomeMessage ∧
    (Tempgraph.getPredictionStart base type w).result = JSVal.null ∧
    (Tempgraph.getPredictionStart base type w).hourlyData = JSVal.null ∧
    (Tempgraph.getPredictionStart base type w).showResult = false ∧
    (Tempgraph.getPredictionStart base type w).loading = true ∧
    (Tempgraph.getPredictionStart base type w).welcomeMessage = w.welcomeMessage :=
  ⟨rfl, rfl, rfl, rfl, rfl, rfl, rfl, rfl, rfl, rfl, rfl, rfl, rfl⟩

/-! ### C23: no chart for a result that cannot be rendered -/

/-- A string that starts with a non-empty text is truthy. -/
theorem JS.truthy_append (a b : String) (ha : a ≠ "") : (JSVal.str (a ++ b)).truthy = true := by
  have hne : a ++ b ≠ "" := by
    intro h
    apply ha
    have hd : (a ++ b).data = [] := by rw [h]
    rw [String.data_append, List.append_eq_nil] at hd
    exact String.ext hd.1
  simp [JSVal.truthy, hne]

/-- `a || b` is truthy when `b` is. -/
theorem JS.or_truthy (a b : JSVal) (hb : b.truthy = true) : (a.or b).truthy = true := by
  cases h : a.truthy <;> simp [JSVal.or, h, hb]

/-- A response that is not a 2xx with a parsed body makes `getPrediction` of `index.js` store an
object whose `error` is truthy. -/
theorem Index.failure_error_truthy (f : Fetched) (v : Page.View)
    (hf : Tempgraph.primarySucceeded f = false) :
    (Index.getPredictionResume f v).result.truthy = true ∧
      ((Index.getPredictionResume f v).result.get "error").truthy = true := by
  have hnet : ∀ m : String, (JSVal.str ("네트워크 오류: " ++ m)).truthy = true :=
    fun m => JS.truthy_append _ m (by decide)
  have hapi : ∀ m : String, (JSVal.str ("API 오류: " ++ m)).truthy = true :=
    fun m => JS.truthy_append _ m (by decide)
  have hobj : ∀ fs : List (String × JSVal), (JSVal.obj fs).truthy = true := fun _ => rfl
  rcases f with m | ⟨status, m | data⟩
  · exact ⟨rfl, by simpa [Index.getPredictionResume, Index.getPredictionTry, Page.setResult,
      Page.setTimeout, Page.setLoading, JSVal.get, lookup] using hnet m⟩
  · exact ⟨rfl, by simpa [Index.getPredictionResume, Index.getPredictionTry, Page.setResult,
      Page.setTimeout, Page.setLoading, JSVal.get, lookup, bind, Except.bind] using hnet m⟩
  · simp only [Tempgraph.primarySucceeded] at hf
    cases data <;>
      (simp [Index.getPredictionResume, Index.getPredictionTry, hf, JSVal.read, bind,
        Except.bind, pure, Except.pure, Page.setResult, Page.setTimeout, Page.setLoading,
        JSVal.get, lookup, hnet, hapi, hobj]) <;> rfl

/-- The same for `index_1.js`. -/
theorem Index1.failure_error_truthy_one (f : Fetched) (v : Page.View)
    (hf : Tempgraph.primarySucceeded f = false) :
    (Index1.getPredictionResume f v).result.truthy = true ∧
      ((Index1.getPredictionResume f v).result.get "error").truthy = true := by
  have hnet : ∀ m : String, (JSVal.str ("네트워크 오류: " ++ m)).truthy = true :=
    fun m => JS.truthy_append _ m (by decide)
  have hapi : ∀ (d : JSVal) (m : String),
      (d.or (JSVal.str ("API 오류: " ++ m))).truthy = true :=
    fun d m => JS.or_truthy _ _ (JS.truthy_append _ m (by decide))
  have hobj : ∀ fs : List (String × JSVal), (JSVal.obj fs).truthy = true := fun _ => rfl
  rcases f with m | ⟨status, m | data⟩
  · exact ⟨rfl, by simpa [Index1.getPredictionResume, Index1.getPredictionTry, Page.setResult,
      Page.setTimeout, Page.setLoading, JSVal.get, lookup] using hnet m⟩
  · exact ⟨rfl, by simpa [Index1.getPredictionResume, Index1.getPredictionTry, Page.setResult,
      Page.setTimeout, Page.setLoading, JSVal.get, lookup, bind, Except.bind] using hnet m⟩
  · simp only [Tempgraph.primarySucceeded] at hf
    cases data <;>
      (simp [Index1.getPredictionResume, Index1.getPredictionTry, hf, JSVal.read, bind,
        Except.bind, pure, Except.pure, Page.setResult, Page.setTimeout, Page.setLoading,
        JSVal.get, lookup, hnet, hapi, hobj]) <;> rfl


/-- Calling `destroy()` on a chart leaves the `result` of every chart as it was. -/
theorem Gauge.destroyAt_result (cs : List Gauge.Chart) :
    ∀ (i : Nat) (c : Gauge.Chart), c ∈ Gauge.destroyAt i cs → ∃ d ∈ cs, d.result = c.result := by
  induction cs with
  | nil => intro i c hc; simp [Gauge.destroyAt] at hc
  | cons a cs ih =>
    intro i c hc
    cases i with
    | zero =>
      simp only [Gauge.destroyAt, List.mem_cons] at hc
      rcases hc with hc | hc
      · exact ⟨a, List.mem_cons_self _ _, by rw [hc]⟩
      · exact ⟨c, List.mem_cons_of_mem _ hc, rfl⟩
    | succ i =>
      simp only [Gauge.destroyAt, List.mem_cons] at hc
      rcases hc with hc | hc
      · exact ⟨a, List.mem_cons_self _ _, by rw [hc]⟩
      · obtain ⟨d, hd, hr⟩ := ih i c hc
        exact ⟨d, List.mem_cons_of_mem _ hd, hr⟩

/-- The cleanup keeps `Gauge.Passed`. -/
theorem Gauge.destroyCurrent_passed (returns : Bool → JSVal → Bool) (s : Gauge.State)
    (h : Gauge.Passed returns s) : Gauge.Passed returns (Gauge.destroyCurrent s) := by
  unfold Gauge.destroyCurrent
  cases hi : s.chartInstance with
  | none => simpa using h
  | some i =>
    refine ⟨h.1, ?_⟩
    intro c hc
    obtain ⟨d, hd, hr⟩ := Gauge.destroyAt_result s.charts i c hc
    rw [← hr]
    exact h.2 d hd

/-- One event keeps `Gauge.Passed`. -/
theorem Gauge.step_passed (returns : Bool → JSVal → Bool) (throws : JSVal → Bool)
    (s t : Gauge.State) (e : Gauge.Event)
    (h : Gauge.Passed returns s) (hstep : Gauge.step returns throws s e = some t) :
    Gauge.Passed returns t := by
  cases e with
  | effect canvas result =>
    simp only [Gauge.step] at hstep
    cases hr : returns canvas result with
    | true =>
      simp [hr] at hstep
      rw [← hstep]
      exact h
    | false =>
      simp [hr] at hstep
      rw [← hstep]
      refine ⟨?_, h.2⟩
      intro r hmem
      simp only [List.mem_append, List.mem_singleton] at hmem
      rcases hmem with hmem | hmem
      · exact h.1 r hmem
      · exact ⟨canvas, by rw [hmem]; exact hr⟩
  | cleanup =>
    simp only [Gauge.step, Option.some.injEq] at hstep
    rw [← hstep]
    exact Gauge.destroyCurrent_passed returns s h
  | loaded i canvas =>
    simp only [Gauge.step] at hstep
    cases hl : s.loads[i]? with
    | none => simp [hl] at hstep
    | some result =>
      simp only [hl, Option.some.injEq] at hstep
      have hmem : result ∈ s.loads := List.getElem?_mem hl
      have hs1 : Gauge.Passed returns { s with loads := s.loads.eraseIdx i } :=
        ⟨fun r hr => h.1 r (List.mem_of_mem_eraseIdx hr), h.2⟩
      rw [← hstep]
      unfold Gauge.loadChartResume
      by_cases hb : (canvas && !throws result) = true
      · have hd := Gauge.destroyCurrent_passed returns _ hs1
        rw [if_pos hb]
        refine ⟨hd.1, ?_⟩
        intro c hc
        simp only [Gauge.newChart, List.mem_append, List.mem_singleton] at hc
        rcases hc with hc | hc
        · exact hd.2 c hc
        · rw [hc]
          exact h.1 result hmem
      · rw [if_neg hb]
        exact hs1

/-- Every run keeps `Gauge.Passed`. -/
theorem Gauge.run_passed (returns : Bool → JSVal → Bool) (throws : JSVal → Bool)
    (es : List Gauge.Event) :
    ∀ s t : Gauge.State, Gauge.Passed returns s → Gauge.run returns throws s es = some t →
      Gauge.Passed returns t := by
  induction es with
  | nil =>
    intro s t h hrun
    simp only [Gauge.run, Option.some.injEq] at hrun
    rw [← hrun]
    exact h
  | cons e es ih =>
    intro s t h hrun
    simp only [Gauge.run] at hrun
    cases hstep : Gauge.step returns throws s e with
    | none => simp [hstep] at hrun
    | some u =>
      simp only [hstep, Option.some_bind] at hrun
      exact ih u t (Gauge.step_passed returns throws s u e h hstep) hrun

/-- The guard of `index.js` lets the effect through exactly when the canvas is attached,
`result` is truthy and `result.error` is falsy. -/
theorem Index.gaugeReturns_false_iff (canvas : Bool) (result : JSVal) :
    Index.gaugeReturns canvas result = false ↔
      canvas = true ∧ result.truthy = true ∧ (result.get "error").truthy = false := by
  unfold Index.gaugeReturns
  cases canvas <;> cases result.truthy <;> cases (result.get "error").truthy <;> simp

/-- The guard of `index_1.js` asks in addition that `prediction_type` is not `'now'`. -/
theorem Index1.gaugeReturns_false_iff_one (canvas : Bool) (result : JSVal) :
    Index1.gaugeReturns canvas result = false ↔
      canvas = true ∧ result.truthy = true ∧ (result.get "error").truthy = false ∧
        (result.get "prediction_type").isStr "now" = false := by
  unfold Index1.gaugeReturns
  cases canvas <;> cases result.truthy <;> cases (result.get "error").truthy <;>
    cases (result.get "prediction_type").isStr "now" <;> simp

/-- A truthy value is neither `null` nor `undefined`. -/
theorem JS.truthy_ne_null (v : JSVal) (h : v.truthy = true) :
    v ≠ JSVal.null ∧ v ≠ JSVal.undefined := by
  constructor <;> (intro e; rw [e] at h; simp [JSVal.truthy] at h)


/-- C23: the guard of the gauge effect of `index.js` lets the effect through exactly when the
canvas is attached, `result` is truthy (so not null) and `result.error` is falsy, and the guard
of `index_1.js` asks for the same and more; an effect run whose guard returns starts no
`loadChart`, which is the case for every Failure `getPrediction` stores (non-2xx response,
rejected fetch, unparseable body) and for a null `result`; a `loadChart` that finds no canvas
constructs nothing; and in every state the gauge reaches from mount, every chart constructed and
every `loadChart` still suspended comes from a `result` that is not null and whose `error` is
falsy. -/
theorem C23_no_chart_without_renderable_result (upper : String → String) (canvas : Bool)
    (result : JSVal) (f : Fetched)
    (v : Page.View) (es : List Gauge.Event) (s g : Gauge.State)
    (hf : Tempgraph.primarySucceeded f = false)
    (hrun : Gauge.run Index.gaugeReturns Index.loadChartThrows Gauge.init es = some g ∨
      Gauge.run Index1.gaugeReturns (Index1.loadChartThrows upper) Gauge.init es = some g) :
    (Index.gaugeReturns canvas result = false ↔
      canvas = true ∧ result.truthy = true ∧ (result.get "error").truthy = false) ∧
    (Index1.gaugeReturns canvas result = false →
      canvas = true ∧ result.truthy = true ∧ (result.get "error").truthy = false) ∧
    (∀ (returns : Bool → JSVal → Bool) (throws : JSVal → Bool), returns canvas result = true →
      Gauge.step returns throws s (Gauge.Event.effect canvas result) = some s) ∧
    Gauge.step Index.gaugeReturns Index.loadChartThrows s
      (Gauge.Event.effect canvas (Index.getPredictionResume f v).result) = some s ∧
    Gauge.step Index1.gaugeReturns (Index1.loadChartThrows upper) s
      (Gauge.Event.effect canvas (Index1.getPredictionResume f v).result) = some s ∧
    Gauge.step Index.gaugeReturns Index.loadChartThrows s
      (Gauge.Event.effect canvas JSVal.null) = some s ∧
    Gauge.step Index1.gaugeReturns (Index1.loadChartThrows upper) s
      (Gauge.Event.effect canvas JSVal.null) = some s ∧
    (∀ (throws : JSVal → Bool) (r : JSVal), Gauge.loadChartResume throws false r s = s) ∧
    (∀ c ∈ g.charts,
      c.result ≠ JSVal.null ∧ c.result.truthy = true ∧ (c.result.get "error").truthy = false) ∧
    (∀ r ∈ g.loads, r ≠ JSVal.null ∧ r.truthy = true ∧ (r.get "error").truthy = false) := by
  have hstep : ∀ (returns : Bool → JSVal → Bool) (throws : JSVal → Bool) (r : JSVal),
      returns canvas r = true →
      Gauge.step returns throws s (Gauge.Event.effect canvas r) = some s := by
    intro returns throws r hr
    simp [Gauge.step, hr]
  have hfail := Index.failure_error_truthy f v hf
  have hfail1 := Index1.failure_error_truthy_one f v hf
  have hpass : ∀ r : JSVal, (∃ c, Index.gaugeReturns c r = false) ∨
      (∃ c, Index1.gaugeReturns c r = false) →
      r ≠ JSVal.null ∧ r.truthy = true ∧ (r.get "error").truthy = false := by
    intro r h
    rcases h with ⟨c, h⟩ | ⟨c, h⟩
    · have h2 := (Index.gaugeReturns_false_iff c r).1 h
      exact ⟨(JS.truthy_ne_null r h2.2.1).1, h2.2.1, h2.2.2⟩
    · have h2 := (Index1.gaugeReturns_false_iff_one c r).1 h
      exact ⟨(JS.truthy_ne_null r h2.2.1).1, h2.2.1, h2.2.2.1⟩
  have hinit : ∀ returns : Bool → JSVal → Bool, Gauge.Passed returns Gauge.init := by
    intro returns
    constructor <;> (intro x hx; simp [Gauge.init] at hx)
  refine ⟨Index.gaugeReturns_false_iff canvas result, ?_, ?_, ?_, ?_, ?_, ?_, ?_, ?_, ?_⟩
  · intro h
    have h2 := (Index1.gaugeReturns_false_iff_one canvas result).1 h
    exact ⟨h2.1, h2.2.1, h2.2.2.1⟩
  · intro returns throws hr
    exact hstep returns throws result hr
  · apply hstep
    simp [Index.gaugeReturns, hfail.1, hfail.2]
  · apply hstep
    simp [Index1.gaugeReturns, hfail1.1, hfail1.2]
  · apply hstep
    simp [Index.gaugeReturns, JSVal.truthy]
  · apply hstep
    simp [Index1.gaugeReturns, JSVal.truthy]
  · intro throws r
    simp [Gauge.loadChartResume]
  · intro c hc
    rcases hrun with h | h
    · exact hpass _ (Or.inl ((Gauge.run_passed _ _ es _ _ (hinit _) h).2 c hc))
    · exact hpass _ (Or.inr ((Gauge.run_passed _ _ es _ _ (hinit _) h).2 c hc))
  · intro r hr
    rcases hrun with h | h
    · exact hpass _ (Or.inl ((Gauge.run_passed _ _ es _ _ (hinit _) h).1 r hr))
    · exact hpass _ (Or.inr ((Gauge.run_passed _ _ es _ _ (hinit _) h).1 r hr))

theorem C23_no_chart_without_renderable_result_witness :
    Tempgraph.primarySucceeded
      (Fetched.response 503
        (Except.ok (JSVal.obj [("detail", JSVal.str "service unavailable")]))) = false ∧
    Gauge.run Index.gaugeReturns Index.loadChartThrows Gauge.init
      [Gauge.Event.effect true Sample.morning, Gauge.Event.loaded 0 true] =
        some Sample.morningGauge ∧
    (Index.getPredictionResume
      (Fetched.response 503
        (Except.ok (JSVal.obj [("detail", JSVal.str "service unavailable")]))) Page.init).result =
      JSVal.obj [("error", JSVal.str "API 오류: 503"),
        ("details", JSVal.str "service unavailable")] ∧
    Gauge.step Index.gaugeReturns Index.loadChartThrows Sample.morningGauge
      (Gauge.Event.effect true
        (Index.getPredictionResume
          (Fetched.response 503
            (Except.ok (JSVal.obj [("detail", JSVal.str "service unavailable")])))
          Page.init).result) = some Sample.morningGauge :=
  ⟨rfl, rfl, rfl,
    (C23_no_chart_without_renderable_result id true Sample.morning
      (Fetched.response 503
        (Except.ok (JSVal.obj [("detail", JSVal.str "service unavailable")])))
      Page.init [Gauge.Event.effect true Sample.morning, Gauge.Event.loaded 0 true]
      Sample.morningGauge Sample.morningGauge rfl (Or.inl rfl)).2.2.2.1⟩


/-! ### C24: request URLs -/

/-- C24 (counterexample): with `NEXT_PUBLIC_API_URL` set to the empty string the base is not
that value but `'http://localhost:8000'` (the empty string is falsy for `||`), and the request
of `getPrediction('morning')` goes to `http://localhost:8000/predict/morning`, not to
`/predict/morning`. -/
theorem C24_empty_base_is_replaced :
    Page.API_BASE_URL (some "") = "http://localhost:8000" ∧
    Page.API_BASE_URL (some "") ≠ "" ∧
    (Index.getPredictionStart (Page.API_BASE_URL (some "")) "morning" Page.init).fetches =
      ["http://localhost:8000/predict/morning"] ∧
    (Index.getPredictionStart (Page.API_BASE_URL (some "")) "morning" Page.init).fetches ≠
      ["" ++ "/predict/" ++ "morning"] :=
  ⟨rfl, by decide, rfl, by decide⟩

/-- C24 (amended): the base is the value of `NEXT_PUBLIC_API_URL` when that is set to a
non-empty value, and `'http://localhost:8000'` when it is unset or empty; for every kind `k`
(`now`, `morning` and `evening` included) `getPrediction(k)` issues exactly one request, to
base + `/predict/` + `k`; in `index _2_tempgraph.js` the hourly request, which is issued for
`now` only and after a 2xx response, goes to base + `/predict/hourly/` + `now`; the welcome
request goes to base + `/api/welcome`. -/
theorem C24_request_urls (env : Option String) (k : String) (v : Page.View) (w : Tempgraph.View)
    (status : Nat) (data : JSVal) (hok : ok status = true) :
    (env = none ∨ env = some "" → Page.API_BASE_URL env = "http://localhost:8000") ∧
    (∀ value : String, env = some value → value ≠ "" → Page.API_BASE_URL env = value) ∧
    (Index.getPredictionStart (Page.API_BASE_URL env) k v).fetches =
      v.fetches ++ [Page.API_BASE_URL env ++ "/predict/" ++ k] ∧
    (Index1.getPredictionStart (Page.API_BASE_URL env) k v).fetches =
      v.fetches ++ [Page.API_BASE_URL env ++ "/predict/" ++ k] ∧
    (Tempgraph.getPredictionStart (Page.API_BASE_URL env) k w).fetches =
      w.fetches ++ [⟨Page.API_BASE_URL env ++ "/predict/" ++ k, k, false⟩] ∧
    (Tempgraph.getPredictionResume (Page.API_BASE_URL env) "now"
        (Fetched.response status (Except.ok data)) w).fetches =
      w.fetches ++ [⟨Page.API_BASE_URL env ++ "/predict/hourly/" ++ "now", "now", true⟩] ∧
    (k ≠ "now" → ∀ f : Fetched,
      (Tempgraph.getPredictionResume (Page.API_BASE_URL env) k f w).fetches = w.fetches) ∧
    Page.welcomeUrl (Page.API_BASE_URL env) = Page.API_BASE_URL env ++ "/api/welcome" := by
  refine ⟨?_, ?_, rfl, rfl, rfl, ?_, ?_, rfl⟩
  · intro h
    rcases h with h | h <;> (rw [h]; rfl)
  · intro value h hne
    rw [h]
    simp [Page.API_BASE_URL, hne]
  · rw [Tempgraph.resume_shape_suspended _ status data w hok]
    rfl
  · intro hk f
    rcases f with m | ⟨st, m | d⟩
    · simp [Tempgraph.getPredictionResume, Tempgraph.getPredictionTry, Tempgraph.setResult,
        Tempgraph.setTimeout, Tempgraph.setLoading]
    · simp [Tempgraph.getPredictionResume, Tempgraph.getPredictionTry, Tempgraph.setResult,
        Tempgraph.setTimeout, Tempgraph.setLoading, bind, Except.bind]
    · cases hst : ok st <;> cases d <;>
        simp [Tempgraph.getPredictionResume, Tempgraph.getPredictionTry, hst, hk, JSVal.read,
          bind, Except.bind, pure, Except.pure, Tempgraph.setResult, Tempgraph.setTimeout,
          Tempgraph.setLoading, Tempgraph.fetch]

theorem C24_request_urls_witness :
    ok 200 = true ∧
    Page.API_BASE_URL (some "https://api.example.com") = "https://api.example.com" ∧
    (Index.getPredictionStart (Page.API_BASE_URL (some "https://api.example.com")) "evening"
        Page.init).fetches =
      [] ++ [Page.API_BASE_URL (some "https://api.example.com") ++ "/predict/" ++ "evening"] :=
  ⟨rfl,
    (C24_request_urls (some "https://api.example.com") "evening" Page.init Sample.morningView 200
      Sample.morning rfl).2.1 "https://api.example.com" rfl (by decide),
    (C24_request_urls (some "https://api.example.com") "evening" Page.init Sample.morningView 200
      Sample.morning rfl).2.2.1⟩

/-! ### C25: the welcome message -/

/-- C25 (counterexample): a 2xx response whose body parses, to the JSON value `null`, does not
set the welcome message to a message of the body: reading `data.message` throws inside the
`try`, and the `catch` sets the fixed default string. -/
theorem C25_null_body_gets_default :
    ok 200 = true ∧
    (Page.fetchWelcomeMessage (Fetched.response 200 (Except.ok JSVal.null)) Page.init).welcomeMessage
      = JSVal.str "안녕하세요! 😊<br/>날씨 예측 서비스입니다!" ∧
    Page.fetchWelcomeMessageTry (Fetched.response 200 (Except.ok JSVal.null)) Page.init =
      Except.error "Cannot read properties of null (reading 'message')" :=
  ⟨rfl, rfl, rfl⟩

/-- C25 (amended): `fetchWelcomeMessage` sets the welcome message to the body's `message` when
the response is 2xx and its body parses to a value other than `null`, and to the fixed default
string in every other case (non-2xx status, rejected fetch, unparseable body, 2xx body `null`);
it is total, so nothing is thrown to the caller, and it leaves `result`, `loading`,
`showResult`, the timers and the pending fetches as they were. -/
theorem C25_welcome_message (f : Fetched) (v : Page.View) :
    (∀ (status : Nat) (data : JSVal), f = Fetched.response status (Except.ok data) →
      ok status = true → data ≠ JSVal.null → data ≠ JSVal.undefined →
      (Page.fetchWelcomeMessage f v).welcomeMessage = data.get "message") ∧
    (∀ (status : Nat) (data : JSVal), f = Fetched.response status (Except.ok data) →
      ok status = false →
      (Page.fetchWelcomeMessage f v).welcomeMessage = JSVal.str Page.welcomeDefault) ∧
    (∀ (status : Nat) (m : String), f = Fetched.response status (Except.error m) →
      (Page.fetchWelcomeMessage f v).welcomeMessage = JSVal.str Page.welcomeDefault) ∧
    (∀ m : String, f = Fetched.rejected m →
      (Page.fetchWelcomeMessage f v).welcomeMessage = JSVal.str Page.welcomeDefault) ∧
    (∀ status : Nat, f = Fetched.response status (Except.ok JSVal.null) →
      (Page.fetchWelcomeMessage f v).welcomeMessage = JSVal.str Page.welcomeDefault) ∧
    Page.welcomeDefault = "안녕하세요! 😊<br/>날씨 예측 서비스입니다!" ∧
    (Page.fetchWelcomeMessage f v).result = v.result ∧
    (Page.fetchWelcomeMessage f v).loading = v.loading ∧
    (Page.fetchWelcomeMessage f v).showResult = v.showResult ∧
    (Page.fetchWelcomeMessage f v).timers = v.timers ∧
    (Page.fetchWelcomeMessage f v).fetches = v.fetches := by
  have hframe : ∀ g : Fetched,
      (Page.fetchWelcomeMessage g v).result = v.result ∧
      (Page.fetchWelcomeMessage g v).loading = v.loading ∧
      (Page.fetchWelcomeMessage g v).showResult = v.showResult ∧
      (Page.fetchWelcomeMessage g v).timers = v.timers ∧
      (Page.fetchWelcomeMessage g v).fetches = v.fetches := by
    intro g
    rcases g with m | ⟨status, m | data⟩
    · exact ⟨rfl, rfl, rfl, rfl, rfl⟩
    · exact ⟨rfl, rfl, rfl, rfl, rfl⟩
    · cases hst : ok status <;> cases data <;>
        simp [Page.fetchWelcomeMessage, Page.fetchWelcomeMessageTry, hst, JSVal.read, bind,
          Except.bind, pure, Except.pure, Page.setWelcomeMessage]
  refine ⟨?_, ?_, ?_, ?_, ?_, rfl, hframe f⟩
  · intro status data hf hok hnull hundef
    rw [hf]
    cases data <;>
      simp_all [Page.fetchWelcomeMessage, Page.fetchWelcomeMessageTry, JSVal.read, bind,
        Except.bind, pure, Except.pure, Page.setWelcomeMessage, JSVal.get]
  · intro status data hf hok
    rw [hf]
    simp [Page.fetchWelcomeMessage, Page.fetchWelcomeMessageTry, hok, bind, Except.bind, pure,
      Except.pure, Page.setWelcomeMessage]
  · intro status m hf
    rw [hf]
    rfl
  · intro m hf
    rw [hf]
    rfl
  · intro status hf
    rw [hf]
    cases hst : ok status <;>
      simp [Page.fetchWelcomeMessage, Page.fetchWelcomeMessageTry, hst, JSVal.read, bind,
        Except.bind, pure, Except.pure, Page.setWelcomeMessage]

theorem C25_welcome_message_witness :
    ok 200 = true ∧
    (Page.fetchWelcomeMessage
      (Fetched.response 200 (Except.ok (JSVal.obj [("message", JSVal.str "hello")])))
      Page.init).welcomeMessage = JSVal.str "hello" :=
  ⟨rfl,
    (C25_welcome_message
      (Fetched.response 200 (Except.ok (JSVal.obj [("message", JSVal.str "hello")])))
      Page.init).1 200 (JSVal.obj [("message", JSVal.str "hello")]) rfl rfl (by simp) (by simp)⟩

/-! ### C26: tooltip text -/

/-- C26 (counterexample): for the plotted value 21, whose text is `21`, the tooltip label
callback returns `온도: 21°C`, which is not `21°C`. -/
theorem C26_tooltip_has_prefix :
    Tempgraph.tooltipLabel (fun _ => "21") (JSVal.num 21) = "온도: 21°C" ∧
    Tempgraph.tooltipLabel (fun _ => "21") (JSVal.num 21) ≠ "21" ++ "°C" :=
  ⟨by decide, by decide⟩

/-- C26 (amended): for every plotted value `v` the tooltip label callback returns the text
`온도: ` followed by the text of `v` followed by `°C`, which is never the text of `v` followed by
`°C` alone; the format `<value>°C` is that of the tick labels of the y axis. -/
theorem C26_tooltip_text (text : JSVal → String) (v : JSVal) :
    Tempgraph.tooltipLabel text v = "온도: " ++ (text v ++ "°C") ∧
    Tempgraph.tooltipLabel text v ≠ text v ++ "°C" ∧
    Tempgraph.tickLabel text v = text v ++ "°C" ∧
    Tempgraph.tooltipLabel text v = "온도: " ++ Tempgraph.tickLabel text v := by
  have h : Tempgraph.tooltipLabel text v = "온도: " ++ (text v ++ "°C") := by
    simp [Tempgraph.tooltipLabel, String.append_assoc]
  refine ⟨h, ?_, rfl, h⟩
  intro e
  have hl := congrArg String.length e
  rw [h] at hl
  simp only [String.length_append] at hl
  have h4 : "온도: ".length = 4 := by decide
  omega


/-! ### C27: a higher score never gets a worse colour -/

/-- C27: in the five-level ladder of `index_1.js` (which is the one of
`index _2_tempgraph.js`) and in the four-level ladder of `index.js`, for numeric scores
`s1 ≤ s2` the rank of the colour of `s1` is at most the rank of the colour of `s2`, where the
rank counts the categories upwards: very poor 0, poor 1, moderate 2, good 3, excellent 4,
respectively poor 0, fair 1, good 2, excellent 3. -/
theorem C27_colour_monotone (conv : JSVal → Option ℚ) (r1 r2 : JSVal) (s1 s2 : ℚ)
    (h1 : r1.get "score" = JSVal.num s1) (h2 : r2.get "score" = JSVal.num s2) (h : s1 ≤ s2) :
    Index1.rank (Index1.color conv (Index1.score r1)) ≤
      Index1.rank (Index1.color conv (Index1.score r2)) ∧
    Index1.rank (Tempgraph.color conv (Tempgraph.score r1)) ≤
      Index1.rank (Tempgraph.color conv (Tempgraph.score r2)) ∧
    Index.rank (Index.color conv (Index.score r1)) ≤
      Index.rank (Index.color conv (Index.score r2)) ∧
    [Index1.rank "#E53935", Index1.rank "#FF9800", Index1.rank "#FFC107", Index1.rank "#8BC34A",
      Index1.rank "#4CAF50"] = [0, 1, 2, 3, 4] ∧
    [Index.rank "#E53935", Index.rank "#FB8C00", Index.rank "#43A047", Index.rank "#FFB300"] =
      [0, 1, 2, 3] := by
  have e1 : Index1.score r1 = JSVal.num s1 := by rw [Index1.score, h1, JS.or_zero_num]
  have e2 : Index1.score r2 = JSVal.num s2 := by rw [Index1.score, h2, JS.or_zero_num]
  have f1 : Index.score r1 = JSVal.num s1 := by rw [Index.score, h1, JS.or_zero_num]
  have f2 : Index.score r2 = JSVal.num s2 := by rw [Index.score, h2, JS.or_zero_num]
  have five : Index1.rank (Index1.color conv (Index1.score r1)) ≤
      Index1.rank (Index1.color conv (Index1.score r2)) := by
    rw [e1, e2, Index1.color_five_num, Index1.color_five_num]
    split_ifs <;> first | (exfalso; linarith) | decide
  refine ⟨five, ?_, ?_, by decide, by decide⟩
  · rw [Tempgraph.color_eq, Tempgraph.color_eq]
    exact five
  · rw [f1, f2, Index.color_four_num, Index.color_four_num]
    split_ifs <;> first | (exfalso; linarith) | decide

theorem C27_colour_monotone_witness :
    (JSVal.obj [("score", JSVal.num 35)]).get "score" = JSVal.num 35 ∧
    (JSVal.obj [("score", JSVal.num 72)]).get "score" = JSVal.num 72 ∧
    Index1.rank (Index1.color (fun _ => none) (Index1.score (JSVal.obj [("score", JSVal.num 35)])))
      ≤ Index1.rank
        (Index1.color (fun _ => none) (Index1.score (JSVal.obj [("score", JSVal.num 72)]))) :=
  ⟨rfl, rfl,
    (C27_colour_monotone (fun _ => none) (JSVal.obj [("score", JSVal.num 35)])
      (JSVal.obj [("score", JSVal.num 72)]) 35 72 rfl rfl (by norm_num)).1⟩


/-! ### C28: gauge and line chart exclude each other -/

/-- A value that is `=== 'a'` is not `=== 'b'` for a different literal `b`. -/
theorem JS.isStr_exclusive (v : JSVal) (a b : String) (hab : a ≠ b) (h : v.isStr a = true) :
    v.isStr b = false := by
  cases v <;> simp [JSVal.isStr] at h ⊢
  rw [h]
  exact hab

/-- C28: in `index _2_tempgraph.js`, for every state the guard of the gauge effect and the guard
of the line chart effect never both let the effect through: the gauge asks that
`result.prediction_type` is not `'now'`, the line chart that it is `'now'`; the gauge canvas is
mounted only when `prediction_type` is `'morning'` or `'evening'`, and then the line canvas is
not mounted; for a result without `prediction_type` neither canvas is mounted and both effects
return at their guards. -/
theorem C28_gauge_line_exclusive (conv : JSVal → Option ℚ) (c1 c2 : Bool) (v : Tempgraph.View) :
    ¬ (Tempgraph.gaugeReturns c1 v.result = false ∧
      Line.lineReturns c2 v.hourlyData v.result = false) ∧
    (Tempgraph.gaugeReturns c1 v.result = false →
      (v.result.get "prediction_type").isStr "now" = false) ∧
    (Line.lineReturns c2 v.hourlyData v.result = false →
      (v.result.get "prediction_type").isStr "now" = true) ∧
    (Tempgraph.gaugeCanvas v = true →
      (v.result.get "prediction_type" = JSVal.str "morning" ∨
        v.result.get "prediction_type" = JSVal.str "evening") ∧
      Tempgraph.lineCanvas conv v = false) ∧
    (v.result.get "prediction_type" = JSVal.undefined →
      Tempgraph.gaugeCanvas v = false ∧ Tempgraph.lineCanvas conv v = false ∧
      Tempgraph.gaugeReturns (Tempgraph.gaugeCanvas v) v.result = true ∧
      Line.lineReturns (Tempgraph.lineCanvas conv v) v.hourlyData v.result = true) := by
  have hg : Tempgraph.gaugeReturns c1 v.result = false →
      (v.result.get "prediction_type").isStr "now" = false := by
    intro h
    simp only [Tempgraph.gaugeReturns, Bool.or_eq_false_iff] at h
    exact h.2
  have hl : Line.lineReturns c2 v.hourlyData v.result = false →
      (v.result.get "prediction_type").isStr "now" = true := by
    intro h
    exact ((Line.lineReturns_false_iff _ _ _).1 h).2.2.2
  refine ⟨?_, hg, hl, ?_, ?_⟩
  · rintro ⟨h1, h2⟩
    have a := hg h1
    have b := hl h2
    rw [a] at b
    exact Bool.false_ne_true b
  · intro h
    simp only [Tempgraph.gaugeCanvas, Bool.and_eq_true, Bool.or_eq_true] at h
    have hnow : (v.result.get "prediction_type").isStr "now" = false := by
      rcases h.2 with h2 | h2
      · exact JS.isStr_exclusive _ "morning" "now" (by decide) h2
      · exact JS.isStr_exclusive _ "evening" "now" (by decide) h2
    constructor
    · rcases h.2 with h2 | h2
      · left
        cases hp : v.result.get "prediction_type" <;> simp [hp, JSVal.isStr] at h2
        rw [h2]
      · right
        cases hp : v.result.get "prediction_type" <;> simp [hp, JSVal.isStr] at h2
        rw [h2]
    · simp [Tempgraph.lineCanvas, Tempgraph.weatherDetails, hnow]
  · intro h
    have e1 : Tempgraph.gaugeCanvas v = false := by
      simp [Tempgraph.gaugeCanvas, h, JSVal.isStr]
    have e2 : Tempgraph.lineCanvas conv v = false := by
      simp [Tempgraph.lineCanvas, Tempgraph.weatherDetails, h, JSVal.isStr]
    refine ⟨e1, e2, ?_, ?_⟩
    · rw [e1]
      simp [Tempgraph.gaugeReturns]
    · rw [e2]
      simp [Line.lineReturns]

theorem C28_gauge_line_exclusive_witness :
    Tempgraph.gaugeCanvas ⟨Sample.morning, JSVal.null, false, JSVal.str "", true, [], []⟩ = true ∧
    Tempgraph.lineCanvas (fun _ => none)
      ⟨Sample.morning, JSVal.null, false, JSVal.str "", true, [], []⟩ = false ∧
    (JSVal.obj [("score", JSVal.num 72)]).get "prediction_type" = JSVal.undefined ∧
    Tempgraph.gaugeCanvas
      ⟨JSVal.obj [("score", JSVal.num 72)], JSVal.null, false, JSVal.str "", true, [], []⟩ =
        false :=
  ⟨rfl,
    ((C28_gauge_line_exclusive (fun _ => none) true true
      ⟨Sample.morning, JSVal.null, false, JSVal.str "", true, [], []⟩).2.2.2.1 rfl).2,
    rfl,
    ((C28_gauge_line_exclusive (fun _ => none) true true
      ⟨JSVal.obj [("score", JSVal.num 72)], JSVal.null, false, JSVal.str "", true, [], []⟩).2.2.2.2
      rfl).1⟩


/-! ### C29: the loading flag of a single cycle -/

/-- Reveal timers that fire change neither `loading` nor `result` nor the pending fetches. -/
theorem Page.run_timeouts (start : String → Page.View → Page.View)
    (resume : Fetched → Page.View → Page.View) (ts : List Nat) :
    ∀ v w : Page.View, Page.run start resume v (ts.map Page.Event.timeout) = some w →
      w.loading = v.loading ∧ w.result = v.result ∧ w.fetches = v.fetches := by
  induction ts with
  | nil =>
    intro v w h
    simp only [List.map_nil, Page.run, Option.some.injEq] at h
    rw [← h]
    exact ⟨rfl, rfl, rfl⟩
  | cons t ts ih =>
    intro v w h
    simp only [List.map_cons, Page.run, Page.step] at h
    by_cases ht : t < v.timers.length
    · simp only [ht, if_true, Option.some_bind] at h
      have := ih _ w h
      simpa [Page.setShowResult] using this
    · simp [ht] at h

/-- The same in `index _2_tempgraph.js`, where `hourlyData` is kept as well. -/
theorem Tempgraph.run_timeouts_tempgraph (base : String) (ts : List Nat) :
    ∀ v w : Tempgraph.View, Tempgraph.run base v (ts.map Tempgraph.Event.timeout) = some w →
      w.loading = v.loading ∧ w.result = v.result ∧ w.fetches = v.fetches ∧
        w.hourlyData = v.hourlyData := by
  induction ts with
  | nil =>
    intro v w h
    simp only [List.map_nil, Tempgraph.run, Option.some.injEq] at h
    rw [← h]
    exact ⟨rfl, rfl, rfl, rfl⟩
  | cons t ts ih =>
    intro v w h
    simp only [List.map_cons, Tempgraph.run, Tempgraph.step] at h
    by_cases ht : t < v.timers.length
    · simp only [ht, if_true, Option.some_bind] at h
      have := ih _ w h
      simpa [Tempgraph.setShowResult] using this
    · simp [ht] at h

/-- The result `getPrediction` of `index.js` stores is `null` exactly for a 2xx response whose
body is the JSON value `null`. -/
theorem Index.resume_result_null_iff (f : Fetched) (v : Page.View) :
    (Index.getPredictionResume f v).result = JSVal.null ↔
      ∃ status, ok status = true ∧ f = Fetched.response status (Except.ok JSVal.null) := by
  rcases f with m | ⟨status, m | data⟩
  · simp [Index.getPredictionResume, Index.getPredictionTry, Page.setResult, Page.setTimeout,
      Page.setLoading]
  · simp [Index.getPredictionResume, Index.getPredictionTry, Page.setResult, Page.setTimeout,
      Page.setLoading, bind, Except.bind]
  · cases hok : ok status <;> cases data <;>
      simp [Index.getPredictionResume, Index.getPredictionTry, hok, JSVal.read, bind,
        Except.bind, pure, Except.pure, Page.setResult, Page.setTimeout, Page.setLoading]

/-- The same for the first response in `index _2_tempgraph.js`. -/
theorem Tempgraph.resume_result_null_iff_tempgraph (base type : String) (f : Fetched)
    (v : Tempgraph.View) :
    (Tempgraph.getPredictionResume base type f v).result = JSVal.null ↔
      ∃ status, ok status = true ∧ f = Fetched.response status (Except.ok JSVal.null) := by
  rcases f with m | ⟨status, m | data⟩
  · simp [Tempgraph.getPredictionResume, Tempgraph.getPredictionTry, Tempgraph.setResult,
      Tempgraph.setTimeout, Tempgraph.setLoading]
  · simp [Tempgraph.getPredictionResume, Tempgraph.getPredictionTry, Tempgraph.setResult,
      Tempgraph.setTimeout, Tempgraph.setLoading, bind, Except.bind]
  · by_cases hnow : type = "now" <;> cases hok : ok status <;> cases data <;>
      simp [Tempgraph.getPredictionResume, Tempgraph.getPredictionTry, hok, hnow, JSVal.read,
        bind, Except.bind, pure, Except.pure, Tempgraph.setResult, Tempgraph.setTimeout,
        Tempgraph.setLoading, Tempgraph.fetch]


/-- C29 (counterexample): in `index.js` one `getPrediction('morning')` whose response is a 2xx
with the JSON body `null` completes with `loading` false and no fetch pending, and `result` is
null at completion. -/
theorem C29_null_result_at_completion :
    (Index.run "http://localhost:8000" Page.init
      [Page.Event.click "morning",
        Page.Event.settle 0 (Fetched.response 200 (Except.ok JSVal.null))]).map
      (fun v => (v.loading, v.fetches)) = some (false, []) ∧
    (Index.run "http://localhost:8000" Page.init
      [Page.Event.click "morning",
        Page.Event.settle 0 (Fetched.response 200 (Except.ok JSVal.null))]).map
      (fun v => v.result) = some JSVal.null :=
  ⟨rfl, rfl⟩

/-- C29 (amended): for one `getPrediction` call with no other call overlapping it (no fetch is
pending when it starts, and until it has completed only reveal timers fire), `loading` is true
from the start of the call until its fetch settles and false once the call has completed, on
every path; in `index _2_tempgraph.js` a call for `now` whose first response is a 2xx with a
parsed body completes when the hourly fetch settles, `loading` is true until then and false
afterwards whether or not the hourly fetch failed.  At completion `result` is the stored
success body or Failure, which is null exactly when the first response is a 2xx whose body is
the JSON value `null`. -/
theorem C29_loading_flag_single_cycle (base type : String) (f h : Fetched)
    (ts1 ts2 ts3 : List Nat) :
    (∀ v v1 v2 : Page.View, v.fetches = [] →
      Index.run base v (Page.Event.click type :: ts1.map Page.Event.timeout) = some v1 →
      Index.run base v1 (Page.Event.settle 0 f :: ts2.map Page.Event.timeout) = some v2 →
      (Index.getPredictionStart base type v).loading = true ∧ v1.loading = true ∧
        v1.fetches = [base ++ "/predict/" ++ type] ∧ v2.loading = false ∧ v2.fetches = [] ∧
        (v2.result = JSVal.null ↔
          ∃ status, ok status = true ∧ f = Fetched.response status (Except.ok JSVal.null))) ∧
    (∀ w w1 w2 : Tempgraph.View, w.fetches = [] →
      ¬ (type = "now" ∧ Tempgraph.primarySucceeded f = true) →
      Tempgraph.run base w (Tempgraph.Event.click type :: ts1.map Tempgraph.Event.timeout) =
        some w1 →
      Tempgraph.run base w1 (Tempgraph.Event.settle 0 f :: ts2.map Tempgraph.Event.timeout) =
        some w2 →
      (Tempgraph.getPredictionStart base type w).loading = true ∧ w1.loading = true ∧
        w1.fetches = [⟨base ++ "/predict/" ++ type, type, false⟩] ∧ w2.loading = false ∧
        w2.fetches = [] ∧
        (w2.result = JSVal.null ↔
          ∃ status, ok status = true ∧ f = Fetched.response status (Except.ok JSVal.null))) ∧
    (∀ w w1 w2 w3 : Tempgraph.View, w.fetches = [] →
      Tempgraph.primarySucceeded f = true →
      Tempgraph.run base w (Tempgraph.Event.click "now" :: ts1.map Tempgraph.Event.timeout) =
        some w1 →
      Tempgraph.run base w1 (Tempgraph.Event.settle 0 f :: ts2.map Tempgraph.Event.timeout) =
        some w2 →
      Tempgraph.run base w2 (Tempgraph.Event.settle 0 h :: ts3.map Tempgraph.Event.timeout) =
        some w3 →
      w1.loading = true ∧ w2.loading = true ∧
        w2.fetches = [⟨base ++ "/predict/hourly/" ++ "now", "now", true⟩] ∧
        w3.loading = false ∧ w3.fetches = [] ∧ w3.result = w2.result ∧
        (w3.result = JSVal.null ↔
          ∃ status, ok status = true ∧ f = Fetched.response status (Except.ok JSVal.null))) := by
  refine ⟨?_, ?_, ?_⟩
  · intro v v1 v2 hv h1 h2
    simp only [Index.run, Page.run, Page.step, Option.some_bind] at h1
    have a := Page.run_timeouts _ _ ts1 _ _ h1
    have hf1 : v1.fetches = [base ++ "/predict/" ++ type] := by
      rw [a.2.2]
      simp [Index.getPredictionStart, Page.fetch, Page.setShowResult, Page.setResult,
        Page.setLoading, hv]
    simp only [Index.run, Page.run, Page.step, hf1, List.length_singleton, Nat.lt_one_iff,
      if_true, Option.some_bind] at h2
    have b := Page.run_timeouts _ _ ts2 _ _ h2
    refine ⟨rfl, ?_, hf1, ?_, ?_, ?_⟩
    · rw [a.1]
      rfl
    · rw [b.1, Index.resume_shape_index]
      rfl
    · rw [b.2.2, Index.resume_shape_index]
      rfl
    · rw [b.2.1]
      exact Index.resume_result_null_iff f _
  · intro w w1 w2 hw hpath h1 h2
    simp only [Tempgraph.run, Tempgraph.step, Option.some_bind] at h1
    have a := Tempgraph.run_timeouts_tempgraph _ ts1 _ _ h1
    have hf1 : w1.fetches = [⟨base ++ "/predict/" ++ type, type, false⟩] := by
      rw [a.2.2.1]
      simp [Tempgraph.getPredictionStart, Tempgraph.fetch, Tempgraph.setShowResult,
        Tempgraph.setResult, Tempgraph.setLoading, Tempgraph.setHourlyData, hw]
    simp only [Tempgraph.run, Tempgraph.step, hf1, List.getElem?_cons_zero,
      Option.some_bind] at h2
    simp only [Bool.false_eq_true, if_false, Option.some_bind] at h2
    have b := Tempgraph.run_timeouts_tempgraph _ ts2 _ _ h2
    refine ⟨rfl, ?_, hf1, ?_, ?_, ?_⟩
    · rw [a.1]
      rfl
    · rw [b.1, Tempgraph.resume_shape_settled _ _ _ _ hpath]
      rfl
    · rw [b.2.2.1, Tempgraph.resume_shape_settled _ _ _ _ hpath]
      rfl
    · rw [b.2.1]
      exact Tempgraph.resume_result_null_iff_tempgraph base type f _
  · intro w w1 w2 w3 hw hsucc h1 h2 h3
    simp only [Tempgraph.run, Tempgraph.step, Option.some_bind] at h1
    have a := Tempgraph.run_timeouts_tempgraph _ ts1 _ _ h1
    have hf1 : w1.fetches = [⟨base ++ "/predict/" ++ "now", "now", false⟩] := by
      rw [a.2.2.1]
      simp [Tempgraph.getPredictionStart, Tempgraph.fetch, Tempgraph.setShowResult,
        Tempgraph.setResult, Tempgraph.setLoading, Tempgraph.setHourlyData, hw]
    simp only [Tempgraph.run, Tempgraph.step, hf1, List.getElem?_cons_zero,
      Option.some_bind] at h2
    simp only [Bool.false_eq_true, if_false, Option.some_bind] at h2
    have b := Tempgraph.run_timeouts_tempgraph _ ts2 _ _ h2
    obtain ⟨status, data, hfe, hok⟩ : ∃ status data,
        f = Fetched.response status (Except.ok data) ∧ ok status = true := by
      rcases f with m | ⟨status, m | data⟩
      · simp [Tempgraph.primarySucceeded] at hsucc
      · simp [Tempgraph.primarySucceeded] at hsucc
      · exact ⟨status, data, rfl, by simpa [Tempgraph.primarySucceeded] using hsucc⟩
    rw [hfe, Tempgraph.resume_shape_suspended _ status data _ hok] at b
    have hl1 : w1.loading = true := by
      rw [a.1]
      rfl
    have hf2 : w2.fetches = [⟨base ++ "/predict/hourly/" ++ "now", "now", true⟩] := by
      rw [b.2.2.1]
      simp [Tempgraph.fetch, Tempgraph.setResult]
    have hl2 : w2.loading = true := by
      rw [b.1]
      simpa [Tempgraph.fetch, Tempgraph.setResult] using hl1
    have hr2 : w2.result = data := by
      rw [b.2.1]
      rfl
    simp only [Tempgraph.run, Tempgraph.step, hf2, List.getElem?_cons_zero,
      Option.some_bind] at h3
    simp only [if_true, Option.some_bind] at h3
    have c := Tempgraph.run_timeouts_tempgraph _ ts3 _ _ h3
    have hshape := Tempgraph.hourly_resume_shape h
      { w2 with fetches := (List.eraseIdx
        [(⟨base ++ "/predict/hourly/" ++ "now", "now", true⟩ : Tempgraph.Request)] 0) }
    have hr3 : w3.result = w2.result := by
      rw [c.2.1]
      rcases hshape with e | ⟨x, e⟩ <;> (rw [e]; rfl)
    refine ⟨hl1, hl2, hf2, ?_, ?_, hr3, ?_⟩
    · rw [c.1]
      rcases hshape with e | ⟨x, e⟩ <;> (rw [e]; rfl)
    · rw [c.2.2.1]
      rcases hshape with e | ⟨x, e⟩ <;> (rw [e]; rfl)
    · rw [hr3, hr2, hfe]
      constructor
      · intro e
        exact ⟨status, hok, by rw [e]⟩
      · rintro ⟨s, _, e⟩
        simp only [Fetched.response.injEq, Except.ok.injEq] at e
        exact e.2


theorem C29_loading_flag_single_cycle_witness :
    Page.init.fetches = [] ∧
    Index.run "http://localhost:8000" Page.init
        (Page.Event.click "morning" :: [].map Page.Event.timeout) =
      some ⟨JSVal.null, true, JSVal.str "", false, [],
        ["http://localhost:8000/predict/morning"]⟩ ∧
    Index.run "http://localhost:8000"
        ⟨JSVal.null, true, JSVal.str "", false, [], ["http://localhost:8000/predict/morning"]⟩
        (Page.Event.settle 0 (Fetched.response 200 (Except.ok Sample.morning)) ::
          [0].map Page.Event.timeout) =
      some ⟨Sample.morning, false, JSVal.str "", true, [], []⟩ ∧
    (⟨Sample.morning, false, JSVal.str "", true, [], []⟩ : Page.View).loading = false :=
  ⟨rfl, rfl, rfl,
    ((C29_loading_flag_single_cycle "http://localhost:8000" "morning"
      (Fetched.response 200 (Except.ok Sample.morning)) (Fetched.rejected "Failed to fetch")
      [] [0] []).1 Page.init
      ⟨JSVal.null, true, JSVal.str "", false, [], ["http://localhost:8000/predict/morning"]⟩
      ⟨Sample.morning, false, JSVal.str "", true, [], []⟩ rfl rfl rfl).2.2.2.1⟩

/-! ### C30: the colour of the precipitation card -/

/-- C30: `getPrecipitationColor` of `index_ im3.js` puts every numeric reading `p` into exactly
one band: `#BDC3C7` iff `p = 0`, `#5DADE2` iff `p < 5` and `p ≠ 0` (so for every negative `p`),
`#3498DB` iff `5 ≤ p < 20`, `#2874A6` iff `p ≥ 20`; the four colours are distinct, and a
missing reading (`undefined`) gets `#2874A6`. -/
theorem C30_precipitation_colour (conv : JSVal → Option ℚ) (p : ℚ) :
    (Im3.getPrecipitationColor conv (JSVal.num p) = "#BDC3C7" ↔ p = 0) ∧
    (Im3.getPrecipitationColor conv (JSVal.num p) = "#5DADE2" ↔ p < 5 ∧ p ≠ 0) ∧
    (Im3.getPrecipitationColor conv (JSVal.num p) = "#3498DB" ↔ 5 ≤ p ∧ p < 20) ∧
    (Im3.getPrecipitationColor conv (JSVal.num p) = "#2874A6" ↔ 20 ≤ p) ∧
    (p < 0 → Im3.getPrecipitationColor conv (JSVal.num p) = "#5DADE2") ∧
    Im3.getPrecipitationColor conv (JSVal.num p) ∈ ["#BDC3C7", "#5DADE2", "#3498DB", "#2874A6"] ∧
    ["#BDC3C7", "#5DADE2", "#3498DB", "#2874A6"].Nodup ∧
    Im3.getPrecipitationColor conv JSVal.undefined = "#2874A6" := by
  have hc : Im3.getPrecipitationColor conv (JSVal.num p) =
      if p = 0 then "#BDC3C7" else if p < 5 then "#5DADE2" else if p < 20 then "#3498DB"
      else "#2874A6" := by
    simp [Im3.getPrecipitationColor, JSVal.isNum, JSVal.lt, JSVal.toNumber]
  rw [hc]
  refine ⟨?_, ?_, ?_, ?_, ?_, ?_, by decide, ?_⟩
  · split_ifs <;> simp <;> assumption
  · split_ifs <;> simp <;>
      first | (constructor <;> assumption) | (intro; assumption) | (intro; linarith)
  · split_ifs <;> simp <;> first | (intro; linarith) | (constructor <;> linarith)
  · split_ifs <;> simp <;> linarith
  · intro hneg
    have h0 : p ≠ 0 := ne_of_lt hneg
    have h5 : p < 5 := by linarith
    simp [h0, h5]
  · split_ifs <;> simp
  · simp [Im3.getPrecipitationColor, JSVal.isNum, JSVal.lt, JSVal.toNumber]


theorem C30_precipitation_colour_witness :
    (-1 : ℚ) < 0 ∧
    Im3.getPrecipitationColor (fun _ => none) (JSVal.num (-1)) = "#5DADE2" ∧
    Im3.getPrecipitationColor (fun _ => none) (JSVal.num (25 / 2)) = "#3498DB" :=
  ⟨by norm_num,
    (C30_precipitation_colour (fun _ => none) (-1)).2.2.2.2.1 (by norm_num),
    (C30_precipitation_colour (fun _ => none) (25 / 2)).2.2.1.2 (by norm_num)⟩
